import Mathlib

/-! DiscordCoreAPI gateway client: frame codec, message assembler and shard lifecycle.

A shallow embedding of the WebSocket framing layer (`WebSocketCore::createHeader`,
`WebSocketCore::parseMessage`), of the shard lifecycle handlers
(`WebSocketSSLShard::onMessageReceived`, `disconnect`, `onClosed`) and of the reconnect
bookkeeping of `BaseSocketAgent::connect`, all from `Source/WebSocketEntities.cpp`.

Bytes are natural numbers; every store into a `uint8_t` is an explicit `% 256`, and the
`uint64_t` arithmetic of the assembler is an explicit `% 2 ^ 64`.

The definitions come first, the theorems after them.
-/

namespace DiscordCoreInternal

/-! ## Constants (WebSocketEntities.cpp, lines 39-45) -/

def webSocketMaxPayloadLengthLarge : Nat := 65535

def webSocketPayloadLengthMagicLarge : Nat := 126

def webSocketPayloadLengthMagicHuge : Nat := 127

def webSocketMaxPayloadLengthSmall : Nat := 125

def webSocketFinishBit : Nat := 1 <<< 7

def webSocketMaskBit : Nat := 1 <<< 7

/-- Modelled from the spec: the enumeration `WebSocketOpCode` is declared in
`WebSocketEntities.hpp`, which is not part of the sources at hand; the spec lists its six
members (Continuation, Text, Binary, Ping, Pong, Close). -/
inductive WebSocketOpCode
  | Op_Continuation
  | Op_Text
  | Op_Binary
  | Op_Close
  | Op_Ping
  | Op_Pong
  deriving DecidableEq, Repr

/-- Modelled from the spec: the numeric value of each opcode, `static_cast<uint8_t>(opCode)`;
the values are those of the WebSocket wire protocol (RFC 6455). -/
def WebSocketOpCode.toNat : WebSocketOpCode → Nat
  | .Op_Continuation => 0x00
  | .Op_Text => 0x01
  | .Op_Binary => 0x02
  | .Op_Close => 0x08
  | .Op_Ping => 0x09
  | .Op_Pong => 0x0a

/-- The opcodes that `parseMessage` sends down its length-decoding path (lines 246-254). -/
def WebSocketOpCode.isData : WebSocketOpCode → Bool
  | .Op_Close => false
  | _ => true

/-! ## Frame codec: `createHeader` -/

/-- The loop of `createHeader` (lines 204-206): `for (x = indexCount - 1; x >= 0; x--)` pushes
`static_cast<uint8_t>(sendLength >> x * 8)`. The first argument is `x + 1`. -/
def pushLengthBytes (sendLength : Nat) : Nat → List Nat → List Nat
  | 0, outBuffer => outBuffer
  | x + 1, outBuffer =>
    pushLengthBytes sendLength x (outBuffer ++ [(sendLength >>> (x * 8)) % 256])

/-- `WebSocketCore::createHeader(outBuffer, sendLength, opCode)` (lines 189-218); returns the
buffer after the call. The opcode is given by its numeric value, `static_cast<uint8_t>(opCode)`:
the field `dataOpCode` that callers pass holds whatever byte `parseMessage` stored in it. -/
def createHeader (outBuffer : List Nat) (sendLength : Nat) (opCode : Nat) : List Nat :=
  let out1 := outBuffer ++ [(opCode % 256 ||| webSocketFinishBit) % 256]
  let (out2, indexCount) :=
    if sendLength ≤ webSocketMaxPayloadLengthSmall then
      (out1 ++ [sendLength % 256], 0)
    else if sendLength ≤ webSocketMaxPayloadLengthLarge then
      (out1 ++ [webSocketPayloadLengthMagicLarge], 2)
    else
      (out1 ++ [webSocketPayloadLengthMagicHuge], 8)
  let out3 := pushLengthBytes sendLength indexCount out2
  let out4 := out3.set 1 ((out3.getD 1 0 ||| webSocketMaskBit) % 256)
  out4 ++ [0, 0, 0, 0]

/-- `WebSocketCore::prepMessageData` (lines 182-187): a fresh header followed by the data. -/
def prepMessageData (dataToSend : List Nat) (theOpCode : Nat) : List Nat :=
  createHeader [] dataToSend.length theOpCode ++ dataToSend

/-! ## Data model of a shard -/

/-- The connection states of a shard (`WebSocketState`, spec section 3), in their order. -/
inductive WebSocketState
  | Disconnected
  | Upgrading
  | Collecting_Hello
  | Sending_Identify
  | Authenticated
  deriving DecidableEq, Repr

/-- The two kinds of socket that share `WebSocketCore` (`WebSocketType`). -/
inductive WebSocketType
  | Normal
  | Voice
  deriving DecidableEq, Repr

/-- The reconnect request that `disconnect` leaves for the shard registry
(`DiscordCoreAPI::ConnectionPackage`, fields as assigned at lines 1440-1443). -/
structure ConnectionPackage where
  currentReconnectTries : Nat
  areWeResuming : Bool
  currentShard : Int
  deriving DecidableEq, Repr

/-- Modelled from the spec: `DiscordCoreAPI::StopWatch` is not part of the sources at hand; a
stopwatch is "a wall-clock stopwatch compared against elapsed time" (spec section 5), here the
wait time and the instant of the last reset. -/
structure StopWatch where
  maxNumberOfTimeUnits : Nat
  startTime : Nat
  deriving DecidableEq, Repr

/-- Modelled from the spec: `StopWatch::hasTimePassed`, true once the wait time has elapsed
since the last reset. -/
def StopWatch.hasTimePassed (w : StopWatch) (now : Nat) : Bool :=
  decide (w.maxNumberOfTimeUnits ≤ now - w.startTime)

/-- Modelled from the spec: `StopWatch::resetTimer`, restarts the wait at the current instant. -/
def StopWatch.resetTimer (w : StopWatch) (now : Nat) : StopWatch :=
  { w with startTime := now }

/-- What a handler run did to the outside world, in order (a ghost record: the source prints,
writes to the socket and calls the event manager). -/
inductive Effect
  | eventHandled (event : Nat)
  | sent (frame : List Nat)
  | slept (ms : Nat)
  deriving DecidableEq, Repr

/-- The value of `SOCKET_ERROR`. -/
def SOCKET_ERROR : Int := -1

/-- One shard: the fields of `WebSocketSSLShard` together with those of its base classes
`WebSocketCore` and `SSLClient` that the framing layer and the lifecycle handlers touch.
`inputBuffer` and `outputBuffer` are the transport's ring buffers, each a queue of chunks;
`doWeQuit` is the shared quit flag behind the pointer (`none` for a null pointer);
`connections` is the pending reconnect request; `trace` is the ghost record of effects. -/
structure WebSocketSSLShard where
  socket : Int
  ssl : Bool
  hasDiscordCoreClient : Bool
  typeOfWebSocket : WebSocketType
  currentState : WebSocketState
  areWeConnecting : Bool
  inputBuffer : List (List Nat)
  outputBuffer : List (List Nat)
  currentMessage : List Nat
  messageLength : Nat
  messageOffset : Nat
  dataOpCode : Nat
  closeCode : Nat
  areWeHeartBeating : Bool
  haveWeReceivedHeartbeatAck : Bool
  heartBeatStopWatch : StopWatch
  areWeResuming : Bool
  lastNumberReceived : Nat
  sessionId : String
  resumeUrl : String
  shard : Int × Int
  currentReconnectTries : Nat
  maxReconnectTries : Nat
  connections : Option ConnectionPackage
  doWeQuit : Option Bool
  trace : List Effect
  deriving DecidableEq, Repr

/-! ## LightString operations used by the assembler -/

/-- `LightString::erase(count, pos)` (LightString.hpp, lines 167-177) on the character
sequence of the string. -/
def LightString.erase (values : List Nat) (count : Nat) (pos : Nat) : List Nat :=
  if pos ≥ values.length then values
  else
    let count1 := min count (values.length - pos)
    if count1 > 0 then values.take pos ++ values.drop (pos + count1) else values

/-- `LightString::writeData(valuesNew, sizeNew)` (lines 159-165): appends the new bytes. -/
def LightString.writeData (values : List Nat) (valuesNew : List Nat) : List Nat :=
  values ++ valuesNew

/-- Modelled from the spec: `currentMessage[LengthData{ offSet, length }]`, the view of
`length` bytes that starts at `offSet`; the operator is declared outside the sources at hand
(its sibling `stringView`, LightString.hpp line 179, is `{ values + offset, size }`, which does
not clamp). A view that reaches past the end of the string shows bytes that the string does not
determine: `none`. -/
def lengthDataSlice (values : List Nat) (offSet length : Nat) : Option (List Nat) :=
  if offSet + length ≤ values.length then some ((values.drop offSet).take length) else none

/-- Modelled from the spec: `SSLClient::getInputBuffer` (not part of the sources at hand),
which hands out the oldest chunk the transport has queued and removes it from the ring buffer;
an empty view when nothing is queued. -/
def getInputBuffer (s : WebSocketSSLShard) : List Nat × WebSocketSSLShard :=
  match s.inputBuffer with
  | [] => ([], s)
  | chunk :: rest => (chunk, { s with inputBuffer := rest })

/-- Modelled from the spec: `inputBuffer.getUsedSpace()`, the number of queued chunks. -/
def getUsedSpace (s : WebSocketSSLShard) : Nat := s.inputBuffer.length

/-- Modelled from the spec: `SSLClient::areWeStillConnected` (not part of the sources at
hand): the socket is open, the condition `disconnect` tests at line 1431. -/
def areWeStillConnected (s : WebSocketSSLShard) : Bool := decide (s.socket ≠ SOCKET_ERROR)

/-! ## Message assembler: `parseMessage` -/

/-- The load `uint8_t b = this->currentMessage[index]`. -/
def byteAt (values : List Nat) (index : Nat) : Nat := values.getD index 0 % 256

/-- The virtual members that `parseMessage` calls, and the conversion of a close status into
the close code (`WebSocketClose` and `VoiceWebSocketClose` are declared outside the sources at
hand, so the conversion is a parameter). -/
structure Collaborators where
  onMessageReceived : WebSocketSSLShard → List Nat → Bool × WebSocketSSLShard
  onClosed : WebSocketSSLShard → WebSocketSSLShard
  closeCodeOf : WebSocketType → Nat → Nat

/-- How one call of `parseMessage` ended. `overrun` is the call in which the completeness test
of line 280 passes although the assembled message is shorter than the frame (the 64-bit sum
wraps around): the handler is given a view that reaches past the end of the message, and what
it reads there is not determined by the sources. -/
inductive ParseOutcome
  | idle
  | notReady
  | masked
  | unknownOpCode
  | delivered (payload : List Nat) (accepted : Bool)
  | overrun
  | closed (close : Nat)
  deriving DecidableEq, Repr

/-- How the length decoding of `parseMessage` (lines 255-279) ended. -/
inductive HeaderStatus
  | masked
  | incomplete
  | decoded
  deriving DecidableEq, Repr

/-- The loop at lines 274-277:
`for (x = 2, shift = 56; x < 10; ++x, shift -= 8) messageLength |= (byte & 0xff) << shift`,
on `uint64_t`. -/
def hugeLengthLoop (values : List Nat) : Nat → Nat → Nat → Nat → Nat
  | 0, _, _, messageLength => messageLength
  | fuel + 1, x, shift, messageLength =>
    if x < 10 then
      hugeLengthLoop values fuel (x + 1) (shift - 8)
        (messageLength ||| (((byteAt values x &&& 0xff) <<< shift) % 2 ^ 64))
    else messageLength

/-- Lines 255-279 of `parseMessage`: the length decoding of a data, ping or pong frame. -/
def WebSocketCore.decodeLength (s : WebSocketSSLShard) : WebSocketSSLShard × HeaderStatus :=
  let length01 := byteAt s.currentMessage 1
  let s1 := { s with messageOffset := 2 }
  if length01 &&& webSocketMaskBit ≠ 0 then (s1, .masked)
  else
    let s2 := { s1 with messageLength := length01 }
    if length01 = webSocketPayloadLengthMagicLarge then
      if s2.currentMessage.length < 8 then (s2, .incomplete)
      else
        let length03 := byteAt s2.currentMessage 2
        let length04 := byteAt s2.currentMessage 3
        ({ s2 with messageLength := (length03 <<< 8) ||| length04,
                   messageOffset := (s2.messageOffset + 2) % 2 ^ 64 }, .decoded)
    else if length01 = webSocketPayloadLengthMagicHuge then
      if s2.currentMessage.length < 10 then (s2, .incomplete)
      else
        ({ s2 with messageLength := hugeLengthLoop s2.currentMessage 8 2 56 0,
                   messageOffset := (s2.messageOffset + 8) % 2 ^ 64 }, .decoded)
    else (s2, .decoded)

/-- Lines 283-289 of `parseMessage`: the hand-over of the payload to the handler and, when the
handler accepts it, the removal of the consumed prefix. -/
def WebSocketCore.handOver (c : Collaborators) (s : WebSocketSSLShard) (payload : List Nat) :
    WebSocketSSLShard × ParseOutcome :=
  let received := c.onMessageReceived s payload
  let s1 := received.2
  if received.1 = true then
    ({ s1 with
        currentMessage :=
          LightString.erase s1.currentMessage ((s1.messageLength + s1.messageOffset) % 2 ^ 64) 0,
        messageOffset := 0,
        messageLength := 0 }, .delivered payload true)
  else (s1, .delivered payload false)

/-- Lines 280-290 of `parseMessage`: the completeness test on the 64-bit sum of header size and
payload length, then the hand-over of the view of the payload. -/
def WebSocketCore.deliver (c : Collaborators) (s : WebSocketSSLShard) :
    WebSocketSSLShard × ParseOutcome :=
  if s.currentMessage.length < (s.messageOffset + s.messageLength) % 2 ^ 64 then
    (s, .notReady)
  else
    match lengthDataSlice s.currentMessage s.messageOffset s.messageLength with
    | none => (s, .overrun)
    | some payload => WebSocketCore.handOver c s payload

/-- Lines 292-320 of `parseMessage`: the Close frame. -/
def WebSocketCore.handleClose (c : Collaborators) (s : WebSocketSSLShard) :
    WebSocketSSLShard × ParseOutcome :=
  let close := ((((byteAt s.currentMessage 2 &&& 0xff) <<< 8) % 2 ^ 16) |||
    (byteAt s.currentMessage 3 &&& 0xff)) % 2 ^ 16
  let closeCode := c.closeCodeOf s.typeOfWebSocket close % 2 ^ 16
  let s1 := if closeCode ≠ 0 then { s with areWeResuming := true } else s
  (c.onClosed s1, .closed close)

/-- Lines 234-237 of `parseMessage`: the next chunk of input is appended to the assembled
message only while the message is empty or shorter than the frame being awaited. -/
def WebSocketCore.assemble (s : WebSocketSSLShard) : WebSocketSSLShard :=
  if s.currentMessage.length < (s.messageLength + s.messageOffset) % 2 ^ 64 ∨
      s.currentMessage.length = 0 then
    let (string, s0) := getInputBuffer s
    { s0 with currentMessage := LightString.writeData s0.currentMessage string }
  else s

/-- The shard with a decoded opcode, payload length and header size stored in the fields
`dataOpCode`, `messageLength` and `messageOffset`. -/
def WebSocketSSLShard.withHeader (s : WebSocketSSLShard) (opCode length offSet : Nat) :
    WebSocketSSLShard :=
  { s with dataOpCode := opCode, messageLength := length, messageOffset := offSet }

/-- `WebSocketCore::parseMessage` (lines 232-323). -/
def WebSocketCore.parseMessage (c : Collaborators) (s : WebSocketSSLShard) :
    WebSocketSSLShard × ParseOutcome :=
  if getUsedSpace s > 0 then
    let s1 := WebSocketCore.assemble s
    if s1.currentMessage.length < 4 then (s1, .notReady)
    else
      let opCode := byteAt s1.currentMessage 0 &&& (255 ^^^ webSocketFinishBit)
      let s2 := { s1 with dataOpCode := opCode, messageLength := 0, messageOffset := 0 }
      if opCode = 0x00 ∨ opCode = 0x01 ∨ opCode = 0x02 ∨ opCode = 0x09 ∨ opCode = 0x0a then
        match WebSocketCore.decodeLength s2 with
        | (s3, .masked) => (s3, .masked)
        | (s3, .incomplete) => (s3, .notReady)
        | (s3, .decoded) => WebSocketCore.deliver c s3
      else if opCode = 0x08 then WebSocketCore.handleClose c s2
      else (s2, .unknownOpCode)
  else (s, .idle)

/-! ## Event names -/

/-- The event names that `EventConverter::operator int32_t` (lines 51-175) compares against,
in the order of its chain of comparisons. -/
def eventNames : List String :=
  ["READY", "RESUMED", "APPLICATION_COMMAND_PERMISSIONS_UPDATE", "AUTO_MODERATION_RULE_CREATE",
   "AUTO_MODERATION_RULE_UPDATE", "AUTO_MODERATION_RULE_DELETE",
   "AUTO_MODERATION_ACTION_EXECUTION", "CHANNEL_CREATE", "CHANNEL_UPDATE", "CHANNEL_DELETE",
   "CHANNEL_PINS_UPDATE", "THREAD_CREATE", "THREAD_UPDATE", "THREAD_DELETE",
   "THREAD_LIST_SYNC", "THREAD_MEMBER_UPDATE", "THREAD_MEMBERS_UPDATE", "GUILD_CREATE",
   "GUILD_UPDATE", "GUILD_DELETE", "GUILD_BAN_ADD", "GUILD_BAN_REMOVE", "GUILD_EMOJIS_UPDATE",
   "GUILD_STICKERS_UPDATE", "GUILD_INTEGRATIONS_UPDATE", "GUILD_MEMBER_ADD",
   "GUILD_MEMBER_REMOVE", "GUILD_MEMBER_UPDATE", "GUILD_MEMBERS_CHUNK", "GUILD_ROLE_CREATE",
   "GUILD_ROLE_UPDATE", "GUILD_ROLE_DELETE", "GUILD_SCHEDULED_EVENT_CREATE",
   "GUILD_SCHEDULED_EVENT_UPDATE", "GUILD_SCHEDULED_EVENT_DELETE",
   "GUILD_SCHEDULED_EVENT_USER_ADD", "GUILD_SCHEDULED_EVENT_USER_REMOVE", "INTEGRATION_CREATE",
   "INTEGRATION_UPDATE", "INTEGRATION_DELETE", "INTERACTION_CREATE", "INVITE_CREATE",
   "INVITE_DELETE", "MESSAGE_CREATE", "MESSAGE_UPDATE", "MESSAGE_DELETE",
   "MESSAGE_DELETE_BULK", "MESSAGE_REACTION_ADD", "MESSAGE_REACTION_REMOVE",
   "MESSAGE_REACTION_REMOVE_ALL", "MESSAGE_REACTION_REMOVE_EMOJI", "PRESENCE_UPDATE",
   "STAGE_INSTANCE_CREATE", "STAGE_INSTANCE_UPDATE", "STAGE_INSTANCE_DELETE", "TYPING_START",
   "USER_UPDATE", "VOICE_STATE_UPDATE", "VOICE_SERVER_UPDATE", "WEBHOOKS_UPDATE"]

/-- `EventConverter::operator int32_t` (lines 51-175): the chain of string comparisons returns
the position (from 1) of the first name equal to the event value, and 0 when none is. -/
def EventConverter (eventValue : String) : Nat :=
  let index := eventNames.indexOf eventValue
  if index < eventNames.length then index + 1 else 0

/-! ## Teardown: `disconnect` and `onClosed` -/

/-- `WebSocketSSLShard::disconnect` (lines 1430-1445). -/
def WebSocketSSLShard.disconnect (s : WebSocketSSLShard) : WebSocketSSLShard :=
  if s.socket ≠ SOCKET_ERROR then
    { s with
      socket := SOCKET_ERROR,
      ssl := false,
      currentState := .Disconnected,
      areWeConnecting := true,
      outputBuffer := [],
      inputBuffer := [],
      closeCode := 0,
      areWeHeartBeating := false,
      connections := some
        { currentReconnectTries := s.currentReconnectTries,
          areWeResuming := s.areWeResuming,
          currentShard := s.shard.1 } }
  else s

/-- `WebSocketSSLShard::onClosed` (lines 1447-1455). -/
def WebSocketSSLShard.onClosed (s : WebSocketSSLShard) : WebSocketSSLShard :=
  if s.maxReconnectTries > s.currentReconnectTries then WebSocketSSLShard.disconnect s
  else { s with doWeQuit := s.doWeQuit.map (fun _ => true) }

/-! ## The outside world of a handler run -/

/-- The decoded envelope `{op, s, t}` of a payload (`WebSocketMessage`). -/
structure WebSocketMessage where
  op : Int
  s : Nat
  t : String
  deriving DecidableEq, Repr

/-- Modelled from the spec: the value of a default-constructed `WebSocketMessage` (declared
outside the sources at hand), which matches none of the handled operation codes. -/
def WebSocketMessage.empty : WebSocketMessage := { op := -1, s := 0, t := "" }

/-- What decoding the envelope of a payload gives: an exception, a parse that did not succeed
(the message keeps its default value), or the message. -/
inductive Envelope
  | raised
  | unparsed
  | parsed (message : WebSocketMessage)
  deriving DecidableEq, Repr

/-- Everything the decoders (`ErlParser`, `simdjson`, `processJsonMessage`, all outside the
sources at hand) extract from one payload: the envelope, whether decoding the type-specific
structure raises, and the fields the lifecycle reads from `ReadyData`, `InvalidSessionData`
and `HelloData`. -/
structure Decoded where
  envelope : Envelope
  dataRaises : Bool
  sessionId : String
  resumeGatewayUrl : String
  d : Bool
  heartbeatInterval : Nat
  deriving DecidableEq, Repr

/-- The control messages a shard serialises (spec section 6). -/
inductive Outbound
  | identify (currentShard numberOfShards : Int)
  | resume (sessionId : String) (lastNumberReceived : Nat)
  | heartbeat (lastNumberReceived : Nat)
  deriving DecidableEq, Repr

/-- The collaborators of one handler run that lie outside the sources at hand: the payload
decoders, the serialiser (`Jsonifier`, told whether the data opcode is binary), the clock,
whether the transport takes a write within the 5 second budget of `sendMessage`, and the
delay `numOfMsToWait` drawn at lines 1304-1306. -/
structure Environment where
  decode : List Nat → Decoded
  serialize : Outbound → Bool → List Nat
  now : Nat
  canWrite : Bool
  numOfMsToWait : Nat

/-! ## Sending -/

/-- `WebSocketCore::sendMessage` (lines 421-457). `writeData` belongs to `SSLClient`; a write
that succeeds queues the frame on the output buffer, one that does not within the budget ends
in `onClosed`. -/
def WebSocketCore.sendMessage (env : Environment) (s : WebSocketSSLShard)
    (dataToSend : List Nat) : Bool × WebSocketSSLShard :=
  if dataToSend.length = 0 then (false, s)
  else if env.canWrite then
    (true, { s with outputBuffer := s.outputBuffer ++ [dataToSend],
                    trace := s.trace ++ [.sent dataToSend] })
  else (false, WebSocketSSLShard.onClosed s)

/-- `WebSocketCore::checkForAndSendHeartBeat` (lines 1391-1422). -/
def WebSocketCore.checkForAndSendHeartBeat (env : Environment) (s : WebSocketSSLShard)
    (isImmediate : Bool) : Bool × WebSocketSSLShard :=
  if (s.currentState = .Authenticated ∧ s.heartBeatStopWatch.hasTimePassed env.now = true ∧
      s.haveWeReceivedHeartbeatAck = true) ∨ isImmediate = true then
    let data := env.serialize (.heartbeat s.lastNumberReceived)
      (decide (s.dataOpCode = WebSocketOpCode.Op_Binary.toNat))
    let string := prepMessageData data s.dataOpCode
    let sent := WebSocketCore.sendMessage env s string
    let s1 := sent.2
    if sent.1 = false then (false, s1)
    else
      (true, { s1 with haveWeReceivedHeartbeatAck := false,
                       heartBeatStopWatch := s1.heartBeatStopWatch.resetTimer env.now })
  else (false, s)

/-! ## The message handler of a shard: `onMessageReceived` -/

/-- The statements that end every rejecting path of `onMessageReceived` (lines 490-494,
1376-1380 and 1384-1388): both buffers are cleared, the frame cursor is reset and the handler
returns false. -/
def WebSocketSSLShard.dropMessage (s : WebSocketSSLShard) : Bool × WebSocketSSLShard :=
  (false, { s with currentMessage := [], inputBuffer := [], messageLength := 0,
                   messageOffset := 0 })

/-- Case 0 of `switch (message.op)` (lines 516-1278), Dispatch. Cases 3 to 60 of the inner
switch decode a type-specific structure and hand it to the event manager, an opaque sink: the
model records the event; a decoder that raises ends in the `catch` of the handler. The
voice-collection fields that cases 58 and 59 update are not part of the model. -/
def WebSocketSSLShard.onDispatch (decoded : Decoded) (message : WebSocketMessage)
    (s : WebSocketSSLShard) : Bool × WebSocketSSLShard :=
  if message.t ≠ "" then
    let event := EventConverter message.t
    if event = 1 then
      if decoded.dataRaises then WebSocketSSLShard.dropMessage s
      else
        (true, { s with
          currentState := .Authenticated,
          sessionId := decoded.sessionId,
          resumeUrl := decoded.resumeGatewayUrl,
          currentReconnectTries := 0,
          trace := s.trace ++ [.eventHandled 1] })
    else if event = 2 then
      (true, { s with
        currentState := .Authenticated,
        currentReconnectTries := 0,
        trace := s.trace ++ [.eventHandled 2] })
    else if 3 ≤ event ∧ event ≤ 60 then
      if decoded.dataRaises then WebSocketSSLShard.dropMessage s
      else (true, { s with trace := s.trace ++ [.eventHandled event] })
    else (true, s)
  else (true, s)

/-- Lines 1325-1359 of case 10: a Resume frame when the shard is resuming, an Identify frame
otherwise; the state advances to `Sending_Identify` when the frame has been sent. -/
def WebSocketSSLShard.identifyOrResume (env : Environment) (s : WebSocketSSLShard) :
    Bool × WebSocketSSLShard :=
  let outbound :=
    if s.areWeResuming then Outbound.resume s.sessionId s.lastNumberReceived
    else Outbound.identify s.shard.1 s.shard.2
  let data := env.serialize outbound (decide (s.dataOpCode = WebSocketOpCode.Op_Binary.toNat))
  let string := prepMessageData data s.dataOpCode
  let sent := WebSocketCore.sendMessage env s string
  let s1 := sent.2
  if sent.1 = false then (true, s1)
  else (true, { s1 with currentState := .Sending_Identify })

/-- Case 10 of `switch (message.op)` (lines 1316-1361), Hello. -/
def WebSocketSSLShard.onHello (env : Environment) (decoded : Decoded)
    (s : WebSocketSSLShard) : Bool × WebSocketSSLShard :=
  if decoded.dataRaises then WebSocketSSLShard.dropMessage s
  else
    WebSocketSSLShard.identifyOrResume env
      (if decoded.heartbeatInterval ≠ 0 then
        { s with
          areWeHeartBeating := true,
          heartBeatStopWatch :=
            (StopWatch.mk decoded.heartbeatInterval env.now).resetTimer env.now,
          haveWeReceivedHeartbeatAck := true }
      else s)

/-- The `switch (message.op)` of `onMessageReceived` (lines 515-1369) and the `return true`
after it. -/
def WebSocketSSLShard.onOperation (env : Environment) (decoded : Decoded)
    (message : WebSocketMessage) (s : WebSocketSSLShard) : Bool × WebSocketSSLShard :=
  if message.op = 0 then WebSocketSSLShard.onDispatch decoded message s
  else if message.op = 1 then (true, (WebSocketCore.checkForAndSendHeartBeat env s true).2)
  else if message.op = 7 then
    (true, WebSocketSSLShard.onClosed { s with areWeResuming := true })
  else if message.op = 9 then
    if decoded.dataRaises then WebSocketSSLShard.dropMessage s
    else
      (true, WebSocketSSLShard.onClosed
        { s with areWeResuming := decoded.d,
                 trace := s.trace ++ [.slept env.numOfMsToWait] })
  else if message.op = 10 then WebSocketSSLShard.onHello env decoded s
  else if message.op = 11 then (true, { s with haveWeReceivedHeartbeatAck := true })
  else (true, s)

/-- Lines 505-1370 of `onMessageReceived`: the sequence number is recorded when it is not
zero, then the operation code is switched on. -/
def WebSocketSSLShard.handleMessage (env : Environment) (decoded : Decoded)
    (message : WebSocketMessage) (s : WebSocketSSLShard) : Bool × WebSocketSSLShard :=
  WebSocketSSLShard.onOperation env decoded message
    (if message.s ≠ 0 then { s with lastNumberReceived := message.s } else s)

/-- The `try` block of `onMessageReceived` (lines 470-1370): the envelope is decoded when the
payload is not empty, then the message is handled; an exception while decoding ends in one of
the `catch` blocks, which drop the message. -/
def WebSocketSSLShard.tryMessage (env : Environment) (s : WebSocketSSLShard)
    (dataNew : List Nat) : Bool × WebSocketSSLShard :=
  let decoded := env.decode dataNew
  match (if dataNew.length > 0 then decoded.envelope else Envelope.unparsed) with
  | .raised => WebSocketSSLShard.dropMessage s
  | .unparsed => WebSocketSSLShard.handleMessage env decoded WebSocketMessage.empty s
  | .parsed message => WebSocketSSLShard.handleMessage env decoded message s

/-- `WebSocketSSLShard::onMessageReceived` (lines 463-1389). The guard is the condition of
lines 465-467 with the precedence of `&&` over `||`. -/
def WebSocketSSLShard.onMessageReceived (env : Environment) (s : WebSocketSSLShard)
    (dataNew : List Nat) : Bool × WebSocketSSLShard :=
  if s.hasDiscordCoreClient then
    if (areWeStillConnected s = true ∧ s.currentMessage.length > 0 ∧
        (s.currentState = .Authenticated ∨ s.currentState = .Sending_Identify)) ∨
        s.currentState = .Collecting_Hello then
      WebSocketSSLShard.tryMessage env s dataNew
    else WebSocketSSLShard.dropMessage s
  else WebSocketSSLShard.dropMessage s

/-- The virtual members of a shard as `parseMessage` sees them. -/
def WebSocketSSLShard.collaborators (env : Environment)
    (closeCodeOf : WebSocketType → Nat → Nat) : Collaborators :=
  { onMessageReceived := WebSocketSSLShard.onMessageReceived env,
    onClosed := WebSocketSSLShard.onClosed,
    closeCodeOf := closeCodeOf }

/-- The number a byte sequence denotes when read big-endian (most significant byte first). -/
def bigEndian (bytes : List Nat) : Nat := bytes.foldl (fun acc b => acc * 256 + b) 0

/-- The payload length announced by the header at the start of `values`, read as the length
byte, or the next 2 bytes big-endian after the magic value 126, or the next 8 bytes
big-endian after the magic value 127. -/
def announcedLength (values : List Nat) : Nat :=
  if byteAt values 1 < 126 then byteAt values 1
  else if byteAt values 1 = 126 then bigEndian [byteAt values 2, byteAt values 3]
  else bigEndian [byteAt values 2, byteAt values 3, byteAt values 4, byteAt values 5,
    byteAt values 6, byteAt values 7, byteAt values 8, byteAt values 9]

/-- The header size that goes with `announcedLength`: 2, 4 or 10 bytes. -/
def announcedHeaderSize (values : List Nat) : Nat :=
  if byteAt values 1 < 126 then 2 else if byteAt values 1 = 126 then 4 else 10

/-- The opcodes of the frames whose length `parseMessage` decodes: continuation, text, binary,
ping and pong. -/
def isDataOpCode (opCode : Nat) : Prop :=
  opCode = 0x00 ∨ opCode = 0x01 ∨ opCode = 0x02 ∨ opCode = 0x09 ∨ opCode = 0x0a

instance (opCode : Nat) : Decidable (isDataOpCode opCode) := by
  unfold isDataOpCode; infer_instance

/-- A shard as it stands once the transport is connected and nothing has been received: open
socket, empty buffers, three reconnect tries allowed. -/
def sampleShard : WebSocketSSLShard :=
  { socket := 3, ssl := true, hasDiscordCoreClient := true, typeOfWebSocket := .Normal,
    currentState := .Collecting_Hello, areWeConnecting := true, inputBuffer := [],
    outputBuffer := [], currentMessage := [], messageLength := 0, messageOffset := 0,
    dataOpCode := 1, closeCode := 0, areWeHeartBeating := false,
    haveWeReceivedHeartbeatAck := true, heartBeatStopWatch := ⟨0, 0⟩, areWeResuming := false,
    lastNumberReceived := 0, sessionId := "", resumeUrl := "", shard := (0, 1),
    currentReconnectTries := 0, maxReconnectTries := 3, connections := none,
    doWeQuit := some false, trace := [] }

/-- Collaborators whose message handler accepts every payload and changes nothing, and whose
close handler changes nothing. -/
def acceptAll : Collaborators :=
  { onMessageReceived := fun s _ => (true, s), onClosed := fun s => s,
    closeCodeOf := fun _ close => close }

/-! ## Reading a header: announced length, matching header size, unmasked copy -/

/-- The header with the mask bit of byte 1 cleared, as a peer that does not mask would send
it. -/
def clearMaskBit (header : List Nat) : List Nat :=
  header.set 1 (byteAt header 1 &&& (255 ^^^ webSocketMaskBit))

/-- The header size of the decoder that matches the length form `createHeader` chooses. -/
def matchingHeaderSize (L : Nat) : Nat :=
  if L ≤ 125 then 2 else if L ≤ 65535 then 4 else 10

/-! ## Agreement on the frame cursor -/

/-- Two shards agree on the assembled message and on the frame cursor. -/
def SameFrame (a b : WebSocketSSLShard) : Prop :=
  a.currentMessage = b.currentMessage ∧ a.messageLength = b.messageLength ∧
    a.messageOffset = b.messageOffset

/-- An environment in which every payload decodes to a Heartbeat Ack (operation code 11),
the serialiser writes two bytes, the clock stands at 0 and the transport takes every write. -/
def sampleEnvironment : Environment :=
  { decode := fun _ =>
      { envelope := .parsed { op := 11, s := 0, t := "" }, dataRaises := false,
        sessionId := "", resumeGatewayUrl := "", d := false, heartbeatInterval := 0 },
    serialize := fun _ _ => [0x5b, 0x5d],
    now := 0,
    canWrite := true,
    numOfMsToWait := 1000 }

/-- The close-code conversion that returns the status it is given. -/
def plainCloseCode : WebSocketType → Nat → Nat := fun _ close => close

/-! ## Feeding a frame in chunks -/

/-- One transport read followed by one call of `parseMessage`: the chunk is queued on the
input ring buffer, then the assembler runs. -/
def feedChunk (c : Collaborators) (s : WebSocketSSLShard) (chunk : List Nat) :
    WebSocketSSLShard × ParseOutcome :=
  WebSocketCore.parseMessage c { s with inputBuffer := s.inputBuffer ++ [chunk] }

/-- The payloads handed to `onMessageReceived` while the chunks are fed one per call of
`parseMessage`, together with the final shard. -/
def feedChunks (c : Collaborators) :
    WebSocketSSLShard → List (List Nat) → WebSocketSSLShard × List (List Nat)
  | s, [] => (s, [])
  | s, chunk :: rest =>
    let fed := feedChunk c s chunk
    let later := feedChunks c fed.1 rest
    match fed.2 with
    | .delivered payload _ => (later.1, payload :: later.2)
    | _ => later

/-! ## Sample environments -/

/-- The sample environment with a decoder that reads the given message from every payload,
together with a session id, a resume URL and a heartbeat interval of 45000 ms. -/
def environmentDecoding (message : WebSocketMessage) : Environment :=
  { sampleEnvironment with
    decode := fun _ =>
      { envelope := .parsed message, dataRaises := false, sessionId := "session",
        resumeGatewayUrl := "wss://resume", d := false, heartbeatInterval := 45000 } }

/-! ## Reconnect bookkeeping of `BaseSocketAgent` -/

/-- Lines 1479-1480 and 1503 of `BaseSocketAgent::connect`: the shard takes over the tries
count of the reconnect request, incremented by one, and enters `Upgrading`. -/
def BaseSocketAgent.beginConnect (packageNew : ConnectionPackage) (s : WebSocketSSLShard) :
    WebSocketSSLShard :=
  { s with currentReconnectTries := packageNew.currentReconnectTries + 1,
           currentState := .Upgrading }

/-! ## Marking a shard as resuming -/

/-- The shard after `this->areWeResuming = true` (line 308). -/
def WebSocketSSLShard.markResuming (s : WebSocketSSLShard) : WebSocketSSLShard :=
  { s with areWeResuming := true }

/-! ## Hello: the captured interval and the frame that answers -/

/-- Lines 1318-1324 of case 10: a heartbeat interval that is not zero starts the heartbeat
timer with that interval and marks the last heartbeat as acknowledged. -/
def WebSocketSSLShard.withHeartBeat (heartbeatInterval now : Nat) (s : WebSocketSSLShard) :
    WebSocketSSLShard :=
  if heartbeatInterval ≠ 0 then
    { s with
      areWeHeartBeating := true,
      heartBeatStopWatch := (StopWatch.mk heartbeatInterval now).resetTimer now,
      haveWeReceivedHeartbeatAck := true }
  else s

/-- The frame that answers a Hello (lines 1325-1355): a Resume message when the shard is
resuming, an Identify message otherwise, behind a header with the data opcode of the shard. -/
def WebSocketSSLShard.helloFrame (env : Environment) (s : WebSocketSSLShard) : List Nat :=
  prepMessageData
    (env.serialize
      (if s.areWeResuming then Outbound.resume s.sessionId s.lastNumberReceived
        else Outbound.identify s.shard.1 s.shard.2)
      (decide (s.dataOpCode = WebSocketOpCode.Op_Binary.toNat)))
    s.dataOpCode

/-- The shard after a frame has been written and the state has advanced to
`Sending_Identify` (lines 1337-1340 and 1356-1359). -/
def WebSocketSSLShard.afterIdentify (frame : List Nat) (s : WebSocketSSLShard) :
    WebSocketSSLShard :=
  { s with
    outputBuffer := s.outputBuffer ++ [frame],
    trace := s.trace ++ [.sent frame],
    currentState := .Sending_Identify }

/-- A serialiser that writes one byte, the gateway operation code of the message: 2 for
Identify, 6 for Resume, 1 for Heartbeat. -/
def tagSerialize : Outbound → Bool → List Nat
  | .identify _ _, _ => [2]
  | .resume _ _, _ => [6]
  | .heartbeat _, _ => [1]

/-- The environment that decodes the given message from every payload and serialises with
`tagSerialize`. -/
def taggedEnvironment (message : WebSocketMessage) : Environment :=
  { environmentDecoding message with serialize := tagSerialize }

/-! ## The order of the connection states -/

/-- The position of a connection state in the order Disconnected, Upgrading,
Collecting_Hello, Sending_Identify, Authenticated. -/
def WebSocketState.rank : WebSocketState → Nat
  | .Disconnected => 0
  | .Upgrading => 1
  | .Collecting_Hello => 2
  | .Sending_Identify => 3
  | .Authenticated => 4

/-- The second shard has the connection state of the first, or it has been torn down: its
state is `Disconnected` and its socket is closed. -/
def SameStateOrTornDown (a b : WebSocketSSLShard) : Prop :=
  b.currentState = a.currentState ∨
    (b.currentState = .Disconnected ∧ b.socket = SOCKET_ERROR)

/-! ## Task pool: `WorkerThread` and `CoRoutineThreadPool` (ThreadPool.hpp) -/

/-- `struct WorkerThread` (ThreadPool.hpp, lines 123-140): the queue of continuations (each
continuation is a number here), the busy flag and whether the owned thread is joinable. -/
structure WorkerThread where
  tasks : List Nat
  areWeCurrentlyWorking : Bool
  joinable : Bool
  deriving DecidableEq, Repr

/-- A default-constructed `WorkerThread`: empty queue, busy flag false, no thread. -/
def WorkerThread.default : WorkerThread :=
  { tasks := [], areWeCurrentlyWorking := false, joinable := false }

/-- The worker that `submitTask` builds at lines 175-181: a default worker that has been given
a running thread. -/
def WorkerThread.spawned : WorkerThread :=
  { tasks := [], areWeCurrentlyWorking := false, joinable := true }

/-- The members of `CoRoutineThreadPool` (lines 192-196). `workerThreads` lists the entries of
the `std::unordered_map` in the order the map iterates over them, which the language leaves
unspecified; keys are unique in a map. -/
structure CoRoutineThreadPool where
  workerThreads : List (Int × WorkerThread)
  currentCount : Int
  currentIndex : Int
  threadCount : Int
  deriving DecidableEq, Repr

/-- The value of `std::numeric_limits<size_t>::max()`. -/
def sizeMax : Nat := 2 ^ 64 - 1

/-- The place a new entry takes in the iteration order of the map: `position` entries come
before it (all of them when there are fewer). The source does not determine it. -/
def insertEntry (position : Nat) (entry : Int × WorkerThread)
    (workerThreads : List (Int × WorkerThread)) : List (Int × WorkerThread) :=
  workerThreads.take position ++ entry :: workerThreads.drop position

/-- Whether the map has an entry with the key. -/
def containsKey (key : Int) (workerThreads : List (Int × WorkerThread)) : Bool :=
  workerThreads.any (fun entry => decide (entry.1 = key))

/-- `workerThreads[key] = std::move(workerThread)` (line 186): the entry with the key is
assigned, and created first when the map has none. -/
def assignWorker (position : Nat) (key : Int) (workerThread : WorkerThread)
    (workerThreads : List (Int × WorkerThread)) : List (Int × WorkerThread) :=
  if containsKey key workerThreads then
    workerThreads.map (fun entry => if entry.1 = key then (key, workerThread) else entry)
  else insertEntry position (key, workerThread) workerThreads

/-- `workerThreads[key].tasks.send(std::move(coro))` (line 189): the continuation goes to the
back of the queue of the entry with the key; `operator[]` creates a default entry when the
map has none. -/
def sendTo (position : Nat) (key : Int) (coro : Nat)
    (workerThreads : List (Int × WorkerThread)) : List (Int × WorkerThread) :=
  if containsKey key workerThreads then
    workerThreads.map (fun entry =>
      if entry.1 = key then (key, { entry.2 with tasks := entry.2.tasks ++ [coro] }) else entry)
  else insertEntry position (key, { WorkerThread.default with tasks := [coro] }) workerThreads

/-- The scan of `submitTask` (lines 163-172): the result is `areWeAllBusy`,
`currentLowestValue` and `currentLowestIndex` (the key `-1` is what the initial
`size_t` maximum is as an `int64_t` key). The loop stops, by its `break`, at the first worker
that is not busy. -/
def scanWorkers : List (Int × WorkerThread) → Bool × Nat × Int
  | [] => (true, sizeMax, -1)
  | (key, value) :: rest =>
    if !value.areWeCurrentlyWorking then
      if value.tasks.length < sizeMax then (false, value.tasks.length, key)
      else (false, sizeMax, -1)
    else scanWorkers rest

/-- `CoRoutineThreadPool::submitTask` (lines 159-190). `position` is the place a newly created
map entry takes in the iteration order. -/
def CoRoutineThreadPool.submitTask (position : Nat) (coro : Nat)
    (pool : CoRoutineThreadPool) : CoRoutineThreadPool :=
  let scan := scanWorkers pool.workerThreads
  if scan.1 = true then
    let currentIndex := pool.currentIndex + 1
    { pool with
      currentIndex := currentIndex,
      currentCount := pool.currentCount + 1,
      workerThreads := assignWorker position currentIndex WorkerThread.spawned
        pool.workerThreads }
  else
    { pool with workerThreads := sendTo position scan.2.2 coro pool.workerThreads }

/-- Continuations submitted one after the other, each with the place a new map entry would
take; no worker changes its busy flag in between. -/
def CoRoutineThreadPool.submitTasks :
    List (Nat × Nat) → CoRoutineThreadPool → CoRoutineThreadPool
  | [], pool => pool
  | (position, coro) :: rest, pool =>
    CoRoutineThreadPool.submitTasks rest (pool.submitTask position coro)

/-- `workerThreads.erase(key)`. -/
def eraseKey (key : Int) (workerThreads : List (Int × WorkerThread)) :
    List (Int × WorkerThread) :=
  workerThreads.filter (fun entry => decide (entry.1 ≠ key))

/-- The loop `while (extraWorkers > 0)` of `threadFunction` (lines 215-224); the first
argument is `extraWorkers`. On an empty map `workerThreads.begin()` has no element and the
source is undefined; the model leaves the pool as it is. -/
def CoRoutineThreadPool.retireLoop : Nat → CoRoutineThreadPool → CoRoutineThreadPool
  | 0, pool => pool
  | extraWorkers + 1, pool =>
    match pool.workerThreads with
    | [] => CoRoutineThreadPool.retireLoop extraWorkers pool
    | (key, oldThread) :: _ =>
      if oldThread.joinable = true ∧ oldThread.areWeCurrentlyWorking = true then
        CoRoutineThreadPool.retireLoop extraWorkers
          { pool with
            currentCount := pool.currentCount - 1,
            workerThreads := eraseKey key pool.workerThreads }
      else CoRoutineThreadPool.retireLoop extraWorkers pool

/-- The retirement step of `threadFunction` (lines 212-225). -/
def CoRoutineThreadPool.retireExcess (pool : CoRoutineThreadPool) : CoRoutineThreadPool :=
  if pool.currentCount > pool.threadCount then
    CoRoutineThreadPool.retireLoop (pool.currentCount - pool.threadCount).toNat pool
  else pool

/-- A worker with a running thread, the given busy flag and the given queue. -/
def WorkerThread.running (busy : Bool) (tasks : List Nat) : WorkerThread :=
  { tasks := tasks, areWeCurrentlyWorking := busy, joinable := true }

/-- The pool of the scenario of the spec: a baseline of 4 workers, all marked busy. -/
def busyPoolOfFour : CoRoutineThreadPool :=
  { workerThreads := [(4, .running true []), (3, .running true []), (2, .running true []),
      (1, .running true [])],
    currentCount := 4, currentIndex := 4, threadCount := 4 }

/-! ## The upgrade response: `parseConnectionHeaders` -/

/-- `std::string_view::find` on byte sequences: the first position at which `pattern` starts
in `text`, and `none` (for `npos`) when it starts nowhere. -/
def stringFind (pattern : List Nat) : List Nat → Option Nat
  | [] => if pattern.isPrefixOf [] then some 0 else none
  | c :: rest =>
    if pattern.isPrefixOf (c :: rest) then some 0
    else (stringFind pattern rest).map (fun position => position + 1)

/-- The bytes of the string literal `"\r\n\r\n"` of line 222. -/
def blankLineTerminator : List Nat := [13, 10, 13, 10]

/-- `WebSocketCore::parseConnectionHeaders` (lines 220-230). -/
def WebSocketCore.parseConnectionHeaders (s : WebSocketSSLShard) (stringNew : List Nat) :
    WebSocketSSLShard :=
  if areWeStillConnected s = true ∧ s.currentState = .Upgrading then
    let theFindValue := stringFind blankLineTerminator stringNew
    if theFindValue ≠ none then
      { s with currentMessage := [], currentState := .Collecting_Hello }
    else s
  else s

/-! ## Reading the handler: admission, the recorded sequence number, decoding paths -/

/-- The condition of lines 464-467 under which `onMessageReceived` enters its `try` block. -/
def WebSocketSSLShard.admits (s : WebSocketSSLShard) : Prop :=
  s.hasDiscordCoreClient = true ∧
    ((areWeStillConnected s = true ∧ s.currentMessage.length > 0 ∧
        (s.currentState = .Authenticated ∨ s.currentState = .Sending_Identify)) ∨
      s.currentState = .Collecting_Hello)

instance (s : WebSocketSSLShard) : Decidable (WebSocketSSLShard.admits s) := by
  unfold WebSocketSSLShard.admits; infer_instance

/-- The shard after lines 505-507: the sequence number of the message is recorded when it is
not zero. -/
def WebSocketSSLShard.noteSequence (message : WebSocketMessage) (s : WebSocketSSLShard) :
    WebSocketSSLShard :=
  if message.s ≠ 0 then { s with lastNumberReceived := message.s } else s

/-- The shard after lines 1304-1312 of case 9: the drawn delay has been slept and the resuming
flag has taken the boolean of the payload. -/
def WebSocketSSLShard.afterInvalidSession (d : Bool) (numOfMsToWait : Nat)
    (s : WebSocketSSLShard) : WebSocketSSLShard :=
  { s with areWeResuming := d, trace := s.trace ++ [.slept numOfMsToWait] }

/-- The messages whose handling decodes a type-specific structure from the payload: Invalid
Session (`InvalidSessionData`, line 1296), Hello (`HelloData`, line 1317), and every Dispatch
of a known event other than `RESUMED` (cases 1 and 3 to 60 of the inner switch). -/
def WebSocketMessage.decodesPayload (message : WebSocketMessage) : Prop :=
  message.op = 9 ∨ message.op = 10 ∨
    (message.op = 0 ∧ message.t ≠ "" ∧ EventConverter message.t ≠ 0 ∧
      EventConverter message.t ≠ 2)

instance (message : WebSocketMessage) : Decidable message.decodesPayload := by
  unfold WebSocketMessage.decodesPayload; infer_instance

/-- The shard a dropped message leaves: both buffers cleared and the frame cursor reset. -/
def WebSocketSSLShard.dropped (s : WebSocketSSLShard) : WebSocketSSLShard :=
  { s with currentMessage := [], inputBuffer := [], messageLength := 0, messageOffset := 0 }

/-! ## LightString: copy assignment and comparison -/

/-- `LightString::operator=(const LightString&)` (LightString.hpp, lines 54-64) on the
character sequences of the two strings. When the size of the other string is not zero, the
buffer is grown to hold it, `memcpy` writes its `sizeNew` characters over the front of the
buffer and the size becomes `sizeNew`; when it is zero, the body of the `if` is skipped. A
string assigned to itself is covered by either branch, both leave it as it is. -/
def LightString.assign (values other : List Nat) : List Nat :=
  let sizeNew := other.length
  if sizeNew ≠ 0 then (other.take sizeNew ++ values.drop sizeNew).take sizeNew
  else values

/-- Modelled from the spec: `JsonifierInternal::JsonifierCoreInternal::compare` is declared
outside the sources at hand; it tells whether the first `length` characters of two buffers
are the same. -/
def JsonifierCoreInternal.compare (lhs rhs : List Nat) (length : Nat) : Bool :=
  decide (lhs.take length = rhs.take length)

/-- `LightString::operator==` (lines 261-266) on the character sequences. -/
def LightString.equals (values rhs : List Nat) : Bool :=
  if rhs.length ≠ values.length then false
  else JsonifierCoreInternal.compare rhs values rhs.length

/-! ## The delay of case 9: single-precision arithmetic

The expression of lines 1305-1306 is evaluated in `float` (IEEE 754 binary32: a significand of
24 bits, every operation rounded to nearest with ties to even). Each value that occurs is a
non-negative multiple of `2 ^ -64` between `2 ^ -64` and `2 ^ 64`, or zero, well inside the
normal range of the format, so a value `x` is held exactly as the natural number
`x * 2 ^ 64`. -/

/-- The natural number that stands for the `float` value 1. -/
def floatUnit : Nat := 2 ^ 64

/-- The number of low bits of `n` that do not fit a significand of 24 bits: the least `shift`
with `n / 2 ^ shift < 2 ^ 24`, found by halving (`fuel` bounds the number of halvings). -/
def excessBits : Nat → Nat → Nat
  | 0, _ => 0
  | fuel + 1, n => if n < 2 ^ 24 then 0 else excessBits fuel (n / 2) + 1

/-- Rounding to `float` precision: the nearest number with a significand of 24 bits, the one
with the even significand when two are equally near. -/
def roundToFloat (n : Nat) : Nat :=
  let shift := excessBits n n
  let quotient := n / 2 ^ shift
  let remainder := n % 2 ^ shift
  if 2 * remainder > 2 ^ shift ∨ (2 * remainder = 2 ^ shift ∧ quotient % 2 = 1) then
    (quotient + 1) * 2 ^ shift
  else quotient * 2 ^ shift

/-- The conversion `static_cast<float>(n)` of an unsigned integer, and a literal such as
`1000.0f`. -/
def Float32.ofNat (n : Nat) : Nat := roundToFloat (n * floatUnit)

/-- The quotient `a / b` of two `float` values: the exact quotient, rounded. The exact quotient
is `a * floatUnit / b` when `b` divides `a * floatUnit`, which is so wherever the quotient is
taken below (`division_exact`). -/
def Float32.div (a b : Nat) : Nat := roundToFloat (a * floatUnit / b)

/-- The product `a * b` of two `float` values: the exact product, rounded. The exact product
is `a * b / floatUnit` when `floatUnit` divides `a * b`, which is so wherever the product is
taken below (`division_exact`). -/
def Float32.mul (a b : Nat) : Nat := roundToFloat (a * b / floatUnit)

/-- The sum `a + b` of two `float` values: the exact sum, rounded. -/
def Float32.add (a b : Nat) : Nat := roundToFloat (a + b)

/-- The conversion `static_cast<int32_t>(a)` of a `float` value that is not negative and lies
below `2 ^ 31`: the fraction is discarded. -/
def Float32.toInt32 (a : Nat) : Nat := a / floatUnit

/-- The delay `numOfMsToWait` of lines 1305-1306, in milliseconds, as a function of the output
`randomValue` of the engine (`std::mt19937_64`, whose outputs are the numbers below `2 ^ 64`
and whose `max()` is `2 ^ 64 - 1`). -/
def numOfMsToWait (randomValue : Nat) : Nat :=
  Float32.toInt32
    (Float32.add (Float32.ofNat 1000)
      (Float32.mul
        (Float32.div (Float32.ofNat randomValue) (Float32.ofNat (2 ^ 64 - 1)))
        (Float32.ofNat 4000)))

/-! ## Admission of a connection attempt: `BaseSocketAgent::connect` -/

/-- Modelled from the spec: the result of one pass of `processIO`; the enumeration is declared
outside the sources at hand, and `connect` only tells `No_Error` from the rest. -/
inductive ProcessIOResult
  | No_Error
  | Error
  deriving DecidableEq, Repr

/-- What `BaseSocketAgent::connect` reads and writes: the admission flag
`discordCoreClient->isItSafeToConnect`, and the shard `shardMap[packageNew.currentShard]` as it
stands after lines 1475-1478 (made there when the map had none). The agent and the shards it
makes share one quit flag (line 1477), held in the shard. -/
structure BaseSocketAgent where
  isItSafeToConnect : Bool
  shard : WebSocketSSLShard
  deriving DecidableEq, Repr

/-- What a run of `connect` meets outside the sources at hand: whether the stopwatch made at
line 1485 has already run out at line 1486, whether errors are printed, what
`WebSocketCore::connect` (the transport and the upgrade request) leaves of the shard, and for
each of the two polling loops (`phase` 1 and 2) and each pass what `processIO` returns and
leaves of the shard and whether the stopwatch of the loop has run out. -/
structure ConnectEnvironment where
  hasTimePassedAtStart : Bool
  doWePrintWebSocketErrorMessages : Bool
  connectShard : WebSocketSSLShard → WebSocketSSLShard
  processIO : Nat → Nat → WebSocketSSLShard → ProcessIOResult × WebSocketSSLShard
  hasTimePassed : Nat → Nat → Bool

/-- How a polling loop of `connect` ends: control leaves the loop (its condition fails, or a
`break`), the loop returns from `connect` after its stopwatch ran out, or the loop is still
polling when the passes counted by the fuel are used up. -/
inductive LoopExit
  | left (shard : WebSocketSSLShard)
  | timedOut (shard : WebSocketSSLShard)
  | polling
  deriving DecidableEq, Repr

/-- The loop of lines 1518-1538, which waits for the state to leave `Collecting_Hello`; `pass`
counts the passes made. The store of `true` to the admission flag at line 1534 is made by
`connect` on the exit `timedOut`. -/
def BaseSocketAgent.awaitHello (env : ConnectEnvironment) :
    Nat → Nat → WebSocketSSLShard → LoopExit
  | 0, _, _ => .polling
  | fuel + 1, pass, s =>
    if s.doWeQuit = some true then .left s
    else if s.currentState ≠ .Collecting_Hello then .left s
    else
      let result := env.processIO 1 pass s
      if result.1 ≠ .No_Error then
        .left (if env.doWePrintWebSocketErrorMessages then WebSocketSSLShard.onClosed result.2
          else result.2)
      else if env.hasTimePassed 1 pass then .timedOut (WebSocketSSLShard.onClosed result.2)
      else BaseSocketAgent.awaitHello env fuel (pass + 1) result.2

/-- The loop of lines 1540-1560, which waits for the state `Authenticated`. The store of
`true` to the admission flag at line 1546 is made by `connect` on the exit `timedOut`. -/
def BaseSocketAgent.awaitAuthenticated (env : ConnectEnvironment) :
    Nat → Nat → WebSocketSSLShard → LoopExit
  | 0, _, _ => .polling
  | fuel + 1, pass, s =>
    if s.doWeQuit = some true then .left s
    else if s.currentState = .Authenticated then .left s
    else if env.hasTimePassed 2 pass then .timedOut (WebSocketSSLShard.onClosed s)
    else
      let result := env.processIO 2 pass s
      if result.1 ≠ .No_Error then
        .left (if env.doWePrintWebSocketErrorMessages then WebSocketSSLShard.onClosed result.2
          else result.2)
      else BaseSocketAgent.awaitAuthenticated env fuel (pass + 1) result.2

/-- Lines 1539-1562 of `connect`: the second loop and the two stores that follow it. -/
def BaseSocketAgent.finishConnect (env : ConnectEnvironment) (fuel : Nat)
    (s : WebSocketSSLShard) : Option BaseSocketAgent :=
  match BaseSocketAgent.awaitAuthenticated env fuel 0 s with
  | .polling => none
  | .timedOut s1 => some { isItSafeToConnect := true, shard := s1 }
  | .left s1 => some { isItSafeToConnect := true, shard := { s1 with areWeConnecting := false } }

/-- `BaseSocketAgent::connect` (lines 1468-1569). The result is the agent when the call
returns, and `none` when it does not within the passes counted by `fuel`: a call that finds the
admission flag false waits at lines 1470-1472 for another thread to store `true`, which nothing
in the sources at hand other than `connect` itself does. -/
def BaseSocketAgent.connect (env : ConnectEnvironment) (fuel : Nat)
    (packageNew : ConnectionPackage) (agent : BaseSocketAgent) : Option BaseSocketAgent :=
  if agent.isItSafeToConnect = false then none
  else if packageNew.currentShard ≠ -1 then
    if env.hasTimePassedAtStart then
      some { isItSafeToConnect := false,
             shard := WebSocketSSLShard.onClosed
               { agent.shard with
                 currentReconnectTries := packageNew.currentReconnectTries + 1 } }
    else
      match BaseSocketAgent.awaitHello env fuel 0
        (env.connectShard (BaseSocketAgent.beginConnect packageNew agent.shard)) with
      | .polling => none
      | .timedOut s1 => some { isItSafeToConnect := true, shard := s1 }
      | .left s1 => BaseSocketAgent.finishConnect env fuel s1
  else some { agent with isItSafeToConnect := false }

/-- An environment in which the transport leaves the shard in `Collecting_Hello`, every pass of
`processIO` succeeds and changes nothing, and each stopwatch runs out at the second pass. -/
def slowEnvironment : ConnectEnvironment :=
  { hasTimePassedAtStart := false,
    doWePrintWebSocketErrorMessages := true,
    connectShard := fun s => { s with currentState := .Collecting_Hello },
    processIO := fun _ _ s => (.No_Error, s),
    hasTimePassed := fun _ pass => decide (1 ≤ pass) }

/-! ## The reconnect loop of `BaseSocketAgent::run` -/

set_option maxRecDepth 20000 in
theorem byte_or_mask_low7 : ∀ b < 128, ((b ||| 128) % 256) &&& 127 = b := by decide

set_option maxRecDepth 20000 in
theorem byte_or_mask_bit : ∀ b < 256, ((b ||| 128) % 256) &&& 128 = 128 := by decide

set_option maxRecDepth 20000 in
theorem byte_or_mask_lt : ∀ b < 256, (b ||| 128) % 256 < 256 := by decide

theorem opCode_toNat_lt (opCode : WebSocketOpCode) : opCode.toNat < 128 := by
  cases opCode <;> decide

theorem opCode_finish_byte (opCode : WebSocketOpCode) :
    (opCode.toNat % 256 ||| webSocketFinishBit) % 256 = opCode.toNat ||| 128 := by
  cases opCode <;> decide

/-! ## The three shapes of a header -/

theorem createHeader_small (L : Nat) (opCode : WebSocketOpCode) (h : L ≤ 125) :
    createHeader [] L opCode.toNat =
      [opCode.toNat ||| 128, ((L % 256) ||| 128) % 256, 0, 0, 0, 0] := by
  simp [createHeader, pushLengthBytes, webSocketMaxPayloadLengthSmall, h, opCode_finish_byte,
    webSocketMaskBit]

theorem createHeader_large (L : Nat) (opCode : WebSocketOpCode) (h1 : 125 < L)
    (h2 : L ≤ 65535) :
    createHeader [] L opCode.toNat =
      [opCode.toNat ||| 128, 254, (L >>> 8) % 256, L % 256, 0, 0, 0, 0] := by
  have h1' : ¬ L ≤ 125 := by omega
  simp [createHeader, pushLengthBytes, webSocketMaxPayloadLengthSmall,
    webSocketMaxPayloadLengthLarge, webSocketPayloadLengthMagicLarge, h1', h2,
    opCode_finish_byte, webSocketMaskBit]

theorem createHeader_huge (L : Nat) (opCode : WebSocketOpCode) (h : 65535 < L) :
    createHeader [] L opCode.toNat =
      [opCode.toNat ||| 128, 255, (L >>> 56) % 256, (L >>> 48) % 256, (L >>> 40) % 256,
        (L >>> 32) % 256, (L >>> 24) % 256, (L >>> 16) % 256, (L >>> 8) % 256, L % 256,
        0, 0, 0, 0] := by
  have h1 : ¬ L ≤ 125 := by omega
  have h2 : ¬ L ≤ 65535 := by omega
  simp [createHeader, pushLengthBytes, webSocketMaxPayloadLengthSmall,
    webSocketMaxPayloadLengthLarge, webSocketPayloadLengthMagicHuge, h1, h2,
    opCode_finish_byte, webSocketMaskBit]

/-! ## Arithmetic of the length decoding -/

theorem and_ff (b : Nat) (h : b < 256) : b &&& 0xff = b :=
  Nat.and_pow_two_sub_one_of_lt_two_pow (n := 8) h

theorem byteAt_lt (values : List Nat) (index : Nat) : byteAt values index < 256 :=
  Nat.mod_lt _ (by decide)

theorem or_shift_byte (acc b k : Nat) (hb : b < 256) (hacc : 2 ^ (k + 8) ∣ acc) :
    acc ||| (b <<< k) = acc + b * 2 ^ k := by
  obtain ⟨c, rfl⟩ := hacc
  rw [Nat.shiftLeft_eq]
  have hlt : b * 2 ^ k < 2 ^ (k + 8) := by
    rw [pow_add, Nat.mul_comm]
    exact Nat.mul_lt_mul_of_pos_left hb (Nat.two_pow_pos k)
  exact (Nat.mul_add_lt_is_or hlt c).symm

theorem shift_byte_mod (b k : Nat) (hb : b < 256) (hk : k ≤ 56) :
    (b <<< k) % 2 ^ 64 = b <<< k := by
  apply Nat.mod_eq_of_lt
  rw [Nat.shiftLeft_eq]
  calc b * 2 ^ k < 256 * 2 ^ k := Nat.mul_lt_mul_of_pos_right hb (Nat.two_pow_pos k)
    _ ≤ 256 * 2 ^ 56 := Nat.mul_le_mul_left _ (Nat.pow_le_pow_right (by decide) hk)
    _ = 2 ^ 64 := by norm_num

theorem or_chain (b2 b3 b4 b5 b6 b7 b8 b9 : Nat) (h2 : b2 < 256) (h3 : b3 < 256)
    (h4 : b4 < 256) (h5 : b5 < 256) (h6 : b6 < 256) (h7 : b7 < 256) (h8 : b8 < 256)
    (h9 : b9 < 256) :
    (((((((0 ||| (b2 <<< 56)) ||| (b3 <<< 48)) ||| (b4 <<< 40)) ||| (b5 <<< 32)) |||
      (b6 <<< 24)) ||| (b7 <<< 16)) ||| (b8 <<< 8)) ||| (b9 <<< 0) =
    ((((((b2 * 256 + b3) * 256 + b4) * 256 + b5) * 256 + b6) * 256 + b7) * 256 + b8) * 256
      + b9 := by
  rw [or_shift_byte 0 b2 56 h2 (by norm_num)]
  rw [or_shift_byte _ b3 48 h3 (by omega)]
  rw [or_shift_byte _ b4 40 h4 (by omega)]
  rw [or_shift_byte _ b5 32 h5 (by omega)]
  rw [or_shift_byte _ b6 24 h6 (by omega)]
  rw [or_shift_byte _ b7 16 h7 (by omega)]
  rw [or_shift_byte _ b8 8 h8 (by omega)]
  rw [or_shift_byte _ b9 0 h9 (by omega)]
  norm_num
  omega

/-- The 64-bit loop of `parseMessage` reads bytes 2 to 9 as one big-endian number. -/
theorem hugeLengthLoop_bigEndian (values : List Nat) :
    hugeLengthLoop values 8 2 56 0 =
      bigEndian [byteAt values 2, byteAt values 3, byteAt values 4, byteAt values 5,
        byteAt values 6, byteAt values 7, byteAt values 8, byteAt values 9] := by
  have e := or_chain _ _ _ _ _ _ _ _ (byteAt_lt values 2) (byteAt_lt values 3)
    (byteAt_lt values 4) (byteAt_lt values 5) (byteAt_lt values 6) (byteAt_lt values 7)
    (byteAt_lt values 8) (byteAt_lt values 9)
  simp only [hugeLengthLoop, bigEndian, List.foldl_cons, List.foldl_nil]
  simp only [and_ff _ (byteAt_lt values _)]
  rw [shift_byte_mod _ 56 (byteAt_lt values 2) (by decide),
    shift_byte_mod _ 48 (byteAt_lt values 3) (by decide),
    shift_byte_mod _ 40 (byteAt_lt values 4) (by decide),
    shift_byte_mod _ 32 (byteAt_lt values 5) (by decide),
    shift_byte_mod _ 24 (byteAt_lt values 6) (by decide),
    shift_byte_mod _ 16 (byteAt_lt values 7) (by decide),
    shift_byte_mod _ 8 (byteAt_lt values 8) (by decide),
    shift_byte_mod _ 0 (byteAt_lt values 9) (by decide)]
  simpa using e

/-- The 16-bit branch of `parseMessage` reads bytes 2 and 3 as one big-endian number. -/
theorem largeLength_bigEndian (values : List Nat) :
    (byteAt values 2 <<< 8) ||| byteAt values 3 =
      bigEndian [byteAt values 2, byteAt values 3] := by
  have h := or_shift_byte (byteAt values 2 <<< 8) (byteAt values 3) 0 (byteAt_lt values 3)
    (by rw [Nat.shiftLeft_eq]; exact Dvd.intro_left _ rfl)
  simp only [bigEndian, List.foldl_cons, List.foldl_nil]
  rw [Nat.shiftLeft_eq] at h ⊢
  simpa using h

/-! ## C2, C3: what `createHeader` writes -/

/-- C2: for every payload length `L < 2 ^ 64`, the header that `createHeader` builds uses the
smallest of the three length forms. Every header byte is a byte. If `L ≤ 125` the header has
6 bytes and the low 7 bits of the length byte are `L`; if `126 ≤ L ≤ 65535` it has 8 bytes, the
low 7 bits are 126 and the next 2 bytes read big-endian are `L`; otherwise it has 14 bytes,
the low 7 bits are 127 and the next 8 bytes read big-endian are `L`. -/
theorem createHeader_smallest_length_form (L : Nat) (opCode : WebSocketOpCode)
    (hL : L < 2 ^ 64) :
    (∀ b ∈ createHeader [] L opCode.toNat, b < 256) ∧
    (L ≤ 125 →
      (createHeader [] L opCode.toNat).length = 6 ∧
      byteAt (createHeader [] L opCode.toNat) 1 &&& 127 = L) ∧
    (126 ≤ L → L ≤ 65535 →
      (createHeader [] L opCode.toNat).length = 8 ∧
      byteAt (createHeader [] L opCode.toNat) 1 &&& 127 = 126 ∧
      bigEndian (((createHeader [] L opCode.toNat).drop 2).take 2) = L) ∧
    (65536 ≤ L →
      (createHeader [] L opCode.toNat).length = 14 ∧
      byteAt (createHeader [] L opCode.toNat) 1 &&& 127 = 127 ∧
      bigEndian (((createHeader [] L opCode.toNat).drop 2).take 8) = L) := by
  have hop : opCode.toNat ||| 128 < 256 := by cases opCode <;> decide
  refine ⟨?_, ?_, ?_, ?_⟩
  · rcases Nat.lt_or_ge 125 L with h1 | h1
    · rcases Nat.lt_or_ge 65535 L with h2 | h2
      · rw [createHeader_huge L opCode h2]
        intro b hb
        simp only [List.mem_cons, List.mem_singleton, List.not_mem_nil, or_false] at hb
        omega
      · rw [createHeader_large L opCode h1 h2]
        intro b hb
        simp only [List.mem_cons, List.mem_singleton, List.not_mem_nil, or_false] at hb
        omega
    · rw [createHeader_small L opCode h1]
      intro b hb
      have hm := byte_or_mask_lt (L % 256) (Nat.mod_lt _ (by decide))
      simp only [List.mem_cons, List.mem_singleton, List.not_mem_nil, or_false] at hb
      omega
  · intro h
    rw [createHeader_small L opCode h]
    have hlow := byte_or_mask_low7 L (by omega)
    have hmod : L % 256 = L := Nat.mod_eq_of_lt (by omega)
    have hlt := byte_or_mask_lt L (by omega)
    refine ⟨rfl, ?_⟩
    simp only [byteAt, List.getD_cons_succ, List.getD_cons_zero, hmod]
    rw [Nat.mod_eq_of_lt (Nat.mod_lt _ (by decide))]
    exact hlow
  · intro h1 h2
    rw [createHeader_large L opCode (by omega) h2]
    refine ⟨rfl, by simp [byteAt]; decide, ?_⟩
    simp only [bigEndian, List.drop_succ_cons, List.drop_zero, List.take_succ_cons,
      List.take_zero, List.foldl_cons, List.foldl_nil, Nat.shiftRight_eq_div_pow]
    omega
  · intro h
    rw [createHeader_huge L opCode (by omega)]
    refine ⟨rfl, by simp [byteAt]; decide, ?_⟩
    simp only [bigEndian, List.drop_succ_cons, List.drop_zero, List.take_succ_cons,
      List.take_zero, List.foldl_cons, List.foldl_nil, Nat.shiftRight_eq_div_pow]
    omega

/-- Witness for C2 at the boundary length 65536 with a binary frame. -/
theorem createHeader_smallest_length_form_witness :
    (65536 : Nat) < 2 ^ 64 ∧
    (createHeader [] 65536 WebSocketOpCode.Op_Binary.toNat).length = 14 ∧
    byteAt (createHeader [] 65536 WebSocketOpCode.Op_Binary.toNat) 1 &&& 127 = 127 ∧
    bigEndian (((createHeader [] 65536 WebSocketOpCode.Op_Binary.toNat).drop 2).take 8) = 65536 :=
  ⟨by decide,
    (createHeader_smallest_length_form 65536 .Op_Binary (by decide)).2.2.2 (by decide)⟩

/-- C3: for every payload length and opcode, the header built on an empty output buffer has
byte 0 equal to the opcode with the finish bit (0x80) set, has the mask bit (0x80) set in
byte 1, and ends with a mask key of four zero bytes. -/
theorem createHeader_finish_mask_key (L : Nat) (opCode : WebSocketOpCode) :
    (createHeader [] L opCode.toNat).head? = some (opCode.toNat ||| 0x80) ∧
    byteAt (createHeader [] L opCode.toNat) 1 &&& 0x80 = 0x80 ∧
    4 ≤ (createHeader [] L opCode.toNat).length ∧
    (createHeader [] L opCode.toNat).drop ((createHeader [] L opCode.toNat).length - 4) = [0, 0, 0, 0] := by
  rcases Nat.lt_or_ge 125 L with h1 | h1
  · rcases Nat.lt_or_ge 65535 L with h2 | h2
    · rw [createHeader_huge L opCode h2]
      exact ⟨rfl, by simp [byteAt]; decide, by simp, rfl⟩
    · rw [createHeader_large L opCode h1 h2]
      exact ⟨rfl, by simp [byteAt]; decide, by simp, rfl⟩
  · rw [createHeader_small L opCode h1]
    refine ⟨rfl, ?_, by simp, rfl⟩
    have hbit := byte_or_mask_bit (L % 256) (Nat.mod_lt _ (by decide))
    simp only [byteAt, List.getD_cons_succ, List.getD_cons_zero]
    rw [Nat.mod_eq_of_lt (Nat.mod_lt _ (by decide))]
    exact hbit

/-! ## C4: the header decoding of `parseMessage` -/

set_option maxRecDepth 20000 in
theorem byte_unmasked_lt : ∀ b < 256, b &&& 128 = 0 → b < 128 := by decide

/-- The length decoding on an unmasked header with enough bytes. -/
theorem decodeLength_unmasked (s : WebSocketSSLShard)
    (hmask : byteAt s.currentMessage 1 &&& 0x80 = 0)
    (h126 : byteAt s.currentMessage 1 = 126 → 8 ≤ s.currentMessage.length)
    (h127 : byteAt s.currentMessage 1 = 127 → 10 ≤ s.currentMessage.length) :
    WebSocketCore.decodeLength s =
      ({ s with messageLength := announcedLength s.currentMessage,
                messageOffset := announcedHeaderSize s.currentMessage }, .decoded) := by
  have hlt := byte_unmasked_lt _ (byteAt_lt s.currentMessage 1) hmask
  have m126 : (126 &&& 128 : Nat) = 0 := by decide
  have m127 : (127 &&& 128 : Nat) = 0 := by decide
  by_cases e126 : byteAt s.currentMessage 1 = 126
  · have h8 : ¬ s.currentMessage.length < 8 := by have := h126 e126; omega
    simp [WebSocketCore.decodeLength, webSocketMaskBit, m126, e126,
      webSocketPayloadLengthMagicLarge, h8, announcedLength, announcedHeaderSize,
      largeLength_bigEndian]
  · by_cases e127 : byteAt s.currentMessage 1 = 127
    · have h10 : ¬ s.currentMessage.length < 10 := by have := h127 e127; omega
      simp [WebSocketCore.decodeLength, webSocketMaskBit, m127, e127,
        webSocketPayloadLengthMagicLarge, webSocketPayloadLengthMagicHuge, h10,
        announcedLength, announcedHeaderSize, hugeLengthLoop_bigEndian]
    · have hlt' : byteAt s.currentMessage 1 < 126 := by omega
      simp [WebSocketCore.decodeLength, webSocketMaskBit, hmask, e126, e127,
        webSocketPayloadLengthMagicLarge, webSocketPayloadLengthMagicHuge,
        announcedLength, announcedHeaderSize, hlt']

/-- On an unmasked data, ping or pong frame with enough bytes, `parseMessage` is the
completeness test applied to the decoded opcode, payload length and header size. -/
theorem parseMessage_unmasked_data (c : Collaborators) (s : WebSocketSSLShard)
    (hin : 0 < getUsedSpace s)
    (h4 : 4 ≤ (WebSocketCore.assemble s).currentMessage.length)
    (hop : isDataOpCode (byteAt (WebSocketCore.assemble s).currentMessage 0 &&& 0x7f))
    (hmask : byteAt (WebSocketCore.assemble s).currentMessage 1 &&& 0x80 = 0)
    (h126 : byteAt (WebSocketCore.assemble s).currentMessage 1 = 126 →
      8 ≤ (WebSocketCore.assemble s).currentMessage.length)
    (h127 : byteAt (WebSocketCore.assemble s).currentMessage 1 = 127 →
      10 ≤ (WebSocketCore.assemble s).currentMessage.length) :
    WebSocketCore.parseMessage c s =
      WebSocketCore.deliver c
        ((WebSocketCore.assemble s).withHeader
          (byteAt (WebSocketCore.assemble s).currentMessage 0 &&& 0x7f)
          (announcedLength (WebSocketCore.assemble s).currentMessage)
          (announcedHeaderSize (WebSocketCore.assemble s).currentMessage)) := by
  have h4' : ¬ (WebSocketCore.assemble s).currentMessage.length < 4 := by omega
  have hfin : (255 ^^^ webSocketFinishBit) = 0x7f := by decide
  unfold isDataOpCode at hop
  unfold WebSocketCore.parseMessage
  have key := decodeLength_unmasked
    { WebSocketCore.assemble s with
      dataOpCode := byteAt (WebSocketCore.assemble s).currentMessage 0 &&& 0x7f,
      messageLength := 0, messageOffset := 0 } hmask h126 h127
  simp only [gt_iff_lt, hin, if_true, h4', if_false, hfin, hop]
  rw [key]
  rfl

/-- C4, counterexample: two frames arrive in one chunk, the text frame `81 02 68 69` and the
binary frame `82 02 41 42`. The first call of `parseMessage` hands over the first payload and
leaves the second frame, whole and unmasked, in the assembled buffer, with nothing pending in
the ring buffer. The next call returns at the test of line 233 without decoding the buffered
frame: the opcode field still holds 1 (not 2), and the length and header size fields hold 0
(not 2 and 2). -/
theorem parseMessage_buffered_frame_counterexample :
    WebSocketCore.parseMessage (WebSocketSSLShard.collaborators sampleEnvironment plainCloseCode)
        { sampleShard with inputBuffer := [[0x81, 0x02, 0x68, 0x69, 0x82, 0x02, 0x41, 0x42]] } =
      ({ sampleShard with currentMessage := [0x82, 0x02, 0x41, 0x42] },
        .delivered [0x68, 0x69] true) ∧
    WebSocketCore.parseMessage (WebSocketSSLShard.collaborators sampleEnvironment plainCloseCode)
        { sampleShard with currentMessage := [0x82, 0x02, 0x41, 0x42] } =
      ({ sampleShard with currentMessage := [0x82, 0x02, 0x41, 0x42] }, .idle) ∧
    (WebSocketCore.parseMessage (WebSocketSSLShard.collaborators sampleEnvironment plainCloseCode)
        { sampleShard with currentMessage := [0x82, 0x02, 0x41, 0x42] }).1.dataOpCode = 1 ∧
    (WebSocketCore.parseMessage (WebSocketSSLShard.collaborators sampleEnvironment plainCloseCode)
        { sampleShard with currentMessage := [0x82, 0x02, 0x41, 0x42] }).1.messageLength = 0 ∧
    (WebSocketCore.parseMessage (WebSocketSSLShard.collaborators sampleEnvironment plainCloseCode)
        { sampleShard with currentMessage := [0x82, 0x02, 0x41, 0x42] }).1.messageOffset = 0 := by
  decide

/-- C4, as amended: when input is pending and the assembled buffer starts with an unmasked data, ping or
pong frame with enough bytes (at least 4; at least 8 after the magic value 126; at least 10
after the magic value 127), `parseMessage` decodes the opcode as byte 0 with the finish bit
cleared, the payload length as the length byte itself when it is below 126 (header size 2),
as the big-endian value of the next 2 bytes when it is 126 (header size 4) and as the
big-endian value of the next 8 bytes when it is 127 (header size 10); it goes on to the
completeness test with exactly these values. -/
theorem parseMessage_decodes_header (c : Collaborators) (s : WebSocketSSLShard)
    (hin : 0 < getUsedSpace s)
    (h4 : 4 ≤ (WebSocketCore.assemble s).currentMessage.length)
    (hop : isDataOpCode (byteAt (WebSocketCore.assemble s).currentMessage 0 &&& 0x7f))
    (hmask : byteAt (WebSocketCore.assemble s).currentMessage 1 &&& 0x80 = 0)
    (h126 : byteAt (WebSocketCore.assemble s).currentMessage 1 = 126 →
      8 ≤ (WebSocketCore.assemble s).currentMessage.length)
    (h127 : byteAt (WebSocketCore.assemble s).currentMessage 1 = 127 →
      10 ≤ (WebSocketCore.assemble s).currentMessage.length) :
    WebSocketCore.parseMessage c s =
      WebSocketCore.deliver c
        ((WebSocketCore.assemble s).withHeader
          (byteAt (WebSocketCore.assemble s).currentMessage 0 &&& 0x7f)
          (announcedLength (WebSocketCore.assemble s).currentMessage)
          (announcedHeaderSize (WebSocketCore.assemble s).currentMessage)) := by
  have h4' : ¬ (WebSocketCore.assemble s).currentMessage.length < 4 := by omega
  have hfin : (255 ^^^ webSocketFinishBit) = 0x7f := by decide
  have key := decodeLength_unmasked
    { WebSocketCore.assemble s with
      dataOpCode := byteAt (WebSocketCore.assemble s).currentMessage 0 &&& 0x7f,
      messageLength := 0, messageOffset := 0 } hmask h126 h127
  unfold isDataOpCode at hop
  unfold WebSocketCore.parseMessage
  simp only [gt_iff_lt, hin, if_true, h4', if_false, hfin, hop]
  rw [key]
  rfl

/-- Witness for C4 as amended: a text frame in the 16-bit length form (length 3) followed by one trailing
byte; the payload handed over is the 3 bytes after the 4-byte header. -/
theorem parseMessage_decodes_header_witness :
    WebSocketCore.parseMessage acceptAll
        { sampleShard with inputBuffer := [[0x81, 126, 0, 3, 0x61, 0x62, 0x63, 0x81]] } =
      ({ sampleShard with
          currentMessage := [0x81],
          dataOpCode := 1, messageLength := 0, messageOffset := 0 },
        .delivered [0x61, 0x62, 0x63] true) :=
  (parseMessage_decodes_header acceptAll
    { sampleShard with inputBuffer := [[0x81, 126, 0, 3, 0x61, 0x62, 0x63, 0x81]] }
    (by decide) (by decide) (by decide) (by decide) (by decide) (by decide)).trans (by decide)

/-! ## C1: header round trip -/

theorem isData_toNat (opCode : WebSocketOpCode) (h : opCode.isData = true) :
    isDataOpCode opCode.toNat := by
  cases opCode <;> first | (exact absurd h (by decide)) | (unfold isDataOpCode; decide)

/-- What the decoder reads from an unmasked copy of a header built by `createHeader`. -/
theorem clearMaskBit_createHeader (L : Nat) (opCode : WebSocketOpCode) (hL : L < 2 ^ 64) :
    4 ≤ (clearMaskBit (createHeader [] L opCode.toNat)).length ∧
    byteAt (clearMaskBit (createHeader [] L opCode.toNat)) 0 &&& 0x7f = opCode.toNat ∧
    byteAt (clearMaskBit (createHeader [] L opCode.toNat)) 1 &&& 0x80 = 0 ∧
    (byteAt (clearMaskBit (createHeader [] L opCode.toNat)) 1 = 126 →
      8 ≤ (clearMaskBit (createHeader [] L opCode.toNat)).length) ∧
    (byteAt (clearMaskBit (createHeader [] L opCode.toNat)) 1 = 127 →
      10 ≤ (clearMaskBit (createHeader [] L opCode.toNat)).length) ∧
    announcedLength (clearMaskBit (createHeader [] L opCode.toNat)) = L ∧
    announcedHeaderSize (clearMaskBit (createHeader [] L opCode.toNat)) = matchingHeaderSize L := by
  have hop : (opCode.toNat ||| 128) % 256 &&& 127 = opCode.toNat :=
    byte_or_mask_low7 _ (opCode_toNat_lt opCode)
  have hop' : (opCode.toNat ||| 128) % 256 = opCode.toNat ||| 128 := by
    cases opCode <;> decide
  have hmask : (255 ^^^ webSocketMaskBit) = 127 := by decide
  have a255 : ((255 : Nat) &&& 127) % 256 = 127 := by decide
  have a254 : ((254 : Nat) &&& 127) % 256 = 126 := by decide
  rcases Nat.lt_or_ge 125 L with h1 | h1
  · rcases Nat.lt_or_ge 65535 L with h2 | h2
    · have n1 : ¬ L ≤ 125 := by omega
      have n2 : ¬ L ≤ 65535 := by omega
      rw [createHeader_huge L opCode h2]
      simp only [clearMaskBit, byteAt, hmask, List.set_cons_succ, List.set_cons_zero,
        List.getD_cons_succ, List.getD_cons_zero, List.length_cons, List.length_nil,
        announcedLength, announcedHeaderSize, matchingHeaderSize, bigEndian, List.foldl_cons,
        List.foldl_nil, n1, n2, if_false, hop', Nat.shiftRight_eq_div_pow, a255]
      rw [← hop'] 
      refine ⟨by omega, hop, by decide, by decide, by decide, ?_, by decide⟩
      norm_num
      omega
    · have n1 : ¬ L ≤ 125 := by omega
      rw [createHeader_large L opCode h1 h2]
      simp only [clearMaskBit, byteAt, hmask, List.set_cons_succ, List.set_cons_zero,
        List.getD_cons_succ, List.getD_cons_zero, List.length_cons, List.length_nil,
        announcedLength, announcedHeaderSize, matchingHeaderSize, bigEndian, List.foldl_cons,
        List.foldl_nil, n1, h2, if_false, if_true, hop', Nat.shiftRight_eq_div_pow, a254]
      rw [← hop']
      refine ⟨by omega, hop, by decide, by decide, by decide, ?_, by decide⟩
      norm_num
      omega
  · rw [createHeader_small L opCode h1]
    have hmod : L % 256 = L := Nat.mod_eq_of_lt (by omega)
    have hlow := byte_or_mask_low7 L (by omega)
    have hlt := byte_or_mask_lt L (by omega)
    simp only [clearMaskBit, byteAt, hmask, List.set_cons_succ, List.set_cons_zero,
      List.getD_cons_succ, List.getD_cons_zero, List.length_cons, List.length_nil,
      announcedLength, announcedHeaderSize, matchingHeaderSize, h1, if_true, hop', hmod,
      Nat.mod_mod, hlow]
    rw [← hop']
    have hL1 : L % 256 = L := hmod
    have hand : L &&& 128 = 0 := by
      have : ∀ b < 126, b &&& 128 = 0 := by decide
      exact this L (by omega)
    have hlt126 : L < 126 := by omega
    refine ⟨by omega, hop, ?_, ?_, ?_, ?_, ?_⟩ <;> simp [hL1, hand, hlt126] <;> omega

/-- What the decoder reads from a header exactly as `createHeader` builds it. -/
theorem createHeader_as_built (L : Nat) (opCode : WebSocketOpCode) :
    4 ≤ (createHeader [] L opCode.toNat).length ∧
    byteAt (createHeader [] L opCode.toNat) 0 &&& 0x7f = opCode.toNat ∧
    byteAt (createHeader [] L opCode.toNat) 1 &&& 0x80 ≠ 0 := by
  have hop : (opCode.toNat ||| 128) % 256 &&& 127 = opCode.toNat :=
    byte_or_mask_low7 _ (opCode_toNat_lt opCode)
  rcases Nat.lt_or_ge 125 L with h1 | h1
  · rcases Nat.lt_or_ge 65535 L with h2 | h2
    · rw [createHeader_huge L opCode h2]
      exact ⟨by simp, by simpa [byteAt] using hop, by simp [byteAt]⟩
    · rw [createHeader_large L opCode h1 h2]
      exact ⟨by simp, by simpa [byteAt] using hop, by simp [byteAt]⟩
  · rw [createHeader_small L opCode h1]
    have hbit := byte_or_mask_bit (L % 256) (Nat.mod_lt _ (by decide))
    refine ⟨by simp, by simpa [byteAt] using hop, ?_⟩
    simp only [byteAt, List.getD_cons_succ, List.getD_cons_zero]
    rw [Nat.mod_eq_of_lt (Nat.mod_lt _ (by decide)), hbit]
    decide

/-- On a masked data, ping or pong frame, `parseMessage` stops at its mask test (lines
257-259) with no length decoded. -/
theorem parseMessage_masked_data (c : Collaborators) (s : WebSocketSSLShard)
    (hin : 0 < getUsedSpace s)
    (h4 : 4 ≤ (WebSocketCore.assemble s).currentMessage.length)
    (hop : isDataOpCode (byteAt (WebSocketCore.assemble s).currentMessage 0 &&& 0x7f))
    (hmask : byteAt (WebSocketCore.assemble s).currentMessage 1 &&& 0x80 ≠ 0) :
    WebSocketCore.parseMessage c s =
      ((WebSocketCore.assemble s).withHeader
        (byteAt (WebSocketCore.assemble s).currentMessage 0 &&& 0x7f) 0 2, .masked) := by
  have h4' : ¬ (WebSocketCore.assemble s).currentMessage.length < 4 := by omega
  have hfin : (255 ^^^ webSocketFinishBit) = 0x7f := by decide
  have hbit : webSocketMaskBit = 0x80 := by decide
  unfold isDataOpCode at hop
  unfold WebSocketCore.parseMessage
  simp only [gt_iff_lt, hin, if_true, h4', if_false, hfin, hop]
  simp only [WebSocketCore.decodeLength, hbit, ne_eq, hmask, not_false_eq_true, if_true]
  rfl

/-- C1, counterexample: the header `createHeader` builds for a text frame of length 126 is
masked, and `parseMessage` stops at its mask test with payload length 0, not 126. -/
theorem header_roundtrip_masked_counterexample :
    WebSocketCore.parseMessage acceptAll
        { sampleShard with inputBuffer := [createHeader [] 126 WebSocketOpCode.Op_Text.toNat] } =
      ({ sampleShard with
          currentMessage := createHeader [] 126 WebSocketOpCode.Op_Text.toNat,
          dataOpCode := 1, messageLength := 0, messageOffset := 2 }, .masked) ∧
    (WebSocketCore.parseMessage acceptAll
        { sampleShard with inputBuffer := [createHeader [] 126 WebSocketOpCode.Op_Text.toNat] }).1.messageLength
      ≠ 126 := by
  decide

/-- C1, as amended: for every data, ping or pong opcode and every payload length `L` among
0, 1, 125, 126, 65535, 65536 and 2^32, the header built by `createHeader` carries the mask
bit, so `parseMessage` on that header stops at its mask test with the opcode decoded and no
length; on the same header with the mask bit cleared, the header decoding of `parseMessage`
recovers exactly the opcode and `L`, with the header size (2, 4 or 10) of the matching
length form. -/
theorem header_roundtrip_unmasked (c : Collaborators) (s : WebSocketSSLShard) (L : Nat)
    (opCode : WebSocketOpCode) (hop : opCode.isData = true)
    (hL : L ∈ [0, 1, 125, 126, 65535, 65536, 2 ^ 32]) (hin : 0 < getUsedSpace s) :
    ((WebSocketCore.assemble s).currentMessage = createHeader [] L opCode.toNat →
      WebSocketCore.parseMessage c s =
        ((WebSocketCore.assemble s).withHeader opCode.toNat 0 2, .masked)) ∧
    ((WebSocketCore.assemble s).currentMessage = clearMaskBit (createHeader [] L opCode.toNat) →
      WebSocketCore.parseMessage c s =
        WebSocketCore.deliver c
          ((WebSocketCore.assemble s).withHeader opCode.toNat L (matchingHeaderSize L))) := by
  have hL64 : L < 2 ^ 64 := by
    simp only [List.mem_cons, List.mem_singleton, List.not_mem_nil, or_false] at hL
    rcases hL with h | h | h | h | h | h | h <;> subst h <;> decide
  constructor
  · intro hm
    obtain ⟨b4, bop, bmask⟩ := createHeader_as_built L opCode
    rw [← hm] at b4 bop bmask
    have r := parseMessage_masked_data c s hin b4 (by rw [bop]; exact isData_toNat opCode hop)
      bmask
    rw [r, bop]
  · intro hm
    obtain ⟨b4, bop, bmask, b126, b127, blen, bsize⟩ := clearMaskBit_createHeader L opCode hL64
    rw [← hm] at b4 bop bmask b126 b127 blen bsize
    have r := parseMessage_unmasked_data c s hin b4
      (by rw [bop]; exact isData_toNat opCode hop) bmask b126 b127
    rw [r, bop, blen, bsize]

/-- Witness for C1 as amended: a binary frame header for length 65536 fed to a fresh shard as
one chunk, with the mask bit cleared. -/
theorem header_roundtrip_unmasked_witness :
    WebSocketCore.parseMessage acceptAll
        { sampleShard with inputBuffer := [clearMaskBit (createHeader [] 65536 WebSocketOpCode.Op_Binary.toNat)] } =
      WebSocketCore.deliver acceptAll
        { sampleShard with
          currentMessage := clearMaskBit (createHeader [] 65536 WebSocketOpCode.Op_Binary.toNat),
          dataOpCode := 2, messageLength := 65536, messageOffset := 10 } :=
  (header_roundtrip_unmasked acceptAll
    { sampleShard with inputBuffer := [clearMaskBit (createHeader [] 65536 WebSocketOpCode.Op_Binary.toNat)] }
    65536 .Op_Binary (by decide) (by decide) (by decide)).2 (by decide)

/-! ## The handler leaves the frame cursor alone when it accepts -/

theorem SameFrame.rfl' (a : WebSocketSSLShard) : SameFrame a a := ⟨rfl, rfl, rfl⟩

theorem SameFrame.trans' {a b c : WebSocketSSLShard} (h1 : SameFrame a b)
    (h2 : SameFrame b c) : SameFrame a c :=
  ⟨h1.1.trans h2.1, h1.2.1.trans h2.2.1, h1.2.2.trans h2.2.2⟩

theorem disconnect_sameFrame (s : WebSocketSSLShard) :
    SameFrame (WebSocketSSLShard.disconnect s) s := by
  unfold WebSocketSSLShard.disconnect
  split <;> exact ⟨rfl, rfl, rfl⟩

theorem onClosed_sameFrame (s : WebSocketSSLShard) :
    SameFrame (WebSocketSSLShard.onClosed s) s := by
  unfold WebSocketSSLShard.onClosed
  split
  · exact disconnect_sameFrame s
  · exact ⟨rfl, rfl, rfl⟩

theorem sendMessage_sameFrame (env : Environment) (s : WebSocketSSLShard)
    (dataToSend : List Nat) :
    SameFrame (WebSocketCore.sendMessage env s dataToSend).2 s := by
  unfold WebSocketCore.sendMessage
  split
  · exact ⟨rfl, rfl, rfl⟩
  · split
    · exact ⟨rfl, rfl, rfl⟩
    · exact onClosed_sameFrame s

theorem checkForAndSendHeartBeat_sameFrame (env : Environment) (s : WebSocketSSLShard)
    (isImmediate : Bool) :
    SameFrame (WebSocketCore.checkForAndSendHeartBeat env s isImmediate).2 s := by
  unfold WebSocketCore.checkForAndSendHeartBeat
  split
  · have h := sendMessage_sameFrame env s
      (prepMessageData (env.serialize (.heartbeat s.lastNumberReceived)
        (decide (s.dataOpCode = WebSocketOpCode.Op_Binary.toNat))) s.dataOpCode)
    simp only []
    split
    · exact h
    · exact ⟨h.1, h.2.1, h.2.2⟩
  · exact ⟨rfl, rfl, rfl⟩

theorem onDispatch_sameFrame (decoded : Decoded) (message : WebSocketMessage)
    (s : WebSocketSSLShard)
    (h : (WebSocketSSLShard.onDispatch decoded message s).1 = true) :
    SameFrame (WebSocketSSLShard.onDispatch decoded message s).2 s := by
  unfold WebSocketSSLShard.onDispatch at h ⊢
  simp only [WebSocketSSLShard.dropMessage] at h ⊢
  split_ifs at h ⊢ <;> exact ⟨rfl, rfl, rfl⟩

theorem identifyOrResume_sameFrame (env : Environment) (s : WebSocketSSLShard) :
    SameFrame (WebSocketSSLShard.identifyOrResume env s).2 s := by
  unfold WebSocketSSLShard.identifyOrResume
  dsimp only
  generalize prepMessageData _ s.dataOpCode = string
  split
  · exact sendMessage_sameFrame env _ _
  · have hsend := sendMessage_sameFrame env s
    exact ⟨(hsend _).1, (hsend _).2.1, (hsend _).2.2⟩

theorem onHello_sameFrame (env : Environment) (decoded : Decoded) (s : WebSocketSSLShard)
    (h : (WebSocketSSLShard.onHello env decoded s).1 = true) :
    SameFrame (WebSocketSSLShard.onHello env decoded s).2 s := by
  unfold WebSocketSSLShard.onHello at h ⊢
  by_cases hr : decoded.dataRaises = true
  · rw [if_pos hr] at h
    simp [WebSocketSSLShard.dropMessage] at h
  · rw [if_neg hr]
    refine (identifyOrResume_sameFrame env _).trans' ?_
    split <;> exact ⟨rfl, rfl, rfl⟩

theorem onOperation_sameFrame (env : Environment) (decoded : Decoded)
    (message : WebSocketMessage) (s : WebSocketSSLShard)
    (h : (WebSocketSSLShard.onOperation env decoded message s).1 = true) :
    SameFrame (WebSocketSSLShard.onOperation env decoded message s).2 s := by
  unfold WebSocketSSLShard.onOperation at h ⊢
  split_ifs at h ⊢
  · exact onDispatch_sameFrame decoded message _ h
  · exact checkForAndSendHeartBeat_sameFrame env _ true
  · exact (onClosed_sameFrame _).trans' ⟨rfl, rfl, rfl⟩
  · simp [WebSocketSSLShard.dropMessage] at h
  · exact (onClosed_sameFrame _).trans' ⟨rfl, rfl, rfl⟩
  · exact onHello_sameFrame env decoded _ h
  · exact ⟨rfl, rfl, rfl⟩
  · exact ⟨rfl, rfl, rfl⟩

theorem handleMessage_sameFrame (env : Environment) (decoded : Decoded)
    (message : WebSocketMessage) (s : WebSocketSSLShard)
    (h : (WebSocketSSLShard.handleMessage env decoded message s).1 = true) :
    SameFrame (WebSocketSSLShard.handleMessage env decoded message s).2 s := by
  unfold WebSocketSSLShard.handleMessage at h ⊢
  refine (onOperation_sameFrame env decoded message _ h).trans' ?_
  split <;> exact ⟨rfl, rfl, rfl⟩

theorem tryMessage_sameFrame (env : Environment) (s : WebSocketSSLShard)
    (dataNew : List Nat) (h : (WebSocketSSLShard.tryMessage env s dataNew).1 = true) :
    SameFrame (WebSocketSSLShard.tryMessage env s dataNew).2 s := by
  unfold WebSocketSSLShard.tryMessage at h ⊢
  dsimp only at h ⊢
  generalize (if dataNew.length > 0 then (env.decode dataNew).envelope
    else Envelope.unparsed) = envelope at h ⊢
  cases envelope with
  | raised => simp [WebSocketSSLShard.dropMessage] at h
  | unparsed => exact handleMessage_sameFrame env _ _ s h
  | parsed message => exact handleMessage_sameFrame env _ _ s h

/-- When the handler of a shard accepts a payload it has changed neither the assembled
message nor the frame cursor. -/
theorem onMessageReceived_sameFrame (env : Environment) (s : WebSocketSSLShard)
    (dataNew : List Nat)
    (h : (WebSocketSSLShard.onMessageReceived env s dataNew).1 = true) :
    SameFrame (WebSocketSSLShard.onMessageReceived env s dataNew).2 s := by
  unfold WebSocketSSLShard.onMessageReceived at h ⊢
  split_ifs at h ⊢
  · exact tryMessage_sameFrame env s dataNew h
  · simp [WebSocketSSLShard.dropMessage] at h
  · simp [WebSocketSSLShard.dropMessage] at h

/-! ## C6: hand-over of a complete frame -/

theorem erase_front (values : List Nat) (count : Nat) :
    LightString.erase values count 0 = values.drop count := by
  unfold LightString.erase
  by_cases h0 : 0 ≥ values.length
  · have : values = [] := List.length_eq_zero.mp (by omega)
    simp [this]
  · rw [if_neg h0]
    have hpos : 0 < values.length := by omega
    simp only [Nat.sub_zero, List.take_zero, List.nil_append, Nat.zero_add]
    rcases Nat.le_total count values.length with hle | hle
    · rw [Nat.min_eq_left hle]
      by_cases hc : count > 0
      · rw [if_pos hc]
      · have hz : count = 0 := by omega
        rw [if_neg hc, hz, List.drop_zero]
    · rw [Nat.min_eq_right hle, if_pos hpos, List.drop_length, List.drop_eq_nil_of_le hle]

/-- The completeness test on a buffer that holds the whole frame, with a handler that accepts
the payload and leaves the frame cursor alone. -/
theorem deliver_complete (c : Collaborators) (s : WebSocketSSLShard)
    (hfit : s.messageOffset + s.messageLength ≤ s.currentMessage.length)
    (h64 : s.currentMessage.length < 2 ^ 64)
    (hacc : (c.onMessageReceived s
      ((s.currentMessage.drop s.messageOffset).take s.messageLength)).1 = true)
    (hkeep : SameFrame (c.onMessageReceived s
      ((s.currentMessage.drop s.messageOffset).take s.messageLength)).2 s) :
    WebSocketCore.deliver c s =
      ({ (c.onMessageReceived s
            ((s.currentMessage.drop s.messageOffset).take s.messageLength)).2 with
          currentMessage := s.currentMessage.drop (s.messageOffset + s.messageLength),
          messageOffset := 0, messageLength := 0 },
        .delivered ((s.currentMessage.drop s.messageOffset).take s.messageLength) true) := by
  have hmod : (s.messageOffset + s.messageLength) % 2 ^ 64 = s.messageOffset + s.messageLength :=
    Nat.mod_eq_of_lt (by omega)
  have hnot : ¬ s.currentMessage.length < (s.messageOffset + s.messageLength) % 2 ^ 64 := by
    rw [hmod]; omega
  have hview : lengthDataSlice s.currentMessage s.messageOffset s.messageLength =
      some ((s.currentMessage.drop s.messageOffset).take s.messageLength) := by
    unfold lengthDataSlice
    rw [if_pos hfit]
  unfold WebSocketCore.deliver
  rw [if_neg hnot, hview]
  unfold WebSocketCore.handOver
  dsimp only
  rw [if_pos hacc, hkeep.1, hkeep.2.1, hkeep.2.2, erase_front,
    Nat.add_comm s.messageLength s.messageOffset, hmod]

/-- C6, counterexample: the assembled buffer holds the complete unmasked text frame
`81 01 41` (one payload byte, no trailing bytes) and the handler would accept the payload, yet
`parseMessage` returns at its 4-byte minimum: nothing is handed over and the buffer still
holds the frame instead of the (empty) trailing bytes. -/
theorem parseMessage_short_frame_counterexample :
    (WebSocketSSLShard.onMessageReceived sampleEnvironment
        { sampleShard with currentMessage := [0x81, 0x01, 0x41] } [0x41]).1 = true ∧
    WebSocketCore.parseMessage (WebSocketSSLShard.collaborators sampleEnvironment plainCloseCode)
        { sampleShard with inputBuffer := [[0x81, 0x01, 0x41]] } =
      ({ sampleShard with currentMessage := [0x81, 0x01, 0x41] }, .notReady) := by
  decide

/-- C6, as amended: when `parseMessage` runs with input pending and the assembled buffer, of
at least 4 bytes (at least 8 when the length byte is 126), holds a complete unmasked data,
ping or pong frame `header ++ payload` followed by arbitrary trailing bytes `T`, and the
handler of the shard accepts the payload, then the handler is passed exactly `payload` (the
bytes from the header size up to header size plus payload length), and afterwards the buffer
equals `T` and `messageLength` and `messageOffset` are 0. -/
theorem parseMessage_delivers_frame (env : Environment)
    (closeCodeOf : WebSocketType → Nat → Nat) (s : WebSocketSSLShard)
    (header payload T : List Nat)
    (hin : 0 < getUsedSpace s)
    (hm : (WebSocketCore.assemble s).currentMessage = header ++ payload ++ T)
    (h64 : (header ++ payload ++ T).length < 2 ^ 64)
    (h4 : 4 ≤ (header ++ payload ++ T).length)
    (hop : isDataOpCode (byteAt (header ++ payload ++ T) 0 &&& 0x7f))
    (hmask : byteAt (header ++ payload ++ T) 1 &&& 0x80 = 0)
    (h126 : byteAt (header ++ payload ++ T) 1 = 126 → 8 ≤ (header ++ payload ++ T).length)
    (hhs : header.length = announcedHeaderSize (header ++ payload ++ T))
    (hpl : payload.length = announcedLength (header ++ payload ++ T))
    (hacc : (WebSocketSSLShard.onMessageReceived env
      ((WebSocketCore.assemble s).withHeader (byteAt (header ++ payload ++ T) 0 &&& 0x7f)
        payload.length header.length) payload).1 = true) :
    WebSocketCore.parseMessage (WebSocketSSLShard.collaborators env closeCodeOf) s =
      ({ (WebSocketSSLShard.onMessageReceived env
            ((WebSocketCore.assemble s).withHeader (byteAt (header ++ payload ++ T) 0 &&& 0x7f)
              payload.length header.length) payload).2 with
          currentMessage := T, messageOffset := 0, messageLength := 0 },
        .delivered payload true) := by
  have h127 : byteAt (header ++ payload ++ T) 1 = 127 → 10 ≤ (header ++ payload ++ T).length := by
    intro e
    have h10 : announcedHeaderSize (header ++ payload ++ T) = 10 := by
      unfold announcedHeaderSize
      rw [e]
      rfl
    simp only [List.length_append]
    omega
  rw [← hm] at h4 hop hmask h126 h127
  rw [parseMessage_unmasked_data _ s hin h4 hop hmask h126 h127, hm, ← hhs, ← hpl]
  have hslice : ((header ++ payload ++ T).drop header.length).take payload.length =
      payload := by
    simp [List.append_assoc]
  have hdrop : (header ++ payload ++ T).drop (header.length + payload.length) = T := by
    rw [← List.length_append]
    exact List.drop_left' rfl
  have key := deliver_complete (WebSocketSSLShard.collaborators env closeCodeOf)
    ((WebSocketCore.assemble s).withHeader (byteAt (header ++ payload ++ T) 0 &&& 0x7f)
      payload.length header.length)
  simp only [WebSocketSSLShard.withHeader, hm, hslice, hdrop,
    WebSocketSSLShard.collaborators] at key hacc ⊢
  exact key (by simp only [List.length_append]; omega) h64 hacc
    (onMessageReceived_sameFrame env _ payload hacc)

/-- Witness for C6 as amended: two text frames arrive in one chunk; the first payload is
handed over and the second frame stays in the buffer. -/
theorem parseMessage_delivers_frame_witness :
    WebSocketCore.parseMessage (WebSocketSSLShard.collaborators sampleEnvironment plainCloseCode)
        { sampleShard with inputBuffer := [[0x81, 0x02, 0x68, 0x69, 0x81, 0x01, 0x41]] } =
      ({ sampleShard with currentMessage := [0x81, 0x01, 0x41], dataOpCode := 1 },
        .delivered [0x68, 0x69] true) :=
  (parseMessage_delivers_frame sampleEnvironment plainCloseCode
    { sampleShard with inputBuffer := [[0x81, 0x02, 0x68, 0x69, 0x81, 0x01, 0x41]] }
    [0x81, 0x02] [0x68, 0x69] [0x81, 0x01, 0x41]
    (by decide) (by decide) (by decide) (by decide) (by decide) (by decide) (by decide)
    (by decide) (by decide) (by decide)).trans (by decide)

/-! ## C7: frames that are not ready -/

/-- C7, counterexample: a Close frame that announces 5 payload bytes of which only 2 are
buffered (4 bytes in all, fewer than header size plus payload length): `parseMessage` does not
report "not ready", it reads the status 1000, sets the resuming flag and calls `onClosed`,
which tears the connection down and records a reconnect request. -/
theorem parseMessage_not_ready_counterexample :
    WebSocketCore.parseMessage (WebSocketSSLShard.collaborators sampleEnvironment plainCloseCode)
        { sampleShard with inputBuffer := [[0x88, 0x05, 0x03, 0xe8]] } =
      ({ sampleShard with
          socket := SOCKET_ERROR, ssl := false, currentState := .Disconnected,
          currentMessage := [0x88, 0x05, 0x03, 0xe8], dataOpCode := 8, areWeResuming := true,
          connections := some
            { currentReconnectTries := 0, areWeResuming := true, currentShard := 0 } },
        .closed 1000) := by
  decide

/-- C7, as amended: `parseMessage` called with input pending. If the assembled buffer has
fewer than 4 bytes it is left as it is and nothing is called. If it has at least 4 bytes and
starts with an unmasked data, ping or pong frame, then it is not ready, with no handler called
and no byte removed, when the length byte is 126 and fewer than 8 bytes are buffered, when the
length byte is 127 and fewer than 10 bytes are buffered, and when fewer than header size plus
payload length bytes are buffered, provided that sum is below 2^64. In each case the result
does not depend on the handlers. -/
theorem parseMessage_not_ready (c : Collaborators) (s : WebSocketSSLShard)
    (hin : 0 < getUsedSpace s) :
    ((WebSocketCore.assemble s).currentMessage.length < 4 →
      WebSocketCore.parseMessage c s = (WebSocketCore.assemble s, .notReady)) ∧
    (4 ≤ (WebSocketCore.assemble s).currentMessage.length →
      isDataOpCode (byteAt (WebSocketCore.assemble s).currentMessage 0 &&& 0x7f) →
      byteAt (WebSocketCore.assemble s).currentMessage 1 &&& 0x80 = 0 →
      (byteAt (WebSocketCore.assemble s).currentMessage 1 = 126 →
        (WebSocketCore.assemble s).currentMessage.length < 8 →
        WebSocketCore.parseMessage c s =
          ((WebSocketCore.assemble s).withHeader
            (byteAt (WebSocketCore.assemble s).currentMessage 0 &&& 0x7f) 126 2, .notReady)) ∧
      (byteAt (WebSocketCore.assemble s).currentMessage 1 = 127 →
        (WebSocketCore.assemble s).currentMessage.length < 10 →
        WebSocketCore.parseMessage c s =
          ((WebSocketCore.assemble s).withHeader
            (byteAt (WebSocketCore.assemble s).currentMessage 0 &&& 0x7f) 127 2, .notReady)) ∧
      ((byteAt (WebSocketCore.assemble s).currentMessage 1 = 126 →
          8 ≤ (WebSocketCore.assemble s).currentMessage.length) →
        (byteAt (WebSocketCore.assemble s).currentMessage 1 = 127 →
          10 ≤ (WebSocketCore.assemble s).currentMessage.length) →
        announcedHeaderSize (WebSocketCore.assemble s).currentMessage +
          announcedLength (WebSocketCore.assemble s).currentMessage < 2 ^ 64 →
        (WebSocketCore.assemble s).currentMessage.length <
          announcedHeaderSize (WebSocketCore.assemble s).currentMessage +
            announcedLength (WebSocketCore.assemble s).currentMessage →
        WebSocketCore.parseMessage c s =
          ((WebSocketCore.assemble s).withHeader
            (byteAt (WebSocketCore.assemble s).currentMessage 0 &&& 0x7f)
            (announcedLength (WebSocketCore.assemble s).currentMessage)
            (announcedHeaderSize (WebSocketCore.assemble s).currentMessage), .notReady))) := by
  have hfin : (255 ^^^ webSocketFinishBit) = 0x7f := by decide
  have hbit : webSocketMaskBit = 0x80 := by decide
  have m126 : (126 &&& 128 : Nat) = 0 := by decide
  have m127 : (127 &&& 128 : Nat) = 0 := by decide
  refine ⟨?_, ?_⟩
  · intro hlt
    unfold WebSocketCore.parseMessage
    simp only [gt_iff_lt, hin, if_true, hlt]
  · intro h4 hop hmask
    have h4' : ¬ (WebSocketCore.assemble s).currentMessage.length < 4 := by omega
    refine ⟨?_, ?_, ?_⟩
    · intro e hlt
      unfold isDataOpCode at hop
      unfold WebSocketCore.parseMessage
      simp only [gt_iff_lt, hin, if_true, h4', if_false, hfin, hop]
      simp only [WebSocketCore.decodeLength, hbit, e, m126, ne_eq, not_true_eq_false,
        if_false, webSocketPayloadLengthMagicLarge, if_true, hlt]
      rfl
    · intro e hlt
      unfold isDataOpCode at hop
      unfold WebSocketCore.parseMessage
      simp only [gt_iff_lt, hin, if_true, h4', if_false, hfin, hop]
      simp only [WebSocketCore.decodeLength, hbit, e, m127, ne_eq, not_true_eq_false,
        if_false, webSocketPayloadLengthMagicLarge, webSocketPayloadLengthMagicHuge,
        if_true, hlt]
      simp only [show ¬ (127 : Nat) = 126 by decide, if_false]
      rfl
    · intro h126 h127 hsum hlt
      rw [parseMessage_unmasked_data c s hin h4 hop hmask h126 h127]
      unfold WebSocketCore.deliver
      simp only [WebSocketSSLShard.withHeader, Nat.mod_eq_of_lt hsum, hlt, if_true]

/-- Witness for C7 as amended: a text frame that announces 5 payload bytes, of which 2 have
arrived. -/
theorem parseMessage_not_ready_witness :
    WebSocketCore.parseMessage (WebSocketSSLShard.collaborators sampleEnvironment plainCloseCode)
        { sampleShard with inputBuffer := [[0x81, 0x05, 0x68, 0x65]] } =
      ({ sampleShard with
          currentMessage := [0x81, 0x05, 0x68, 0x65], dataOpCode := 1, messageLength := 5,
          messageOffset := 2 }, .notReady) :=
  ((parseMessage_not_ready
      (WebSocketSSLShard.collaborators sampleEnvironment plainCloseCode)
      { sampleShard with inputBuffer := [[0x81, 0x05, 0x68, 0x65]] } (by decide)).2
    (by decide) (by decide) (by decide)).2.2 (by decide) (by decide) (by decide) (by decide)

/-- The side condition on the 64-bit sum: for a binary frame whose length field is all ones,
header size plus payload length wraps around, the completeness test of line 280 passes on the
10 buffered bytes, and the view handed to the handler reaches past the end of the buffer. -/
theorem parseMessage_wraps_around :
    (WebSocketCore.parseMessage (WebSocketSSLShard.collaborators sampleEnvironment plainCloseCode)
        { sampleShard with
          inputBuffer := [[0x82, 127, 255, 255, 255, 255, 255, 255, 255, 255]] }).2 =
      .overrun := by
  decide

/-! ## C5: feeding a frame in chunks -/

/-- C5, the code at the failing input: the text frame `81 02 68 69` fed to a fresh shard as
one chunk delivers the payload `68 69`; split after 4 bytes a longer frame is delivered as
well; but fed one byte at a time nothing is ever delivered: after the first byte the
assembled message is neither empty nor shorter than the (zero) frame cursor, so the condition
of line 234 never lets another chunk in, the message stays at one byte and the three later
chunks stay queued. -/
theorem feedChunks_one_byte_at_a_time_stalls :
    (feedChunks (WebSocketSSLShard.collaborators sampleEnvironment plainCloseCode) sampleShard
        [[0x81, 0x02, 0x68, 0x69]]).2 = [[0x68, 0x69]] ∧
    (feedChunks (WebSocketSSLShard.collaborators sampleEnvironment plainCloseCode) sampleShard
        [[0x81, 0x03, 0x68, 0x69], [0x21]]).2 = [[0x68, 0x69, 0x21]] ∧
    feedChunks (WebSocketSSLShard.collaborators sampleEnvironment plainCloseCode) sampleShard
        [[0x81], [0x02], [0x68], [0x69]] =
      ({ sampleShard with
          currentMessage := [0x81], inputBuffer := [[0x02], [0x68], [0x69]] }, []) := by
  decide

/-! ## C8: which states let messages through -/

/-- C8, counterexample. In `Sending_Identify` a Dispatch message (op 0, READY) is processed:
the event is handled and the state becomes `Authenticated`. In `Collecting_Hello` a
Heartbeat request (op 1) is processed: a heartbeat frame is sent. -/
theorem onMessageReceived_before_authenticated_counterexample :
    WebSocketSSLShard.onMessageReceived (environmentDecoding { op := 0, s := 1, t := "READY" })
        { sampleShard with currentState := .Sending_Identify, currentMessage := [0x81, 1, 0x41] }
        [0x41] =
      (true, { sampleShard with
        currentState := .Authenticated, currentMessage := [0x81, 1, 0x41],
        lastNumberReceived := 1, sessionId := "session", resumeUrl := "wss://resume",
        trace := [.eventHandled 1] }) ∧
    WebSocketSSLShard.onMessageReceived (environmentDecoding { op := 1, s := 0, t := "" })
        { sampleShard with currentState := .Collecting_Hello, currentMessage := [0x81, 1, 0x41] }
        [0x41] =
      (true, { sampleShard with
        currentState := .Collecting_Hello, currentMessage := [0x81, 1, 0x41],
        outputBuffer := [[0x81, 0x82, 0, 0, 0, 0, 0x5b, 0x5d]],
        haveWeReceivedHeartbeatAck := false,
        trace := [.sent [0x81, 0x82, 0, 0, 0, 0, 0x5b, 0x5d]] }) := by
  decide

/-- C8, as amended: in the states `Disconnected` and `Upgrading`, `onMessageReceived`
processes no message, whatever its operation code: it returns false, clears the buffers and
the frame cursor and changes nothing else, so no event is handled and no heartbeat is sent.
Messages, Dispatch and Heartbeat requests included, are processed in `Collecting_Hello`, and
in `Sending_Identify` and `Authenticated` when the shard is connected and the assembled
message is not empty. -/
theorem onMessageReceived_state_gate (env : Environment) (s : WebSocketSSLShard)
    (dataNew : List Nat) :
    (s.currentState = .Disconnected ∨ s.currentState = .Upgrading →
      WebSocketSSLShard.onMessageReceived env s dataNew =
        (false, { s with currentMessage := [], inputBuffer := [], messageLength := 0,
                         messageOffset := 0 })) ∧
    (s.hasDiscordCoreClient = true →
      (s.currentState = .Collecting_Hello ∨
        ((s.currentState = .Sending_Identify ∨ s.currentState = .Authenticated) ∧
          areWeStillConnected s = true ∧ 0 < s.currentMessage.length)) →
      WebSocketSSLShard.onMessageReceived env s dataNew =
        WebSocketSSLShard.tryMessage env s dataNew) := by
  constructor
  · intro hstate
    unfold WebSocketSSLShard.onMessageReceived
    have hguard : ¬ ((areWeStillConnected s = true ∧ s.currentMessage.length > 0 ∧
        (s.currentState = .Authenticated ∨ s.currentState = .Sending_Identify)) ∨
        s.currentState = .Collecting_Hello) := by
      rcases hstate with h | h <;> simp [h]
    rw [if_neg hguard]
    split <;> rfl
  · intro hclient hstate
    unfold WebSocketSSLShard.onMessageReceived
    have hguard : (areWeStillConnected s = true ∧ s.currentMessage.length > 0 ∧
        (s.currentState = .Authenticated ∨ s.currentState = .Sending_Identify)) ∨
        s.currentState = .Collecting_Hello := by
      rcases hstate with h | ⟨h1, h2, h3⟩
      · exact Or.inr h
      · exact Or.inl ⟨h2, h3, h1.symm⟩
    rw [if_pos hclient, if_pos hguard]

/-- Witness for C8 as amended: a Dispatch message offered to a shard that is still
`Upgrading` is dropped. -/
theorem onMessageReceived_state_gate_witness :
    WebSocketSSLShard.onMessageReceived (environmentDecoding { op := 0, s := 1, t := "READY" })
        { sampleShard with currentState := .Upgrading, currentMessage := [0x81, 1, 0x41],
                           inputBuffer := [[0x00]], messageLength := 1, messageOffset := 2 }
        [0x41] =
      (false, { sampleShard with currentState := .Upgrading }) :=
  (onMessageReceived_state_gate (environmentDecoding { op := 0, s := 1, t := "READY" })
    { sampleShard with currentState := .Upgrading, currentMessage := [0x81, 1, 0x41],
                       inputBuffer := [[0x00]], messageLength := 1, messageOffset := 2 }
    [0x41]).1 (Or.inr rfl)

/-! ## The cases of `onClosed` -/

/-- C10, counterexample: a shard whose socket is already closed (the transport never opened
one) with tries left: `onClosed` changes nothing, so the state is not `Disconnected`, the
input buffer is not cleared and no reconnect request is recorded. -/
theorem onClosed_closed_socket_counterexample :
    WebSocketSSLShard.onClosed
        { sampleShard with socket := SOCKET_ERROR, currentState := .Upgrading,
                           inputBuffer := [[0x48]] } =
      { sampleShard with socket := SOCKET_ERROR, currentState := .Upgrading,
                         inputBuffer := [[0x48]] } ∧
    (WebSocketSSLShard.onClosed
        { sampleShard with socket := SOCKET_ERROR, currentState := .Upgrading,
                           inputBuffer := [[0x48]] }).connections = none := by
  decide

/-- C10, as amended: if `currentReconnectTries < maxReconnectTries` and the socket is open,
`onClosed` resets the transport state (socket closed, state `Disconnected`, connecting flag
set, both buffers cleared, close code 0, heartbeating flag cleared) and records a reconnect
request with the current tries count, resuming flag and shard index, and touches nothing
else, the quit flag included; if tries are left and the socket is already closed it changes
nothing; otherwise it sets the quit flag (when the shard has one) to true, records no
reconnect request and changes nothing else. -/
theorem onClosed_policy (s : WebSocketSSLShard) :
    (s.currentReconnectTries < s.maxReconnectTries → s.socket ≠ SOCKET_ERROR →
      WebSocketSSLShard.onClosed s =
        { s with
          socket := SOCKET_ERROR, ssl := false, currentState := .Disconnected,
          areWeConnecting := true, outputBuffer := [], inputBuffer := [], closeCode := 0,
          areWeHeartBeating := false,
          connections := some
            { currentReconnectTries := s.currentReconnectTries,
              areWeResuming := s.areWeResuming, currentShard := s.shard.1 } }) ∧
    (s.currentReconnectTries < s.maxReconnectTries → s.socket = SOCKET_ERROR →
      WebSocketSSLShard.onClosed s = s) ∧
    (¬ s.currentReconnectTries < s.maxReconnectTries →
      WebSocketSSLShard.onClosed s = { s with doWeQuit := s.doWeQuit.map (fun _ => true) }) := by
  refine ⟨?_, ?_, ?_⟩
  · intro hlt hsock
    unfold WebSocketSSLShard.onClosed WebSocketSSLShard.disconnect
    rw [if_pos hlt, if_pos hsock]
  · intro hlt hsock
    unfold WebSocketSSLShard.onClosed WebSocketSSLShard.disconnect
    rw [if_pos hlt, if_neg (not_not.mpr hsock)]
  · intro hge
    unfold WebSocketSSLShard.onClosed
    rw [if_neg hge]

/-- Witness for C10 as amended: an authenticated shard with an open socket, pending input and
output and no tries used. -/
theorem onClosed_policy_witness :
    WebSocketSSLShard.onClosed
        { sampleShard with currentState := .Authenticated, inputBuffer := [[0x48]],
                           outputBuffer := [[0x49]], closeCode := 4000,
                           areWeConnecting := false } =
      { sampleShard with
        socket := SOCKET_ERROR, ssl := false, currentState := .Disconnected,
        connections := some
          { currentReconnectTries := 0, areWeResuming := false, currentShard := 0 } } :=
  ((onClosed_policy
      { sampleShard with currentState := .Authenticated, inputBuffer := [[0x48]],
                         outputBuffer := [[0x49]], closeCode := 4000,
                         areWeConnecting := false }).1 (by decide) (by decide)).trans
    (by decide)

/-! ## C9: the reconnect budget -/

theorem createHeader_length_pos (outBuffer : List Nat) (sendLength opCode : Nat) :
    0 < (createHeader outBuffer sendLength opCode).length := by
  simp [createHeader]

theorem prepMessageData_length_ne_zero (dataToSend : List Nat) (theOpCode : Nat) :
    ¬ (prepMessageData dataToSend theOpCode).length = 0 := by
  have h := createHeader_length_pos [] dataToSend.length theOpCode
  simp only [prepMessageData, List.length_append]
  omega

/-- A write that the transport takes queues the frame and records it. -/
theorem sendMessage_of_canWrite (env : Environment) (s : WebSocketSSLShard)
    (dataToSend : List Nat) (hdata : ¬ dataToSend.length = 0) (hw : env.canWrite = true) :
    WebSocketCore.sendMessage env s dataToSend =
      (true, { s with outputBuffer := s.outputBuffer ++ [dataToSend],
                      trace := s.trace ++ [.sent dataToSend] }) := by
  unfold WebSocketCore.sendMessage
  rw [if_neg hdata, if_pos hw]

theorem sendMessage_of_not_canWrite (env : Environment) (s : WebSocketSSLShard)
    (dataToSend : List Nat) (hdata : ¬ dataToSend.length = 0) (hw : ¬ env.canWrite = true) :
    WebSocketCore.sendMessage env s dataToSend = (false, WebSocketSSLShard.onClosed s) := by
  unfold WebSocketCore.sendMessage
  rw [if_neg hdata, if_neg hw]

theorem disconnect_trace (s : WebSocketSSLShard) :
    (WebSocketSSLShard.disconnect s).trace = s.trace := by
  unfold WebSocketSSLShard.disconnect
  split <;> rfl

theorem onClosed_trace (s : WebSocketSSLShard) :
    (WebSocketSSLShard.onClosed s).trace = s.trace := by
  unfold WebSocketSSLShard.onClosed
  split
  · exact disconnect_trace s
  · rfl

/-- The two ways a call of `checkForAndSendHeartBeat` whose guard holds can end. -/
theorem checkForAndSendHeartBeat_guarded (env : Environment) (s : WebSocketSSLShard)
    (isImmediate : Bool)
    (hguard : (s.currentState = .Authenticated ∧
      s.heartBeatStopWatch.hasTimePassed env.now = true ∧
      s.haveWeReceivedHeartbeatAck = true) ∨ isImmediate = true) :
    (env.canWrite = true →
      WebSocketCore.checkForAndSendHeartBeat env s isImmediate =
        (true, { s with
          outputBuffer := s.outputBuffer ++
            [prepMessageData (env.serialize (.heartbeat s.lastNumberReceived)
              (decide (s.dataOpCode = WebSocketOpCode.Op_Binary.toNat))) s.dataOpCode],
          trace := s.trace ++
            [.sent (prepMessageData (env.serialize (.heartbeat s.lastNumberReceived)
              (decide (s.dataOpCode = WebSocketOpCode.Op_Binary.toNat))) s.dataOpCode)],
          haveWeReceivedHeartbeatAck := false,
          heartBeatStopWatch := s.heartBeatStopWatch.resetTimer env.now })) ∧
    (¬ env.canWrite = true →
      WebSocketCore.checkForAndSendHeartBeat env s isImmediate =
        (false, WebSocketSSLShard.onClosed s)) := by
  constructor
  · intro hw
    unfold WebSocketCore.checkForAndSendHeartBeat
    rw [if_pos hguard]
    simp only [sendMessage_of_canWrite env s _ (prepMessageData_length_ne_zero _ _) hw]
    rfl
  · intro hw
    unfold WebSocketCore.checkForAndSendHeartBeat
    rw [if_pos hguard]
    simp only [sendMessage_of_not_canWrite env s _ (prepMessageData_length_ne_zero _ _) hw]
    rfl

theorem checkForAndSendHeartBeat_unguarded (env : Environment) (s : WebSocketSSLShard)
    (isImmediate : Bool)
    (hguard : ¬ ((s.currentState = .Authenticated ∧
      s.heartBeatStopWatch.hasTimePassed env.now = true ∧
      s.haveWeReceivedHeartbeatAck = true) ∨ isImmediate = true)) :
    WebSocketCore.checkForAndSendHeartBeat env s isImmediate = (false, s) := by
  unfold WebSocketCore.checkForAndSendHeartBeat
  rw [if_neg hguard]

/-- The status that the Close branch reads is bytes 2 and 3 as one big-endian number. -/
theorem closeStatus_bigEndian (values : List Nat) :
    ((((byteAt values 2 &&& 0xff) <<< 8) % 2 ^ 16) ||| (byteAt values 3 &&& 0xff)) % 2 ^ 16 =
      bigEndian [byteAt values 2, byteAt values 3] := by
  have h2 := byteAt_lt values 2
  have h3 := byteAt_lt values 3
  rw [and_ff _ h2, and_ff _ h3]
  have hs : (byteAt values 2 <<< 8) % 2 ^ 16 = byteAt values 2 <<< 8 := by
    apply Nat.mod_eq_of_lt
    rw [Nat.shiftLeft_eq]
    omega
  rw [hs, largeLength_bigEndian]
  apply Nat.mod_eq_of_lt
  simp only [bigEndian, List.foldl_cons, List.foldl_nil]
  omega

/-- The Close branch of `parseMessage` in terms of the status read big-endian. -/
theorem handleClose_eq (c : Collaborators) (s : WebSocketSSLShard) :
    WebSocketCore.handleClose c s =
      (c.onClosed
          (if c.closeCodeOf s.typeOfWebSocket
              (bigEndian [byteAt s.currentMessage 2, byteAt s.currentMessage 3]) % 2 ^ 16 ≠ 0
            then s.markResuming else s),
        .closed (bigEndian [byteAt s.currentMessage 2, byteAt s.currentMessage 3])) := by
  unfold WebSocketCore.handleClose
  simp only [closeStatus_bigEndian]
  rfl

/-- `parseMessage` on a buffered frame of at least 4 bytes whose opcode is Close. -/
theorem parseMessage_close_frame (c : Collaborators) (s : WebSocketSSLShard)
    (hin : 0 < getUsedSpace s)
    (h4 : 4 ≤ (WebSocketCore.assemble s).currentMessage.length)
    (hop : byteAt (WebSocketCore.assemble s).currentMessage 0 &&& 0x7f = 0x08) :
    WebSocketCore.parseMessage c s =
      WebSocketCore.handleClose c ((WebSocketCore.assemble s).withHeader 0x08 0 0) := by
  have h4' : ¬ (WebSocketCore.assemble s).currentMessage.length < 4 := by omega
  have hfin : (255 ^^^ webSocketFinishBit) = 0x7f := by decide
  unfold WebSocketCore.parseMessage
  simp only [gt_iff_lt, hin, if_true, h4', if_false, hfin, hop]
  simp only [show ¬ ((8 : Nat) = 0 ∨ (8 : Nat) = 1 ∨ (8 : Nat) = 2 ∨ (8 : Nat) = 9 ∨
    (8 : Nat) = 10) by decide, if_false, if_true]
  rfl

/-- C16, counterexample: a text frame and the Close frame `88 02 0f a0` (status 4000) arrive
in one chunk. The first call of `parseMessage` hands over the text payload and leaves the Close
frame in the assembled buffer, with nothing pending in the ring buffer. The next call returns
at the test of line 233: no status is read, the resuming flag stays false although the close
code 4000 is not zero, and `onClosed` is not invoked (the socket stays open, the state is
unchanged and no reconnect request is recorded). -/
theorem parseMessage_buffered_close_counterexample :
    WebSocketCore.parseMessage (WebSocketSSLShard.collaborators sampleEnvironment plainCloseCode)
        { sampleShard with inputBuffer := [[0x81, 0x02, 0x68, 0x69, 0x88, 0x02, 0x0f, 0xa0]] } =
      ({ sampleShard with currentMessage := [0x88, 0x02, 0x0f, 0xa0] },
        .delivered [0x68, 0x69] true) ∧
    WebSocketCore.parseMessage (WebSocketSSLShard.collaborators sampleEnvironment plainCloseCode)
        { sampleShard with currentMessage := [0x88, 0x02, 0x0f, 0xa0] } =
      ({ sampleShard with currentMessage := [0x88, 0x02, 0x0f, 0xa0] }, .idle) ∧
    (WebSocketCore.parseMessage (WebSocketSSLShard.collaborators sampleEnvironment plainCloseCode)
        { sampleShard with currentMessage := [0x88, 0x02, 0x0f, 0xa0] }).1.areWeResuming =
      false ∧
    plainCloseCode .Normal 4000 ≠ 0 := by
  decide

/-- C16, as amended: for every buffered frame of at least 4 bytes whose opcode is Close,
`parseMessage` called with input pending reads the status as the big-endian 16-bit value of bytes 2 and 3,
sets the resuming flag to true when the close code that the conversion of the socket type
gives for that status is nonzero and leaves it unchanged when it is zero, and then invokes
`onClosed`. -/
theorem parseMessage_close_handling (c : Collaborators) (s : WebSocketSSLShard)
    (hin : 0 < getUsedSpace s)
    (h4 : 4 ≤ (WebSocketCore.assemble s).currentMessage.length)
    (hop : byteAt (WebSocketCore.assemble s).currentMessage 0 &&& 0x7f = 0x08) :
    WebSocketCore.parseMessage c s =
      (c.onClosed
          (if c.closeCodeOf (WebSocketCore.assemble s).typeOfWebSocket
              (bigEndian [byteAt (WebSocketCore.assemble s).currentMessage 2,
                byteAt (WebSocketCore.assemble s).currentMessage 3]) % 2 ^ 16 ≠ 0
            then ((WebSocketCore.assemble s).withHeader 0x08 0 0).markResuming
            else (WebSocketCore.assemble s).withHeader 0x08 0 0),
        .closed (bigEndian [byteAt (WebSocketCore.assemble s).currentMessage 2,
          byteAt (WebSocketCore.assemble s).currentMessage 3])) := by
  rw [parseMessage_close_frame c s hin h4 hop, handleClose_eq]
  rfl

/-- Witness for C16 as amended: the Close frame `88 02 0f a0` (status 4000) on the sample shard: the
resuming flag is set and the shard is torn down with a reconnect request that resumes. -/
theorem parseMessage_close_handling_witness :
    WebSocketCore.parseMessage (WebSocketSSLShard.collaborators sampleEnvironment plainCloseCode)
        { sampleShard with inputBuffer := [[0x88, 0x02, 0x0f, 0xa0]] } =
      ({ sampleShard with
          socket := SOCKET_ERROR, ssl := false, currentState := .Disconnected,
          currentMessage := [0x88, 0x02, 0x0f, 0xa0], dataOpCode := 8, areWeResuming := true,
          connections := some
            { currentReconnectTries := 0, areWeResuming := true, currentShard := 0 } },
        .closed 4000) :=
  (parseMessage_close_handling
    (WebSocketSSLShard.collaborators sampleEnvironment plainCloseCode)
    { sampleShard with inputBuffer := [[0x88, 0x02, 0x0f, 0xa0]] }
    (by decide) (by decide) (by decide)).trans (by decide)

/-- Case 10 in one equation: the interval is captured, the frame is written, and the state
advances when the transport takes the write; otherwise the shard is closed. -/
theorem onHello_eq (env : Environment) (decoded : Decoded) (s : WebSocketSSLShard)
    (hr : decoded.dataRaises = false) :
    (env.canWrite = true →
      WebSocketSSLShard.onHello env decoded s =
        (true, (s.withHeartBeat decoded.heartbeatInterval env.now).afterIdentify
          ((s.withHeartBeat decoded.heartbeatInterval env.now).helloFrame env))) ∧
    (¬ env.canWrite = true →
      WebSocketSSLShard.onHello env decoded s =
        (true, WebSocketSSLShard.onClosed (s.withHeartBeat decoded.heartbeatInterval env.now)))
    := by
  have hr' : ¬ decoded.dataRaises = true := by rw [hr]; decide
  constructor
  · intro hw
    unfold WebSocketSSLShard.onHello
    rw [if_neg hr']
    unfold WebSocketSSLShard.identifyOrResume
    simp only [sendMessage_of_canWrite env _ _ (prepMessageData_length_ne_zero _ _) hw]
    rfl
  · intro hw
    unfold WebSocketSSLShard.onHello
    rw [if_neg hr']
    unfold WebSocketSSLShard.identifyOrResume
    simp only [sendMessage_of_not_canWrite env _ _ (prepMessageData_length_ne_zero _ _) hw]
    rfl

/-- C18, counterexample: a shard with no session (empty session id) whose resuming flag is
set, as a Close frame with a nonzero code leaves it, receives a Hello with
`heartbeatInterval = 45000`: the frame sent is a Resume (operation code 6), not an Identify;
and a shard that has a session but whose resuming flag is clear sends an Identify (operation
code 2). -/
theorem hello_resume_without_session_counterexample :
    WebSocketSSLShard.onMessageReceived (taggedEnvironment { op := 10, s := 0, t := "" })
        { sampleShard with areWeResuming := true, sessionId := "" } [0x41] =
      (true, { sampleShard with
        areWeResuming := true, currentState := .Sending_Identify, areWeHeartBeating := true,
        heartBeatStopWatch := ⟨45000, 0⟩,
        outputBuffer := [[0x81, 0x81, 0, 0, 0, 0, 6]],
        trace := [.sent [0x81, 0x81, 0, 0, 0, 0, 6]] }) ∧
    WebSocketSSLShard.onMessageReceived (taggedEnvironment { op := 10, s := 0, t := "" })
        { sampleShard with areWeResuming := false, sessionId := "session" } [0x41] =
      (true, { sampleShard with
        sessionId := "session", currentState := .Sending_Identify, areWeHeartBeating := true,
        heartBeatStopWatch := ⟨45000, 0⟩,
        outputBuffer := [[0x81, 0x81, 0, 0, 0, 0, 2]],
        trace := [.sent [0x81, 0x81, 0, 0, 0, 0, 2]] }) := by
  decide

/-- C18, as amended: on a Hello message (op 10) whose payload decodes, a heartbeat interval
that is not zero is captured (it becomes the wait time of the heartbeat timer), a Resume frame
is sent if the resuming flag of the shard is set and an Identify frame otherwise, and when
that frame is sent the state becomes `Sending_Identify`, while a failed send closes the shard
instead; in the scenario `heartbeatInterval = 45000` with the resuming flag clear, an Identify
is sent and the state becomes `Sending_Identify`. -/
theorem hello_handling (env : Environment) (decoded : Decoded) (message : WebSocketMessage)
    (s : WebSocketSSLShard) (hop : message.op = 10) (hr : decoded.dataRaises = false) :
    (env.canWrite = true →
      WebSocketSSLShard.onOperation env decoded message s =
        (true, (s.withHeartBeat decoded.heartbeatInterval env.now).afterIdentify
          ((s.withHeartBeat decoded.heartbeatInterval env.now).helloFrame env))) ∧
    (¬ env.canWrite = true →
      WebSocketSSLShard.onOperation env decoded message s =
        (true, WebSocketSSLShard.onClosed (s.withHeartBeat decoded.heartbeatInterval env.now)))
    ∧
    (decoded.heartbeatInterval ≠ 0 →
      (s.withHeartBeat decoded.heartbeatInterval env.now).heartBeatStopWatch.maxNumberOfTimeUnits
        = decoded.heartbeatInterval) ∧
    (s.areWeResuming = true →
      (s.withHeartBeat decoded.heartbeatInterval env.now).helloFrame env =
        prepMessageData
          (env.serialize (.resume s.sessionId s.lastNumberReceived)
            (decide (s.dataOpCode = WebSocketOpCode.Op_Binary.toNat))) s.dataOpCode) ∧
    (s.areWeResuming = false →
      (s.withHeartBeat decoded.heartbeatInterval env.now).helloFrame env =
        prepMessageData
          (env.serialize (.identify s.shard.1 s.shard.2)
            (decide (s.dataOpCode = WebSocketOpCode.Op_Binary.toNat))) s.dataOpCode) ∧
    (decoded.heartbeatInterval = 45000 → s.areWeResuming = false → env.canWrite = true →
      (WebSocketSSLShard.onOperation env decoded message s).2.currentState =
        .Sending_Identify ∧
      (WebSocketSSLShard.onOperation env decoded message s).2.trace =
        s.trace ++ [.sent (prepMessageData
          (env.serialize (.identify s.shard.1 s.shard.2)
            (decide (s.dataOpCode = WebSocketOpCode.Op_Binary.toNat))) s.dataOpCode)] ∧
      (WebSocketSSLShard.onOperation env decoded message s).2.heartBeatStopWatch
        = ⟨45000, env.now⟩) := by
  have hop' : WebSocketSSLShard.onOperation env decoded message s =
      WebSocketSSLShard.onHello env decoded s := by
    unfold WebSocketSSLShard.onOperation
    simp [hop]
  obtain ⟨hyes, hno⟩ := onHello_eq env decoded s hr
  have hres : ∀ b : Bool, s.areWeResuming = b →
      (s.withHeartBeat decoded.heartbeatInterval env.now).helloFrame env =
        prepMessageData
          (env.serialize
            (if b = true then Outbound.resume s.sessionId s.lastNumberReceived
              else Outbound.identify s.shard.1 s.shard.2)
            (decide (s.dataOpCode = WebSocketOpCode.Op_Binary.toNat))) s.dataOpCode := by
    intro b hb
    unfold WebSocketSSLShard.helloFrame WebSocketSSLShard.withHeartBeat
    split <;> simp [hb]
  refine ⟨fun hw => hop'.trans (hyes hw), fun hw => hop'.trans (hno hw), ?_, ?_, ?_, ?_⟩
  · intro h0
    unfold WebSocketSSLShard.withHeartBeat
    rw [if_pos h0]
    rfl
  · intro h
    simpa using hres true h
  · intro h
    simpa using hres false h
  · intro h45 hres0 hw
    rw [hop', hyes hw]
    have hf := hres false hres0
    simp only [Bool.false_eq_true, if_false] at hf
    refine ⟨rfl, ?_, ?_⟩
    · unfold WebSocketSSLShard.afterIdentify
      simp only [hf]
      unfold WebSocketSSLShard.withHeartBeat
      rw [h45]
      rfl
    · unfold WebSocketSSLShard.afterIdentify WebSocketSSLShard.withHeartBeat
      rw [h45]
      rfl

/-- Witness for C18 as amended: the scenario of the spec, a Hello with
`heartbeatInterval = 45000` on a fresh shard in `Collecting_Hello`. -/
theorem hello_handling_witness :
    WebSocketSSLShard.onOperation (taggedEnvironment { op := 10, s := 0, t := "" })
        ((taggedEnvironment { op := 10, s := 0, t := "" }).decode [0x41])
        { op := 10, s := 0, t := "" } sampleShard =
      (true, { sampleShard with
        currentState := .Sending_Identify, areWeHeartBeating := true,
        heartBeatStopWatch := ⟨45000, 0⟩,
        outputBuffer := [[0x81, 0x81, 0, 0, 0, 0, 2]],
        trace := [.sent [0x81, 0x81, 0, 0, 0, 0, 2]] }) :=
  ((hello_handling (taggedEnvironment { op := 10, s := 0, t := "" })
    ((taggedEnvironment { op := 10, s := 0, t := "" }).decode [0x41])
    { op := 10, s := 0, t := "" } sampleShard rfl rfl).1 rfl).trans (by decide)

/-! ## C19: Ready and Resumed -/

theorem onClosed_state (s : WebSocketSSLShard) :
    SameStateOrTornDown s (WebSocketSSLShard.onClosed s) := by
  unfold WebSocketSSLShard.onClosed WebSocketSSLShard.disconnect
  split
  · split
    · exact Or.inr ⟨rfl, rfl⟩
    · exact Or.inl rfl
  · exact Or.inl rfl

theorem onClosed_state_of (s s1 : WebSocketSSLShard) (h : s1.currentState = s.currentState) :
    SameStateOrTornDown s (WebSocketSSLShard.onClosed s1) := by
  rcases onClosed_state s1 with h1 | h1
  · exact Or.inl (h1.trans h)
  · exact Or.inr h1

theorem sendMessage_state (env : Environment) (s : WebSocketSSLShard)
    (dataToSend : List Nat) :
    SameStateOrTornDown s (WebSocketCore.sendMessage env s dataToSend).2 := by
  unfold WebSocketCore.sendMessage
  split
  · exact Or.inl rfl
  · split
    · exact Or.inl rfl
    · exact onClosed_state s

theorem checkForAndSendHeartBeat_state (env : Environment) (s : WebSocketSSLShard)
    (isImmediate : Bool) :
    SameStateOrTornDown s (WebSocketCore.checkForAndSendHeartBeat env s isImmediate).2 := by
  unfold WebSocketCore.checkForAndSendHeartBeat
  split
  · have h := sendMessage_state env s
      (prepMessageData (env.serialize (.heartbeat s.lastNumberReceived)
        (decide (s.dataOpCode = WebSocketOpCode.Op_Binary.toNat))) s.dataOpCode)
    simp only []
    split
    · exact h
    · exact h
  · exact Or.inl rfl

theorem identifyOrResume_state (env : Environment) (s : WebSocketSSLShard) :
    SameStateOrTornDown s (WebSocketSSLShard.identifyOrResume env s).2 ∨
      (WebSocketSSLShard.identifyOrResume env s).2.currentState = .Sending_Identify := by
  unfold WebSocketSSLShard.identifyOrResume
  dsimp only
  generalize prepMessageData _ s.dataOpCode = string
  split
  · exact Or.inl (sendMessage_state env s string)
  · exact Or.inr rfl

theorem onDispatch_state (decoded : Decoded) (message : WebSocketMessage)
    (s : WebSocketSSLShard) :
    (WebSocketSSLShard.onDispatch decoded message s).2.currentState = s.currentState ∨
      (WebSocketSSLShard.onDispatch decoded message s).2.currentState = .Authenticated := by
  unfold WebSocketSSLShard.onDispatch
  simp only [WebSocketSSLShard.dropMessage]
  split_ifs <;> first | exact Or.inl rfl | exact Or.inr rfl

/-- Where the switch on the operation code can take the connection state: nowhere, to
teardown, to `Authenticated` (op 0), or to `Sending_Identify` (op 10). -/
theorem onOperation_state (env : Environment) (decoded : Decoded)
    (message : WebSocketMessage) (s : WebSocketSSLShard) :
    SameStateOrTornDown s (WebSocketSSLShard.onOperation env decoded message s).2 ∨
      (WebSocketSSLShard.onOperation env decoded message s).2.currentState = .Authenticated ∨
      ((WebSocketSSLShard.onOperation env decoded message s).2.currentState =
          .Sending_Identify ∧ message.op = 10) := by
  unfold WebSocketSSLShard.onOperation
  split_ifs with h0 h1 h7 h9 hr h10 h11
  · rcases onDispatch_state decoded message s with h | h
    · exact Or.inl (Or.inl h)
    · exact Or.inr (Or.inl h)
  · exact Or.inl (checkForAndSendHeartBeat_state env s true)
  · exact Or.inl (onClosed_state_of s _ rfl)
  · exact Or.inl (Or.inl rfl)
  · exact Or.inl (onClosed_state_of s _ rfl)
  · unfold WebSocketSSLShard.onHello
    split
    · exact Or.inl (Or.inl rfl)
    · rcases identifyOrResume_state env
        (if decoded.heartbeatInterval ≠ 0 then
          { s with
            areWeHeartBeating := true,
            heartBeatStopWatch :=
              (StopWatch.mk decoded.heartbeatInterval env.now).resetTimer env.now,
            haveWeReceivedHeartbeatAck := true }
        else s) with h | h
      · left
        rcases h with h | h
        · left
          rw [h]
          split <;> rfl
        · exact Or.inr h
      · exact Or.inr (Or.inr ⟨h, h10⟩)
  · exact Or.inl (Or.inl rfl)
  · exact Or.inl (Or.inl rfl)

/-- An accepted call went past the guard: the state was one of the three that the guard
admits, and the call is the `try` block. -/
theorem onMessageReceived_accepted_guard (env : Environment) (s : WebSocketSSLShard)
    (dataNew : List Nat)
    (hacc : (WebSocketSSLShard.onMessageReceived env s dataNew).1 = true) :
    2 ≤ s.currentState.rank ∧
    WebSocketSSLShard.onMessageReceived env s dataNew =
      WebSocketSSLShard.tryMessage env s dataNew := by
  unfold WebSocketSSLShard.onMessageReceived at hacc ⊢
  by_cases hc : s.hasDiscordCoreClient = true
  · rw [if_pos hc] at hacc ⊢
    by_cases hg : (areWeStillConnected s = true ∧ s.currentMessage.length > 0 ∧
        (s.currentState = .Authenticated ∨ s.currentState = .Sending_Identify)) ∨
        s.currentState = .Collecting_Hello
    · rw [if_pos hg]
      refine ⟨?_, rfl⟩
      rcases hg with ⟨_, _, h | h⟩ | h <;> rw [h] <;> decide
    · rw [if_neg hg] at hacc
      simp [WebSocketSSLShard.dropMessage] at hacc
  · rw [if_neg hc] at hacc
    simp [WebSocketSSLShard.dropMessage] at hacc

theorem handleMessage_state (env : Environment) (decoded : Decoded)
    (message : WebSocketMessage) (s : WebSocketSSLShard) :
    SameStateOrTornDown s (WebSocketSSLShard.handleMessage env decoded message s).2 ∨
      (WebSocketSSLShard.handleMessage env decoded message s).2.currentState =
        .Authenticated ∨
      ((WebSocketSSLShard.handleMessage env decoded message s).2.currentState =
          .Sending_Identify ∧ message.op = 10) := by
  unfold WebSocketSSLShard.handleMessage
  have hs1 : (if message.s ≠ 0 then { s with lastNumberReceived := message.s } else s).currentState
      = s.currentState := by
    split <;> rfl
  rcases onOperation_state env decoded message
    (if message.s ≠ 0 then { s with lastNumberReceived := message.s } else s) with h | h | h
  · left
    rcases h with h | h
    · exact Or.inl (h.trans hs1)
    · exact Or.inr h
  · exact Or.inr (Or.inl h)
  · exact Or.inr (Or.inr h)

/-- C20, counterexample: an authenticated shard accepts a Hello (op 10); the frame is sent and
the state goes back from `Authenticated` to `Sending_Identify` with no teardown (the socket
stays open, no reconnect request is recorded). -/
theorem hello_while_authenticated_counterexample :
    (WebSocketSSLShard.onMessageReceived (taggedEnvironment { op := 10, s := 0, t := "" })
        { sampleShard with currentState := .Authenticated, currentMessage := [0x81, 1, 0x41] }
        [0x41]).1 = true ∧
    (WebSocketSSLShard.onMessageReceived (taggedEnvironment { op := 10, s := 0, t := "" })
        { sampleShard with currentState := .Authenticated, currentMessage := [0x81, 1, 0x41] }
        [0x41]).2.currentState = .Sending_Identify ∧
    (WebSocketSSLShard.onMessageReceived (taggedEnvironment { op := 10, s := 0, t := "" })
        { sampleShard with currentState := .Authenticated, currentMessage := [0x81, 1, 0x41] }
        [0x41]).2.socket = 3 ∧
    (WebSocketSSLShard.onMessageReceived (taggedEnvironment { op := 10, s := 0, t := "" })
        { sampleShard with currentState := .Authenticated, currentMessage := [0x81, 1, 0x41] }
        [0x41]).2.connections = none ∧
    WebSocketState.Sending_Identify.rank < WebSocketState.Authenticated.rank := by
  decide

/-- C20, as amended: for every accepted message, if `onMessageReceived` changes the connection
state without going through teardown, then either the new state is later than the old one in
the order Disconnected, Upgrading, Collecting_Hello, Sending_Identify, Authenticated, or the
message is a Hello (op 10) received in `Authenticated`, which takes the state back to
`Sending_Identify`; the state becomes `Disconnected` only through teardown, which closes the
socket. -/
theorem state_transitions (env : Environment) (s : WebSocketSSLShard) (dataNew : List Nat)
    (hacc : (WebSocketSSLShard.onMessageReceived env s dataNew).1 = true) :
    (WebSocketSSLShard.onMessageReceived env s dataNew).2.currentState = s.currentState ∨
    ((WebSocketSSLShard.onMessageReceived env s dataNew).2.currentState = .Disconnected ∧
      (WebSocketSSLShard.onMessageReceived env s dataNew).2.socket = SOCKET_ERROR) ∨
    s.currentState.rank <
      (WebSocketSSLShard.onMessageReceived env s dataNew).2.currentState.rank ∨
    (s.currentState = .Authenticated ∧
      (WebSocketSSLShard.onMessageReceived env s dataNew).2.currentState = .Sending_Identify ∧
      ∃ message, (env.decode dataNew).envelope = .parsed message ∧ message.op = 10) := by
  obtain ⟨hrank, hrun⟩ := onMessageReceived_accepted_guard env s dataNew hacc
  rw [hrun] at hacc ⊢
  have key : ∀ message : WebSocketMessage,
      (message.op = 10 → ∃ m, (env.decode dataNew).envelope = .parsed m ∧ m.op = 10) →
      (WebSocketSSLShard.handleMessage env (env.decode dataNew) message s).2.currentState =
          s.currentState ∨
      ((WebSocketSSLShard.handleMessage env (env.decode dataNew) message s).2.currentState =
          .Disconnected ∧
        (WebSocketSSLShard.handleMessage env (env.decode dataNew) message s).2.socket =
          SOCKET_ERROR) ∨
      s.currentState.rank <
        (WebSocketSSLShard.handleMessage env (env.decode dataNew) message s).2.currentState.rank
        ∨
      (s.currentState = .Authenticated ∧
        (WebSocketSSLShard.handleMessage env (env.decode dataNew) message s).2.currentState =
          .Sending_Identify ∧
        ∃ m, (env.decode dataNew).envelope = .parsed m ∧ m.op = 10) := by
    intro message hex
    rcases handleMessage_state env (env.decode dataNew) message s with h | h | ⟨h, hop⟩
    · rcases h with h | h
      · exact Or.inl h
      · exact Or.inr (Or.inl h)
    · rw [h]
      cases hst : s.currentState
      · rw [hst] at hrank; exact absurd hrank (by decide)
      · rw [hst] at hrank; exact absurd hrank (by decide)
      · exact Or.inr (Or.inr (Or.inl (by decide)))
      · exact Or.inr (Or.inr (Or.inl (by decide)))
      · exact Or.inl rfl
    · rw [h]
      cases hst : s.currentState
      · rw [hst] at hrank; exact absurd hrank (by decide)
      · rw [hst] at hrank; exact absurd hrank (by decide)
      · exact Or.inr (Or.inr (Or.inl (by decide)))
      · exact Or.inl rfl
      · exact Or.inr (Or.inr (Or.inr ⟨rfl, rfl, hex hop⟩))
  unfold WebSocketSSLShard.tryMessage at hacc ⊢
  dsimp only at hacc ⊢
  by_cases hlen : dataNew.length > 0
  · simp only [hlen, if_true] at hacc ⊢
    cases henv : (env.decode dataNew).envelope with
    | raised =>
      rw [henv] at hacc
      simp [WebSocketSSLShard.dropMessage] at hacc
    | unparsed =>
      have k := key WebSocketMessage.empty (fun h => absurd h (by decide))
      rw [henv] at k
      exact k
    | parsed message =>
      have k := key message (fun h => ⟨message, henv, h⟩)
      rw [henv] at k
      exact k
  · simp only [hlen, if_false]
    have := key WebSocketMessage.empty (fun h => absurd h (by decide))
    exact this

/-- Witness for C20 as amended: the Hello that a shard in `Collecting_Hello` accepts moves it
forward to `Sending_Identify`. -/
theorem state_transitions_witness :
    (WebSocketSSLShard.onMessageReceived (taggedEnvironment { op := 10, s := 0, t := "" })
        sampleShard [0x41]).2.currentState = sampleShard.currentState ∨
    ((WebSocketSSLShard.onMessageReceived (taggedEnvironment { op := 10, s := 0, t := "" })
        sampleShard [0x41]).2.currentState = .Disconnected ∧
      (WebSocketSSLShard.onMessageReceived (taggedEnvironment { op := 10, s := 0, t := "" })
        sampleShard [0x41]).2.socket = SOCKET_ERROR) ∨
    sampleShard.currentState.rank <
      (WebSocketSSLShard.onMessageReceived (taggedEnvironment { op := 10, s := 0, t := "" })
        sampleShard [0x41]).2.currentState.rank ∨
    (sampleShard.currentState = .Authenticated ∧
      (WebSocketSSLShard.onMessageReceived (taggedEnvironment { op := 10, s := 0, t := "" })
        sampleShard [0x41]).2.currentState = .Sending_Identify ∧
      ∃ message, ((taggedEnvironment { op := 10, s := 0, t := "" }).decode [0x41]).envelope =
        .parsed message ∧ message.op = 10) :=
  state_transitions (taggedEnvironment { op := 10, s := 0, t := "" }) sampleShard [0x41]
    (by decide)

/-! ## C12, C13: where `submitTask` puts a continuation -/

/-- C12, the code at the failing input: continuation 7 is submitted to a pool whose only
worker is busy. A worker is added under the fresh key 2, wherever the map places it, but its
queue is empty, and continuation 7 is in no queue at all after the call. -/
theorem submitTask_all_busy_drops_continuation :
    CoRoutineThreadPool.submitTask 0 7
        { workerThreads := [(1, .running true [])], currentCount := 1, currentIndex := 1,
          threadCount := 1 } =
      { workerThreads := [(2, .running false []), (1, .running true [])], currentCount := 2,
        currentIndex := 2, threadCount := 1 } ∧
    CoRoutineThreadPool.submitTask 1 7
        { workerThreads := [(1, .running true [])], currentCount := 1, currentIndex := 1,
          threadCount := 1 } =
      { workerThreads := [(1, .running true []), (2, .running false [])], currentCount := 2,
        currentIndex := 2, threadCount := 1 } ∧
    (∀ entry ∈ (CoRoutineThreadPool.submitTask 0 7
        { workerThreads := [(1, .running true [])], currentCount := 1, currentIndex := 1,
          threadCount := 1 }).workerThreads, 7 ∉ entry.2.tasks) := by
  decide

/-- C13, the code at the failing input: two workers are idle, the first in the iteration
order of the map has two continuations queued and the other none. Continuation 7 is put on the
first one, whose queue is not minimal; this is so whichever of the two keys the map iterates
over first. -/
theorem submitTask_takes_first_idle_worker :
    CoRoutineThreadPool.submitTask 0 7
        { workerThreads := [(2, .running false [5, 6]), (1, .running false [])],
          currentCount := 2, currentIndex := 2, threadCount := 2 } =
      { workerThreads := [(2, .running false [5, 6, 7]), (1, .running false [])],
        currentCount := 2, currentIndex := 2, threadCount := 2 } ∧
    CoRoutineThreadPool.submitTask 0 7
        { workerThreads := [(1, .running false [5, 6]), (2, .running false [])],
          currentCount := 2, currentIndex := 2, threadCount := 2 } =
      { workerThreads := [(1, .running false [5, 6, 7]), (2, .running false [])],
        currentCount := 2, currentIndex := 2, threadCount := 2 } := by
  decide

/-! ## C15: the retirement step -/

/-- C15, the code at the failing input: baseline 1, two workers. When the worker the map
iterates over first is executing a continuation (busy flag true) the retirement step removes
it; when that worker is idle and the other one is busy, nothing is retired. -/
theorem retireExcess_retires_busy_worker :
    CoRoutineThreadPool.retireExcess
        { workerThreads := [(2, .running true []), (1, .running false [])],
          currentCount := 2, currentIndex := 2, threadCount := 1 } =
      { workerThreads := [(1, .running false [])], currentCount := 1, currentIndex := 2,
        threadCount := 1 } ∧
    CoRoutineThreadPool.retireExcess
        { workerThreads := [(2, .running false []), (1, .running true [])],
          currentCount := 2, currentIndex := 2, threadCount := 1 } =
      { workerThreads := [(2, .running false []), (1, .running true [])],
        currentCount := 2, currentIndex := 2, threadCount := 1 } := by
  decide

/-! ## C14: growth of the pool under load -/

theorem scanWorkers_all_busy (workerThreads : List (Int × WorkerThread))
    (hbusy : ∀ entry ∈ workerThreads, entry.2.areWeCurrentlyWorking = true) :
    scanWorkers workerThreads = (true, sizeMax, -1) := by
  induction workerThreads with
  | nil => rfl
  | cons entry rest ih =>
    obtain ⟨key, value⟩ := entry
    have hv : value.areWeCurrentlyWorking = true := hbusy (key, value) (List.mem_cons_self _ _)
    simp only [scanWorkers, hv, Bool.not_true, Bool.false_eq_true, if_false]
    exact ih (fun e he => hbusy e (List.mem_cons_of_mem _ he))

theorem scanWorkers_first_idle (before after : List (Int × WorkerThread)) (key : Int)
    (value : WorkerThread)
    (hbusy : ∀ entry ∈ before, entry.2.areWeCurrentlyWorking = true)
    (hidle : value.areWeCurrentlyWorking = false) (hlen : value.tasks.length < sizeMax) :
    scanWorkers (before ++ (key, value) :: after) = (false, value.tasks.length, key) := by
  induction before with
  | nil => simp [scanWorkers, hidle, hlen]
  | cons entry rest ih =>
    obtain ⟨k, v⟩ := entry
    have hv : v.areWeCurrentlyWorking = true := hbusy (k, v) (List.mem_cons_self _ _)
    simp only [List.cons_append, scanWorkers, hv, Bool.not_true, Bool.false_eq_true, if_false]
    exact ih (fun e he => hbusy e (List.mem_cons_of_mem _ he))

theorem containsKey_false (key : Int) (workerThreads : List (Int × WorkerThread))
    (h : ∀ entry ∈ workerThreads, entry.1 ≠ key) : containsKey key workerThreads = false := by
  unfold containsKey
  rw [List.any_eq_false]
  intro entry he
  simpa using h entry he

theorem map_other_keys (key : Int) (f : Int × WorkerThread → Int × WorkerThread)
    (workerThreads : List (Int × WorkerThread))
    (h : ∀ entry ∈ workerThreads, entry.1 ≠ key) :
    workerThreads.map (fun entry => if entry.1 = key then f entry else entry) =
      workerThreads := by
  induction workerThreads with
  | nil => rfl
  | cons entry rest ih =>
    have h1 : entry.1 ≠ key := h entry (List.mem_cons_self _ _)
    simp only [List.map_cons, h1, if_false]
    rw [ih (fun e he => h e (List.mem_cons_of_mem _ he))]

theorem sendTo_present (position : Nat) (key : Int) (coro : Nat)
    (before after : List (Int × WorkerThread)) (value : WorkerThread)
    (hb : ∀ entry ∈ before, entry.1 ≠ key) (ha : ∀ entry ∈ after, entry.1 ≠ key) :
    sendTo position key coro (before ++ (key, value) :: after) =
      before ++ (key, { value with tasks := value.tasks ++ [coro] }) :: after := by
  have hc : containsKey key (before ++ (key, value) :: after) = true := by
    unfold containsKey
    rw [List.any_eq_true]
    exact ⟨(key, value), by simp, by simp⟩
  unfold sendTo
  rw [if_pos hc, List.map_append, List.map_cons,
    map_other_keys key _ before hb, map_other_keys key _ after ha]
  simp

/-- Submissions to a pool in which exactly one worker is idle, every worker before it in the
iteration order being busy: they all go to the back of the queue of that worker, and no
worker is added. -/
theorem submitTasks_one_idle (tasks : List (Nat × Nat)) :
    ∀ (queue : List Nat) (before after : List (Int × WorkerThread)) (key : Int)
      (currentCount currentIndex threadCount : Int),
      (∀ entry ∈ before, entry.2.areWeCurrentlyWorking = true) →
      (∀ entry ∈ before, entry.1 ≠ key) → (∀ entry ∈ after, entry.1 ≠ key) →
      queue.length + tasks.length < sizeMax →
      CoRoutineThreadPool.submitTasks tasks
          { workerThreads := before ++ (key, WorkerThread.running false queue) :: after,
            currentCount := currentCount, currentIndex := currentIndex,
            threadCount := threadCount } =
        { workerThreads := before ++
            (key, WorkerThread.running false (queue ++ tasks.map Prod.snd)) :: after,
          currentCount := currentCount, currentIndex := currentIndex,
          threadCount := threadCount } := by
  induction tasks with
  | nil =>
    intro queue before after key cc ci tc _ _ _ _
    simp [CoRoutineThreadPool.submitTasks]
  | cons task rest ih =>
    intro queue before after key cc ci tc hbusy hb ha hlen
    obtain ⟨position, coro⟩ := task
    simp only [List.length_cons] at hlen
    have hscan := scanWorkers_first_idle before after key (WorkerThread.running false queue)
      hbusy rfl (by simp only [WorkerThread.running]; omega)
    have hstep : CoRoutineThreadPool.submitTask position coro
        { workerThreads := before ++ (key, WorkerThread.running false queue) :: after,
          currentCount := cc, currentIndex := ci, threadCount := tc } =
        { workerThreads := before ++
            (key, WorkerThread.running false (queue ++ [coro])) :: after,
          currentCount := cc, currentIndex := ci, threadCount := tc } := by
      unfold CoRoutineThreadPool.submitTask
      simp only [hscan, Bool.false_eq_true, if_false]
      rw [sendTo_present position key coro before after _ hb ha]
      rfl
    simp only [CoRoutineThreadPool.submitTasks, hstep]
    rw [ih (queue ++ [coro]) before after key cc ci tc hbusy hb ha
      (by simp only [List.length_append, List.length_singleton]; omega)]
    simp [List.append_assoc]

/-- The first submission to a pool whose workers are all busy and whose keys are at most
`currentIndex`: an idle worker with an empty queue enters the map under the next index. -/
theorem submitTask_all_busy (position coro : Nat) (pool : CoRoutineThreadPool)
    (hbusy : ∀ entry ∈ pool.workerThreads, entry.2.areWeCurrentlyWorking = true)
    (hkeys : ∀ entry ∈ pool.workerThreads, entry.1 ≤ pool.currentIndex) :
    pool.submitTask position coro =
      { workerThreads := pool.workerThreads.take position ++
          (pool.currentIndex + 1, WorkerThread.running false []) ::
            pool.workerThreads.drop position,
        currentCount := pool.currentCount + 1,
        currentIndex := pool.currentIndex + 1,
        threadCount := pool.threadCount } := by
  have hc : containsKey (pool.currentIndex + 1) pool.workerThreads = false :=
    containsKey_false _ _ (fun e he => by have := hkeys e he; omega)
  unfold CoRoutineThreadPool.submitTask
  simp only [scanWorkers_all_busy pool.workerThreads hbusy, if_true, assignWorker, hc,
    Bool.false_eq_true, if_false, insertEntry]
  rfl

/-- C14, counterexample: the scenario of the spec, a baseline of 4 workers all marked busy and
2 continuations submitted with no busy flag changing in between. The pool has 5 workers
afterwards, not 6: the worker spawned for the first continuation is idle and takes the
second. -/
theorem submitTasks_scenario_counterexample :
    (CoRoutineThreadPool.submitTasks [(0, 7), (0, 8)] busyPoolOfFour).workerThreads.length = 5 ∧
    (CoRoutineThreadPool.submitTasks [(0, 7), (0, 8)] busyPoolOfFour).currentCount = 5 ∧
    (CoRoutineThreadPool.submitTasks [(4, 7), (5, 8)] busyPoolOfFour).workerThreads.length = 5 ∧
    (CoRoutineThreadPool.submitTasks [(4, 7), (5, 8)] busyPoolOfFour).currentCount = 5 := by
  decide

/-- C14, as amended: starting from a pool whose workers are all marked busy (and whose keys
are at most `currentIndex`, as the constructor leaves them), submitting `K ≥ 1` continuations
in sequence, `K < 2^64`, with no worker changing its busy flag in between, spawns exactly one
new worker, wherever the map places new entries: the worker count and `currentCount` grow by
one; for the scenario of 4 busy workers and 2 submitted continuations the pool has 5 workers
afterwards. -/
theorem submitTasks_all_busy_spawns_one (pool : CoRoutineThreadPool) (position coro : Nat)
    (rest : List (Nat × Nat))
    (hbusy : ∀ entry ∈ pool.workerThreads, entry.2.areWeCurrentlyWorking = true)
    (hkeys : ∀ entry ∈ pool.workerThreads, entry.1 ≤ pool.currentIndex)
    (hK : rest.length + 1 < sizeMax) :
    (CoRoutineThreadPool.submitTasks ((position, coro) :: rest) pool).workerThreads.length =
      pool.workerThreads.length + 1 ∧
    (CoRoutineThreadPool.submitTasks ((position, coro) :: rest) pool).currentCount =
      pool.currentCount + 1 ∧
    (CoRoutineThreadPool.submitTasks ((position, coro) :: rest) pool).currentIndex =
      pool.currentIndex + 1 ∧
    (pool.workerThreads.length = 4 → rest.length = 1 →
      (CoRoutineThreadPool.submitTasks ((position, coro) :: rest) pool).workerThreads.length
        = 5) := by
  have hfirst := submitTask_all_busy position coro pool hbusy hkeys
  have hrest := submitTasks_one_idle rest [] (pool.workerThreads.take position)
    (pool.workerThreads.drop position) (pool.currentIndex + 1) (pool.currentCount + 1)
    (pool.currentIndex + 1) pool.threadCount
    (fun e he => hbusy e (List.mem_of_mem_take he))
    (fun e he => by have := hkeys e (List.mem_of_mem_take he); omega)
    (fun e he => by have := hkeys e (List.mem_of_mem_drop he); omega)
    (by simp only [List.length_nil]; omega)
  have hrun : CoRoutineThreadPool.submitTasks ((position, coro) :: rest) pool =
      { workerThreads := pool.workerThreads.take position ++
          (pool.currentIndex + 1, WorkerThread.running false ([] ++ rest.map Prod.snd)) ::
            pool.workerThreads.drop position,
        currentCount := pool.currentCount + 1,
        currentIndex := pool.currentIndex + 1,
        threadCount := pool.threadCount } := by
    simp only [CoRoutineThreadPool.submitTasks, hfirst]
    exact hrest
  have hlen : (CoRoutineThreadPool.submitTasks ((position, coro) :: rest)
      pool).workerThreads.length = pool.workerThreads.length + 1 := by
    rw [hrun]
    simp only [List.length_append, List.length_cons, List.length_take, List.length_drop]
    omega
  refine ⟨hlen, by rw [hrun], by rw [hrun], fun h4 _ => by rw [hlen, h4]⟩

/-- Witness for C14 as amended: three continuations submitted to the pool of 4 busy
workers. -/
theorem submitTasks_all_busy_spawns_one_witness :
    (CoRoutineThreadPool.submitTasks [(0, 7), (2, 8), (1, 9)] busyPoolOfFour).workerThreads.length
      = busyPoolOfFour.workerThreads.length + 1 :=
  (submitTasks_all_busy_spawns_one busyPoolOfFour 0 7 [(2, 8), (1, 9)] (by decide) (by decide)
    (by decide)).1

/-! ## C21: completion of the upgrade -/

/-- The search finds a position exactly when the pattern occurs as a contiguous part of the
text. -/
theorem stringFind_ne_none (pattern text : List Nat) :
    stringFind pattern text ≠ none ↔ pattern <:+: text := by
  induction text with
  | nil =>
    unfold stringFind
    by_cases h : pattern.isPrefixOf [] = true
    · simp only [h, if_true]
      have hp : pattern <+: [] := List.isPrefixOf_iff_prefix.mp h
      exact ⟨fun _ => hp.isInfix, fun _ => by simp⟩
    · simp only [h, if_false]
      constructor
      · intro hne
        exact absurd rfl hne
      · intro hin
        have hnil : pattern = [] := List.infix_nil.mp hin
        rw [hnil] at h
        exact absurd rfl h
  | cons c rest ih =>
    unfold stringFind
    rw [List.infix_cons_iff]
    by_cases h : pattern.isPrefixOf (c :: rest) = true
    · simp only [h, if_true]
      exact ⟨fun _ => Or.inl (List.isPrefixOf_iff_prefix.mp h), fun _ => by simp⟩
    · simp only [h, if_false]
      constructor
      · intro hne
        right
        apply ih.mp
        intro hnone
        rw [hnone] at hne
        exact hne rfl
      · rintro (hp | hin)
        · exact absurd (List.isPrefixOf_iff_prefix.mpr hp) h
        · have hsome := ih.mpr hin
          cases hfind : stringFind pattern rest with
          | none => exact absurd hfind hsome
          | some position => simp

/-- C21: `parseConnectionHeaders` sets the state to `Collecting_Hello` and clears the assembled
message buffer, changing nothing else, when the shard is connected, the state is `Upgrading`
and the input contains `"\r\n\r\n"`; in every other case the shard is left exactly as it was.
The outcome depends on the input only through the presence of the terminator: two inputs that
both contain it, or both lack it, give the same shard. -/
theorem parseConnectionHeaders_upgrade (s : WebSocketSSLShard) (stringNew : List Nat) :
    (areWeStillConnected s = true ∧ s.currentState = .Upgrading ∧
        blankLineTerminator <:+: stringNew →
      WebSocketCore.parseConnectionHeaders s stringNew =
        { s with currentMessage := [], currentState := .Collecting_Hello }) ∧
    (¬ (areWeStillConnected s = true ∧ s.currentState = .Upgrading ∧
        blankLineTerminator <:+: stringNew) →
      WebSocketCore.parseConnectionHeaders s stringNew = s) ∧
    (∀ other : List Nat,
      (blankLineTerminator <:+: stringNew ↔ blankLineTerminator <:+: other) →
      WebSocketCore.parseConnectionHeaders s stringNew =
        WebSocketCore.parseConnectionHeaders s other) := by
  refine ⟨?_, ?_, ?_⟩
  · rintro ⟨hc, hst, hin⟩
    unfold WebSocketCore.parseConnectionHeaders
    rw [if_pos ⟨hc, hst⟩]
    simp only []
    rw [if_pos ((stringFind_ne_none _ _).mpr hin)]
  · intro hnot
    unfold WebSocketCore.parseConnectionHeaders
    by_cases hg : areWeStillConnected s = true ∧ s.currentState = .Upgrading
    · rw [if_pos hg]
      simp only []
      rw [if_neg]
      intro hfind
      exact hnot ⟨hg.1, hg.2, (stringFind_ne_none _ _).mp hfind⟩
    · rw [if_neg hg]
  · intro other hsame
    unfold WebSocketCore.parseConnectionHeaders
    by_cases hg : areWeStillConnected s = true ∧ s.currentState = .Upgrading
    · rw [if_pos hg, if_pos hg]
      simp only []
      by_cases hin : blankLineTerminator <:+: stringNew
      · rw [if_pos ((stringFind_ne_none _ _).mpr hin),
          if_pos ((stringFind_ne_none _ _).mpr (hsame.mp hin))]
      · rw [if_neg (fun h => hin ((stringFind_ne_none _ _).mp h)),
          if_neg (fun h => hin (hsame.mpr ((stringFind_ne_none _ _).mp h)))]
    · rw [if_neg hg, if_neg hg]

/-- Witness for C21: a connected shard in `Upgrading` that holds three assembled bytes is given
the response `"OK\r\n\r\n"`; the state becomes `Collecting_Hello` and the buffer is emptied. -/
theorem parseConnectionHeaders_upgrade_witness :
    WebSocketCore.parseConnectionHeaders
        { sampleShard with currentState := .Upgrading, currentMessage := [1, 2, 3] }
        [79, 75, 13, 10, 13, 10] =
      { sampleShard with currentState := .Collecting_Hello, currentMessage := [] } :=
  (parseConnectionHeaders_upgrade
    { sampleShard with currentState := .Upgrading, currentMessage := [1, 2, 3] }
    [79, 75, 13, 10, 13, 10]).1 ⟨by decide, rfl, ⟨[79, 75], [], rfl⟩⟩

/-! ## C23: what a heartbeat call leaves behind -/

/-- C23: for every shard state and both values of `isImmediate`, a call of
`checkForAndSendHeartBeat` that returns true leaves `haveWeReceivedHeartbeatAck` false and the
heartbeat timer reset (its start is the current time, its interval is kept); a call whose guard
does not hold returns false and changes nothing, so the flag, the timer and the connection
state are as before. -/
theorem heartbeat_send_postcondition (env : Environment) (s : WebSocketSSLShard)
    (isImmediate : Bool) :
    ((WebSocketCore.checkForAndSendHeartBeat env s isImmediate).1 = true →
      (WebSocketCore.checkForAndSendHeartBeat env s isImmediate).2.haveWeReceivedHeartbeatAck
        = false ∧
      (WebSocketCore.checkForAndSendHeartBeat env s isImmediate).2.heartBeatStopWatch =
        s.heartBeatStopWatch.resetTimer env.now ∧
      (WebSocketCore.checkForAndSendHeartBeat env s isImmediate).2.heartBeatStopWatch.startTime
        = env.now) ∧
    (¬ ((s.currentState = .Authenticated ∧
          s.heartBeatStopWatch.hasTimePassed env.now = true ∧
          s.haveWeReceivedHeartbeatAck = true) ∨ isImmediate = true) →
      WebSocketCore.checkForAndSendHeartBeat env s isImmediate = (false, s) ∧
      (WebSocketCore.checkForAndSendHeartBeat env s isImmediate).2.haveWeReceivedHeartbeatAck
        = s.haveWeReceivedHeartbeatAck ∧
      (WebSocketCore.checkForAndSendHeartBeat env s isImmediate).2.heartBeatStopWatch =
        s.heartBeatStopWatch ∧
      (WebSocketCore.checkForAndSendHeartBeat env s isImmediate).2.currentState =
        s.currentState) := by
  constructor
  · intro htrue
    by_cases hguard : (s.currentState = .Authenticated ∧
        s.heartBeatStopWatch.hasTimePassed env.now = true ∧
        s.haveWeReceivedHeartbeatAck = true) ∨ isImmediate = true
    · obtain ⟨hyes, hno⟩ := checkForAndSendHeartBeat_guarded env s isImmediate hguard
      by_cases hw : env.canWrite = true
      · rw [hyes hw]
        exact ⟨rfl, rfl, rfl⟩
      · rw [hno hw] at htrue
        exact absurd htrue Bool.false_ne_true
    · rw [checkForAndSendHeartBeat_unguarded env s isImmediate hguard] at htrue
      exact absurd htrue Bool.false_ne_true
  · intro hguard
    rw [checkForAndSendHeartBeat_unguarded env s isImmediate hguard]
    exact ⟨rfl, rfl, rfl, rfl⟩

/-- Witness for C23: an authenticated shard whose interval of 10 has elapsed at time 50 and
whose last heartbeat was acknowledged sends; afterwards the flag is false and the timer starts
at 50. -/
theorem heartbeat_send_postcondition_witness :
    (WebSocketCore.checkForAndSendHeartBeat { sampleEnvironment with now := 50 }
        { sampleShard with currentState := .Authenticated,
                           haveWeReceivedHeartbeatAck := true,
                           heartBeatStopWatch := { maxNumberOfTimeUnits := 10, startTime := 0 } }
        false).2.haveWeReceivedHeartbeatAck = false ∧
    (WebSocketCore.checkForAndSendHeartBeat { sampleEnvironment with now := 50 }
        { sampleShard with currentState := .Authenticated,
                           haveWeReceivedHeartbeatAck := true,
                           heartBeatStopWatch := { maxNumberOfTimeUnits := 10, startTime := 0 } }
        false).2.heartBeatStopWatch =
      StopWatch.resetTimer { maxNumberOfTimeUnits := 10, startTime := 0 } 50 ∧
    (WebSocketCore.checkForAndSendHeartBeat { sampleEnvironment with now := 50 }
        { sampleShard with currentState := .Authenticated,
                           haveWeReceivedHeartbeatAck := true,
                           heartBeatStopWatch := { maxNumberOfTimeUnits := 10, startTime := 0 } }
        false).2.heartBeatStopWatch.startTime = 50 :=
  (heartbeat_send_postcondition { sampleEnvironment with now := 50 }
    { sampleShard with currentState := .Authenticated,
                       haveWeReceivedHeartbeatAck := true,
                       heartBeatStopWatch := { maxNumberOfTimeUnits := 10, startTime := 0 } }
    false).1 (by decide)

/-! ## C24, C25, C26: the handler on reconnect opcodes, decode errors and sequence numbers -/

theorem onMessageReceived_admitted (env : Environment) (s : WebSocketSSLShard)
    (dataNew : List Nat) (hadm : s.admits) :
    WebSocketSSLShard.onMessageReceived env s dataNew =
      WebSocketSSLShard.tryMessage env s dataNew := by
  unfold WebSocketSSLShard.onMessageReceived
  rw [if_pos hadm.1, if_pos hadm.2]

theorem tryMessage_parsed (env : Environment) (s : WebSocketSSLShard) (dataNew : List Nat)
    (message : WebSocketMessage) (hdata : 0 < dataNew.length)
    (henv : (env.decode dataNew).envelope = .parsed message) :
    WebSocketSSLShard.tryMessage env s dataNew =
      WebSocketSSLShard.onOperation env (env.decode dataNew) message
        (WebSocketSSLShard.noteSequence message s) := by
  unfold WebSocketSSLShard.tryMessage
  simp only [gt_iff_lt, hdata, if_true, henv]
  rfl

theorem tryMessage_raised (env : Environment) (s : WebSocketSSLShard) (dataNew : List Nat)
    (hdata : 0 < dataNew.length) (henv : (env.decode dataNew).envelope = .raised) :
    WebSocketSSLShard.tryMessage env s dataNew = WebSocketSSLShard.dropMessage s := by
  unfold WebSocketSSLShard.tryMessage
  simp only [gt_iff_lt, hdata, if_true, henv]

theorem onClosed_areWeResuming (s : WebSocketSSLShard) :
    (WebSocketSSLShard.onClosed s).areWeResuming = s.areWeResuming := by
  unfold WebSocketSSLShard.onClosed WebSocketSSLShard.disconnect
  split
  · split <;> rfl
  · rfl

/-- C24: for every admitted shard, whatever its resuming flag was: a Reconnect message (op 7)
sets the flag, invokes `onClosed` once on the result and the handler returns true, so the flag
is true afterwards; an Invalid Session message (op 9) whose payload decodes sets the flag to
the boolean `d` of the payload, invokes `onClosed` once and returns true, so the flag equals
`d` afterwards. -/
theorem reconnect_opcodes_resumable (env : Environment) (s : WebSocketSSLShard)
    (dataNew : List Nat) (message : WebSocketMessage) (hadm : s.admits)
    (hdata : 0 < dataNew.length)
    (henv : (env.decode dataNew).envelope = .parsed message) :
    (message.op = 7 →
      WebSocketSSLShard.onMessageReceived env s dataNew =
        (true, WebSocketSSLShard.onClosed
          (WebSocketSSLShard.markResuming (WebSocketSSLShard.noteSequence message s))) ∧
      (WebSocketSSLShard.onMessageReceived env s dataNew).2.areWeResuming = true) ∧
    (message.op = 9 → (env.decode dataNew).dataRaises = false →
      WebSocketSSLShard.onMessageReceived env s dataNew =
        (true, WebSocketSSLShard.onClosed
          (WebSocketSSLShard.afterInvalidSession (env.decode dataNew).d env.numOfMsToWait
            (WebSocketSSLShard.noteSequence message s))) ∧
      (WebSocketSSLShard.onMessageReceived env s dataNew).2.areWeResuming =
        (env.decode dataNew).d) := by
  rw [onMessageReceived_admitted env s dataNew hadm,
    tryMessage_parsed env s dataNew message hdata henv]
  constructor
  · intro hop
    have hrun : WebSocketSSLShard.onOperation env (env.decode dataNew) message
        (WebSocketSSLShard.noteSequence message s) =
        (true, WebSocketSSLShard.onClosed
          (WebSocketSSLShard.markResuming (WebSocketSSLShard.noteSequence message s))) := by
      unfold WebSocketSSLShard.onOperation
      simp [hop]
      rfl
    rw [hrun]
    exact ⟨rfl, onClosed_areWeResuming _⟩
  · intro hop hraise
    have hrun : WebSocketSSLShard.onOperation env (env.decode dataNew) message
        (WebSocketSSLShard.noteSequence message s) =
        (true, WebSocketSSLShard.onClosed
          (WebSocketSSLShard.afterInvalidSession (env.decode dataNew).d env.numOfMsToWait
            (WebSocketSSLShard.noteSequence message s))) := by
      unfold WebSocketSSLShard.onOperation
      simp [hop, hraise]
      rfl
    rw [hrun]
    exact ⟨rfl, onClosed_areWeResuming _⟩

/-- Witness for C24: a shard that is not resuming receives a Reconnect message with sequence
number 4; the flag is true afterwards. -/
theorem reconnect_opcodes_resumable_witness :
    (WebSocketSSLShard.onMessageReceived (environmentDecoding { op := 7, s := 4, t := "" })
        sampleShard [0x41]).2.areWeResuming = true :=
  ((reconnect_opcodes_resumable (environmentDecoding { op := 7, s := 4, t := "" })
    sampleShard [0x41] { op := 7, s := 4, t := "" } (by decide) (by decide) rfl).1 rfl).2

theorem EventConverter_le (eventValue : String) : EventConverter eventValue ≤ 60 := by
  unfold EventConverter
  simp only []
  split
  · have hlen : eventNames.length = 60 := by decide
    omega
  · omega

theorem onDispatch_raises (decoded : Decoded) (message : WebSocketMessage)
    (s : WebSocketSSLShard) (hraise : decoded.dataRaises = true) (ht : message.t ≠ "")
    (h0 : EventConverter message.t ≠ 0) (h2 : EventConverter message.t ≠ 2) :
    WebSocketSSLShard.onDispatch decoded message s = WebSocketSSLShard.dropMessage s := by
  unfold WebSocketSSLShard.onDispatch
  have hle := EventConverter_le message.t
  simp only [ne_eq, ht, not_false_eq_true, if_true, hraise]
  by_cases h1 : EventConverter message.t = 1
  · rw [if_pos h1]
  · rw [if_neg h1, if_neg h2, if_pos ⟨by omega, hle⟩]

theorem onOperation_raises (env : Environment) (decoded : Decoded)
    (message : WebSocketMessage) (s : WebSocketSSLShard) (hraise : decoded.dataRaises = true)
    (hdec : message.decodesPayload) :
    WebSocketSSLShard.onOperation env decoded message s = WebSocketSSLShard.dropMessage s := by
  unfold WebSocketSSLShard.onOperation
  rcases hdec with h9 | h10 | ⟨h0, ht, hne0, hne2⟩
  · simp [h9, hraise]
  · simp [h10, hraise, WebSocketSSLShard.onHello]
  · rw [if_pos h0]
    exact onDispatch_raises decoded message s hraise ht hne0 hne2

/-- C25: for every admitted shard and every non-empty payload, a decoder that raises makes the
handler return false with both buffers cleared and the frame cursor reset, and nothing is torn
down. When the envelope decoder raises, the shard is otherwise untouched; when the decoder of
the type-specific structure raises (Invalid Session, Hello, or a Dispatch of a known event
other than RESUMED), the shard is otherwise untouched except that the sequence number of the
message has been recorded. In both cases the connection state, the session id, the resuming
flag, the quit flag, the socket and the pending reconnect request are unchanged. -/
theorem decode_error_drops_message (env : Environment) (s : WebSocketSSLShard)
    (dataNew : List Nat) (hadm : s.admits) (hdata : 0 < dataNew.length)
    (hraised : (env.decode dataNew).envelope = .raised ∨
      ∃ message, (env.decode dataNew).envelope = .parsed message ∧
        (env.decode dataNew).dataRaises = true ∧ message.decodesPayload) :
    ((env.decode dataNew).envelope = .raised →
      WebSocketSSLShard.onMessageReceived env s dataNew = (false, s.dropped)) ∧
    (∀ message, (env.decode dataNew).envelope = .parsed message →
      WebSocketSSLShard.onMessageReceived env s dataNew =
        (false, (WebSocketSSLShard.noteSequence message s).dropped)) ∧
    (WebSocketSSLShard.onMessageReceived env s dataNew).1 = false ∧
    (WebSocketSSLShard.onMessageReceived env s dataNew).2.currentMessage = [] ∧
    (WebSocketSSLShard.onMessageReceived env s dataNew).2.inputBuffer = [] ∧
    (WebSocketSSLShard.onMessageReceived env s dataNew).2.messageLength = 0 ∧
    (WebSocketSSLShard.onMessageReceived env s dataNew).2.messageOffset = 0 ∧
    (WebSocketSSLShard.onMessageReceived env s dataNew).2.currentState = s.currentState ∧
    (WebSocketSSLShard.onMessageReceived env s dataNew).2.sessionId = s.sessionId ∧
    (WebSocketSSLShard.onMessageReceived env s dataNew).2.areWeResuming = s.areWeResuming ∧
    (WebSocketSSLShard.onMessageReceived env s dataNew).2.doWeQuit = s.doWeQuit ∧
    (WebSocketSSLShard.onMessageReceived env s dataNew).2.socket = s.socket ∧
    (WebSocketSSLShard.onMessageReceived env s dataNew).2.connections = s.connections := by
  rw [onMessageReceived_admitted env s dataNew hadm]
  rcases hraised with henv | ⟨message, henv, hraise, hdec⟩
  · rw [tryMessage_raised env s dataNew hdata henv]
    refine ⟨fun _ => rfl, ?_, rfl, rfl, rfl, rfl, rfl, rfl, rfl, rfl, rfl, rfl, rfl⟩
    intro message hparsed
    rw [henv] at hparsed
    exact absurd hparsed (by simp)
  · rw [tryMessage_parsed env s dataNew message hdata henv,
      onOperation_raises env _ message _ hraise hdec]
    have hnote : ∀ m : WebSocketMessage,
        (WebSocketSSLShard.noteSequence m s).currentState = s.currentState ∧
        (WebSocketSSLShard.noteSequence m s).sessionId = s.sessionId ∧
        (WebSocketSSLShard.noteSequence m s).areWeResuming = s.areWeResuming ∧
        (WebSocketSSLShard.noteSequence m s).doWeQuit = s.doWeQuit ∧
        (WebSocketSSLShard.noteSequence m s).socket = s.socket ∧
        (WebSocketSSLShard.noteSequence m s).connections = s.connections := by
      intro m
      unfold WebSocketSSLShard.noteSequence
      split <;> exact ⟨rfl, rfl, rfl, rfl, rfl, rfl⟩
    obtain ⟨h1, h2, h3, h4, h5, h6⟩ := hnote message
    refine ⟨?_, ?_, rfl, rfl, rfl, rfl, rfl, h1, h2, h3, h4, h5, h6⟩
    · intro hr
      rw [henv] at hr
      exact absurd hr (by simp)
    · intro other hparsed
      rw [henv] at hparsed
      cases hparsed
      rfl

/-- Witness for C25: a Hello whose `HelloData` does not decode reaches a shard in
`Collecting_Hello` that holds an assembled frame; the handler returns false and the state is
still `Collecting_Hello`. -/
theorem decode_error_drops_message_witness :
    (WebSocketSSLShard.onMessageReceived
        { sampleEnvironment with
          decode := fun _ =>
            { envelope := .parsed { op := 10, s := 0, t := "" }, dataRaises := true,
              sessionId := "", resumeGatewayUrl := "", d := false, heartbeatInterval := 0 } }
        { sampleShard with currentMessage := [0x81, 1, 0x41] } [0x41]).1 = false ∧
    (WebSocketSSLShard.onMessageReceived
        { sampleEnvironment with
          decode := fun _ =>
            { envelope := .parsed { op := 10, s := 0, t := "" }, dataRaises := true,
              sessionId := "", resumeGatewayUrl := "", d := false, heartbeatInterval := 0 } }
        { sampleShard with currentMessage := [0x81, 1, 0x41] } [0x41]).2.currentMessage = [] :=
  have h := decode_error_drops_message
    { sampleEnvironment with
      decode := fun _ =>
        { envelope := .parsed { op := 10, s := 0, t := "" }, dataRaises := true,
          sessionId := "", resumeGatewayUrl := "", d := false, heartbeatInterval := 0 } }
    { sampleShard with currentMessage := [0x81, 1, 0x41] } [0x41] (by decide) (by decide)
    (Or.inr ⟨{ op := 10, s := 0, t := "" }, rfl, rfl, by decide⟩)
  ⟨h.2.2.1, h.2.2.2.1⟩

theorem onClosed_lastNumberReceived (s : WebSocketSSLShard) :
    (WebSocketSSLShard.onClosed s).lastNumberReceived = s.lastNumberReceived := by
  unfold WebSocketSSLShard.onClosed WebSocketSSLShard.disconnect
  split
  · split <;> rfl
  · rfl

theorem sendMessage_lastNumberReceived (env : Environment) (s : WebSocketSSLShard)
    (dataToSend : List Nat) :
    (WebSocketCore.sendMessage env s dataToSend).2.lastNumberReceived =
      s.lastNumberReceived := by
  unfold WebSocketCore.sendMessage
  split
  · rfl
  · split
    · rfl
    · exact onClosed_lastNumberReceived s

theorem checkForAndSendHeartBeat_lastNumberReceived (env : Environment)
    (s : WebSocketSSLShard) (isImmediate : Bool) :
    (WebSocketCore.checkForAndSendHeartBeat env s isImmediate).2.lastNumberReceived =
      s.lastNumberReceived := by
  unfold WebSocketCore.checkForAndSendHeartBeat
  split
  · have h := sendMessage_lastNumberReceived env s
      (prepMessageData (env.serialize (.heartbeat s.lastNumberReceived)
        (decide (s.dataOpCode = WebSocketOpCode.Op_Binary.toNat))) s.dataOpCode)
    simp only []
    split
    · exact h
    · exact h
  · rfl

theorem identifyOrResume_lastNumberReceived (env : Environment) (s : WebSocketSSLShard) :
    (WebSocketSSLShard.identifyOrResume env s).2.lastNumberReceived =
      s.lastNumberReceived := by
  unfold WebSocketSSLShard.identifyOrResume
  dsimp only
  generalize prepMessageData _ s.dataOpCode = string
  split
  · exact sendMessage_lastNumberReceived env s string
  · exact sendMessage_lastNumberReceived env s string

theorem onHello_lastNumberReceived (env : Environment) (decoded : Decoded)
    (s : WebSocketSSLShard) :
    (WebSocketSSLShard.onHello env decoded s).2.lastNumberReceived =
      s.lastNumberReceived := by
  unfold WebSocketSSLShard.onHello
  split
  · rfl
  · rw [identifyOrResume_lastNumberReceived]
    split <;> rfl

theorem onDispatch_lastNumberReceived (decoded : Decoded) (message : WebSocketMessage)
    (s : WebSocketSSLShard) :
    (WebSocketSSLShard.onDispatch decoded message s).2.lastNumberReceived =
      s.lastNumberReceived := by
  unfold WebSocketSSLShard.onDispatch
  simp only [WebSocketSSLShard.dropMessage]
  split_ifs <;> rfl

/-- The switch on the operation code never writes the sequence number. -/
theorem onOperation_lastNumberReceived (env : Environment) (decoded : Decoded)
    (message : WebSocketMessage) (s : WebSocketSSLShard) :
    (WebSocketSSLShard.onOperation env decoded message s).2.lastNumberReceived =
      s.lastNumberReceived := by
  unfold WebSocketSSLShard.onOperation
  split_ifs
  · exact onDispatch_lastNumberReceived decoded message s
  · exact checkForAndSendHeartBeat_lastNumberReceived env s true
  · exact onClosed_lastNumberReceived _
  · rfl
  · exact onClosed_lastNumberReceived _
  · exact onHello_lastNumberReceived env decoded s
  · rfl
  · rfl

/-- C26, counterexample: a shard whose last-received sequence number is 10 accepts a Heartbeat
Ack that carries the sequence number 3; the handler returns true and the recorded number has
gone down to 3. -/
theorem sequence_number_decreases_counterexample :
    (WebSocketSSLShard.onMessageReceived (environmentDecoding { op := 11, s := 3, t := "" })
        { sampleShard with lastNumberReceived := 10 } [0x41]).1 = true ∧
    (WebSocketSSLShard.onMessageReceived (environmentDecoding { op := 11, s := 3, t := "" })
        { sampleShard with lastNumberReceived := 10 } [0x41]).2.lastNumberReceived = 3 ∧
    ¬ (10 ≤ (WebSocketSSLShard.onMessageReceived
        (environmentDecoding { op := 11, s := 3, t := "" })
        { sampleShard with lastNumberReceived := 10 } [0x41]).2.lastNumberReceived) := by
  decide

/-- C26, amended: for every admitted shard and every non-empty payload whose envelope decodes,
the handler leaves `lastNumberReceived` equal to the sequence number `s` of the message when
that is not zero, and unchanged when it is zero; hence the recorded number does not decrease
when the message carries no sequence number or one that is at least the recorded number, and
it decreases when the message carries a smaller one that is not zero. -/
theorem sequence_number_recorded (env : Environment) (s : WebSocketSSLShard)
    (dataNew : List Nat) (message : WebSocketMessage) (hadm : s.admits)
    (hdata : 0 < dataNew.length)
    (henv : (env.decode dataNew).envelope = .parsed message) :
    (WebSocketSSLShard.onMessageReceived env s dataNew).2.lastNumberReceived =
      (if message.s ≠ 0 then message.s else s.lastNumberReceived) ∧
    ((message.s = 0 ∨ s.lastNumberReceived ≤ message.s) →
      s.lastNumberReceived ≤
        (WebSocketSSLShard.onMessageReceived env s dataNew).2.lastNumberReceived) ∧
    ((message.s ≠ 0 ∧ message.s < s.lastNumberReceived) →
      (WebSocketSSLShard.onMessageReceived env s dataNew).2.lastNumberReceived <
        s.lastNumberReceived) := by
  rw [onMessageReceived_admitted env s dataNew hadm,
    tryMessage_parsed env s dataNew message hdata henv, onOperation_lastNumberReceived]
  have hnote : (WebSocketSSLShard.noteSequence message s).lastNumberReceived =
      (if message.s ≠ 0 then message.s else s.lastNumberReceived) := by
    unfold WebSocketSSLShard.noteSequence
    split <;> rfl
  rw [hnote]
  refine ⟨rfl, ?_, ?_⟩
  · rintro (h | h)
    · rw [if_neg (by simpa using h)]
    · split
      · exact h
      · exact Nat.le_refl _
  · rintro ⟨hne, hlt⟩
    rw [if_pos hne]
    exact hlt

/-- Witness for C26 (amended): a READY dispatch with sequence number 1 reaches a shard that
has recorded none; the recorded number is 1 afterwards. -/
theorem sequence_number_recorded_witness :
    (WebSocketSSLShard.onMessageReceived (environmentDecoding { op := 0, s := 1, t := "READY" })
        sampleShard [0x41]).2.lastNumberReceived =
      (if (1 : Nat) ≠ 0 then 1 else sampleShard.lastNumberReceived) :=
  (sequence_number_recorded (environmentDecoding { op := 0, s := 1, t := "READY" })
    sampleShard [0x41] { op := 0, s := 1, t := "READY" } (by decide) (by decide) rfl).1

/-! ## C27: the event-name mapping -/

theorem eventNames_length : eventNames.length = 60 := by decide

set_option maxRecDepth 100000 in
theorem eventNames_nodup : eventNames.Nodup := by decide

theorem EventConverter_of_mem (eventValue : String) (h : eventValue ∈ eventNames) :
    EventConverter eventValue = eventNames.indexOf eventValue + 1 := by
  unfold EventConverter
  simp only []
  rw [if_pos (List.indexOf_lt_length.mpr h)]

theorem EventConverter_of_not_mem (eventValue : String) (h : eventValue ∉ eventNames) :
    EventConverter eventValue = 0 := by
  unfold EventConverter
  simp only []
  rw [if_neg]
  intro hlt
  exact h (List.indexOf_lt_length.mp hlt)

/-- C27: `EventConverter` maps the 60 event names of its comparison chain, in the order of the
chain, to 1, 2, ..., 60 (so `"READY"` to 1, `"RESUMED"` to 2 and `"WEBHOOKS_UPDATE"` to 60);
the name at position `i` of the chain (from 0) maps to `i + 1`; two known names with the same
value are equal; and a string maps to 0 exactly when it is none of the 60 names, which is the
case for the empty string and for `"ready"` and `"Ready"`. -/
theorem EventConverter_mapping :
    eventNames.length = 60 ∧
    eventNames.map EventConverter = List.range' 1 60 ∧
    EventConverter "READY" = 1 ∧ EventConverter "RESUMED" = 2 ∧
    EventConverter "WEBHOOKS_UPDATE" = 60 ∧
    (∀ (i : Nat) (h : i < eventNames.length), EventConverter (eventNames.get ⟨i, h⟩) = i + 1) ∧
    (∀ a : String, a ∈ eventNames → 1 ≤ EventConverter a ∧ EventConverter a ≤ 60) ∧
    (∀ a b : String, a ∈ eventNames → b ∈ eventNames →
      EventConverter a = EventConverter b → a = b) ∧
    (∀ v : String, EventConverter v = 0 ↔ v ∉ eventNames) ∧
    EventConverter "" = 0 ∧ EventConverter "ready" = 0 ∧ EventConverter "Ready" = 0 := by
  refine ⟨eventNames_length, by decide, by decide, by decide, by decide, ?_, ?_, ?_, ?_,
    by decide, by decide, by decide⟩
  · intro i h
    rw [EventConverter_of_mem _ (List.get_mem _ _ _)]
    have hidx := List.indexOf_getElem eventNames_nodup i h
    simp only [List.get_eq_getElem]
    rw [hidx]
  · intro a ha
    rw [EventConverter_of_mem a ha]
    have hlt := List.indexOf_lt_length.mpr ha
    rw [eventNames_length] at hlt
    omega
  · intro a b ha hb hab
    rw [EventConverter_of_mem a ha, EventConverter_of_mem b hb] at hab
    exact (List.indexOf_inj ha hb).mp (by omega)
  · intro v
    constructor
    · intro h0 hmem
      rw [EventConverter_of_mem v hmem] at h0
      omega
    · exact EventConverter_of_not_mem v

/-! ## C29, C30: LightString -/

theorem assign_of_ne_nil (values other : List Nat) (h : other ≠ []) :
    LightString.assign values other = other := by
  unfold LightString.assign
  have hlen : other.length ≠ 0 := fun h0 => h (List.length_eq_zero.mp h0)
  simp only [ne_eq, hlen, not_false_eq_true, if_true]
  rw [List.take_length, List.take_append_of_le_length (Nat.le_refl _), List.take_length]

theorem equals_iff (values rhs : List Nat) :
    LightString.equals values rhs = true ↔ values = rhs := by
  unfold LightString.equals JsonifierCoreInternal.compare
  by_cases hlen : rhs.length = values.length
  · simp only [ne_eq, hlen, not_true_eq_false, if_false, decide_eq_true_eq]
    rw [← hlen, List.take_length]
    nth_rewrite 1 [hlen]
    rw [List.take_length]
    exact eq_comm
  · simp only [ne_eq, hlen, not_false_eq_true, if_true]
    constructor
    · intro h
      exact absurd h Bool.false_ne_true
    · intro h
      rw [h] at hlen
      exact absurd rfl hlen

/-- C29: copy assignment from an empty string leaves the target as it was, so a target that
holds characters is not equal to the source afterwards: `a = b` with `a = "abc"` and `b = ""`
leaves `a == b` false, and so does every target with at least one character. When the source
is not empty the assignment does yield equality, whatever the target held. -/
theorem copy_assignment_from_empty_keeps_target :
    LightString.assign [97, 98, 99] [] = [97, 98, 99] ∧
    LightString.equals (LightString.assign [97, 98, 99] []) [] = false ∧
    (∀ (c : Nat) (values : List Nat),
      LightString.assign (c :: values) [] = c :: values ∧
      LightString.equals (LightString.assign (c :: values) []) [] = false) ∧
    (∀ (values : List Nat) (c : Nat) (other : List Nat),
      LightString.assign values (c :: other) = c :: other ∧
      LightString.equals (LightString.assign values (c :: other)) (c :: other) = true) := by
  refine ⟨by decide, by decide, ?_, ?_⟩
  · intro c values
    exact ⟨rfl, rfl⟩
  · intro values c other
    have h := assign_of_ne_nil values (c :: other) (by simp)
    rw [h]
    exact ⟨rfl, (equals_iff _ _).mpr rfl⟩

/-- C30: for every string and every `pos` below its size, `erase(count, pos)` leaves the
characters before `pos` followed by the characters from `pos + min(count, size - pos)` on, and
the size shrinks by `min(count, size - pos)`; with `pos` at or past the size, or `count` zero,
the string is unchanged; `erase(n)` with `pos = 0` drops the first `min(n, size)` characters
and keeps the rest in order. -/
theorem erase_removes_range (values : List Nat) (count pos : Nat) :
    (pos < values.length →
      LightString.erase values count pos =
        values.take pos ++ values.drop (pos + min count (values.length - pos)) ∧
      (LightString.erase values count pos).length =
        values.length - min count (values.length - pos)) ∧
    (values.length ≤ pos ∨ count = 0 → LightString.erase values count pos = values) ∧
    LightString.erase values count 0 = values.drop (min count values.length) ∧
    (LightString.erase values count 0).length = values.length - min count values.length := by
  have hmain : pos < values.length →
      LightString.erase values count pos =
        values.take pos ++ values.drop (pos + min count (values.length - pos)) := by
    intro hpos
    unfold LightString.erase
    rw [if_neg (by omega)]
    simp only []
    by_cases hc : min count (values.length - pos) > 0
    · rw [if_pos hc]
    · rw [if_neg hc]
      have h0 : min count (values.length - pos) = 0 := by omega
      rw [h0, Nat.add_zero, List.take_append_drop]
  have hfront : LightString.erase values count 0 = values.drop (min count values.length) := by
    rw [erase_front]
    rcases Nat.le_total count values.length with h | h
    · rw [Nat.min_eq_left h]
    · rw [Nat.min_eq_right h, List.drop_of_length_le h, List.drop_of_length_le (Nat.le_refl _)]
  refine ⟨?_, ?_, hfront, ?_⟩
  · intro hpos
    refine ⟨hmain hpos, ?_⟩
    rw [hmain hpos, List.length_append, List.length_take, List.length_drop]
    omega
  · rintro (hpos | hcount)
    · unfold LightString.erase
      rw [if_pos hpos]
    · unfold LightString.erase
      split
      · rfl
      · simp only []
        rw [if_neg]
        rw [hcount]
        simp
  · rw [hfront, List.length_drop]

/-- Witness for C30: erasing 2 characters at position 1 of `"abcde"` leaves `"ade"`. -/
theorem erase_removes_range_witness :
    LightString.erase [97, 98, 99, 100, 101] 2 1 =
      List.take 1 [97, 98, 99, 100, 101] ++
        List.drop (1 + min 2 ([97, 98, 99, 100, 101].length - 1)) [97, 98, 99, 100, 101] ∧
    LightString.erase [97, 98, 99, 100, 101] 2 1 = [97, 100, 101] :=
  ⟨((erase_removes_range [97, 98, 99, 100, 101] 2 1).1 (by decide)).1, by decide⟩

/-! ## C22: the delay before the reconnect of an Invalid Session -/

theorem excessBits_spec (fuel : Nat) : ∀ n : Nat, n ≤ fuel →
    (n < 2 ^ 24 → excessBits fuel n = 0) ∧
    (2 ^ 24 ≤ n → 2 ^ 23 * 2 ^ excessBits fuel n ≤ n ∧ n < 2 ^ 24 * 2 ^ excessBits fuel n) := by
  induction fuel with
  | zero =>
    intro n hn
    constructor
    · intro _
      rfl
    · intro h24
      omega
  | succ fuel ih =>
    intro n hn
    constructor
    · intro hsmall
      unfold excessBits
      rw [if_pos hsmall]
    · intro h24
      unfold excessBits
      rw [if_neg (by omega)]
      have hhalf : n / 2 ≤ fuel := by omega
      obtain ⟨hs, hl⟩ := ih (n / 2) hhalf
      by_cases hsmall : n / 2 < 2 ^ 24
      · rw [hs hsmall]
        omega
      · obtain ⟨h1, h2⟩ := hl (by omega)
        rw [Nat.pow_succ]
        generalize 2 ^ excessBits fuel (n / 2) = P at h1 h2 ⊢
        omega

theorem roundToFloat_eq (n : Nat) :
    roundToFloat n =
      (if 2 * (n % 2 ^ excessBits n n) > 2 ^ excessBits n n ∨
          (2 * (n % 2 ^ excessBits n n) = 2 ^ excessBits n n ∧
            n / 2 ^ excessBits n n % 2 = 1) then
        n / 2 ^ excessBits n n * 2 ^ excessBits n n + 2 ^ excessBits n n
      else n / 2 ^ excessBits n n * 2 ^ excessBits n n) := by
  unfold roundToFloat
  simp only [Nat.add_mul, Nat.one_mul]

/-- A number of fewer than 25 bits is its own rounding. -/
theorem roundToFloat_small (n : Nat) (h : n < 2 ^ 24) : roundToFloat n = n := by
  rw [roundToFloat_eq, ((excessBits_spec n n (Nat.le_refl n)).1 h)]
  simp [Nat.mod_one]

/-- A number of 25 bits or more lies between two neighbouring multiples `A` and `A + P` of the
weight `P` of the last bit of its significand; its rounding is one of the two, and both lie
between `2 ^ 23 * P` and `2 ^ 24 * P`. -/
theorem roundToFloat_large (n : Nat) (h : 2 ^ 24 ≤ n) :
    ∃ A rem : Nat,
      A = n / 2 ^ excessBits n n * 2 ^ excessBits n n ∧ n = A + rem ∧
      rem < 2 ^ excessBits n n ∧ 2 ^ 23 * 2 ^ excessBits n n ≤ A ∧
      A + 2 ^ excessBits n n ≤ 2 ^ 24 * 2 ^ excessBits n n ∧
      roundToFloat n =
        (if 2 * rem > 2 ^ excessBits n n ∨
            (2 * rem = 2 ^ excessBits n n ∧ n / 2 ^ excessBits n n % 2 = 1) then
          A + 2 ^ excessBits n n
        else A) := by
  obtain ⟨h1, h2⟩ := (excessBits_spec n n (Nat.le_refl n)).2 h
  have hpos : 0 < 2 ^ excessBits n n := Nat.two_pow_pos _
  refine ⟨n / 2 ^ excessBits n n * 2 ^ excessBits n n, n % 2 ^ excessBits n n, rfl, ?_,
    Nat.mod_lt n hpos, ?_, ?_, roundToFloat_eq n⟩
  · exact (Nat.div_add_mod' n (2 ^ excessBits n n)).symm
  · exact Nat.mul_le_mul_right _ ((Nat.le_div_iff_mul_le hpos).mpr h1)
  · have hq : n / 2 ^ excessBits n n + 1 ≤ 2 ^ 24 := (Nat.div_lt_iff_lt_mul hpos).mpr h2
    have hmul := Nat.mul_le_mul_right (2 ^ excessBits n n) hq
    rw [Nat.add_mul, Nat.one_mul] at hmul
    exact hmul

/-- Rounding to `float` precision is monotone. -/
theorem roundToFloat_mono (a b : Nat) (hab : a ≤ b) : roundToFloat a ≤ roundToFloat b := by
  by_cases hb : b < 2 ^ 24
  · rw [roundToFloat_small a (by omega), roundToFloat_small b hb]
    exact hab
  · obtain ⟨B, remb, hB, hbsum, hremb, hBlow, hBhigh, hroundb⟩ :=
      roundToFloat_large b (by omega)
    by_cases ha : a < 2 ^ 24
    · rw [roundToFloat_small a ha, hroundb]
      generalize 2 ^ excessBits b b = P at *
      split <;> omega
    · obtain ⟨A, rema, hA, hasum, hrema, hAlow, hAhigh, hrounda⟩ :=
        roundToFloat_large a (by omega)
      rw [hrounda, hroundb]
      rcases Nat.lt_trichotomy (excessBits a a) (excessBits b b) with hs | hs | hs
      · have hpow : 2 ^ (excessBits a a + 1) ≤ 2 ^ excessBits b b :=
          Nat.pow_le_pow_right (by decide) hs
        rw [Nat.pow_succ] at hpow
        generalize 2 ^ excessBits b b = Pb at *
        generalize 2 ^ excessBits a a = Pa at *
        split <;> split <;> omega
      · rw [hs] at hA hrema hAlow hAhigh ⊢
        rcases Nat.lt_trichotomy (a / 2 ^ excessBits b b) (b / 2 ^ excessBits b b)
          with hq | hq | hq
        · have hmul := Nat.mul_le_mul_right (2 ^ excessBits b b) (Nat.succ_le_of_lt hq)
          rw [Nat.succ_mul, ← hA, ← hB] at hmul
          generalize 2 ^ excessBits b b = P at *
          split <;> split <;> omega
        · have hAB : A = B := by rw [hA, hB, hq]
          rw [hq]
          generalize b / 2 ^ excessBits b b = q at *
          generalize 2 ^ excessBits b b = P at *
          split <;> split <;> omega
        · have hmul := Nat.mul_le_mul_right (2 ^ excessBits b b) (Nat.succ_le_of_lt hq)
          rw [Nat.succ_mul, ← hA, ← hB] at hmul
          generalize 2 ^ excessBits b b = P at *
          omega
      · have hpow : 2 ^ (excessBits b b + 1) ≤ 2 ^ excessBits a a :=
          Nat.pow_le_pow_right (by decide) hs
        rw [Nat.pow_succ] at hpow
        generalize 2 ^ excessBits b b = Pb at *
        generalize 2 ^ excessBits a a = Pa at *
        omega

/-- Rounding keeps a number a multiple of every power of two that divides it. -/
theorem roundToFloat_dvd (k n : Nat) (h : 2 ^ k ∣ n) : 2 ^ k ∣ roundToFloat n := by
  rw [roundToFloat_eq]
  rcases Nat.le_total k (excessBits n n) with hk | hk
  · have hP : 2 ^ k ∣ 2 ^ excessBits n n := Nat.pow_dvd_pow 2 hk
    split
    · exact Nat.dvd_add (Dvd.dvd.mul_left hP _) hP
    · exact Dvd.dvd.mul_left hP _
  · have hP : 2 ^ excessBits n n ∣ n := Nat.dvd_trans (Nat.pow_dvd_pow 2 hk) h
    have hmod : n % 2 ^ excessBits n n = 0 := Nat.mod_eq_zero_of_dvd hP
    have hpos : 0 < 2 ^ excessBits n n := Nat.two_pow_pos _
    rw [hmod, if_neg (by omega), Nat.div_mul_cancel hP]
    exact h

set_option maxRecDepth 10000 in
theorem ofNat_max : Float32.ofNat (2 ^ 64 - 1) = 2 ^ 128 := by decide

set_option maxRecDepth 10000 in
theorem ofNat_1000 : Float32.ofNat 1000 = 1000 * 2 ^ 64 := by decide

set_option maxRecDepth 10000 in
theorem ofNat_4000 : Float32.ofNat 4000 = 4000 * 2 ^ 64 := by decide

/-- The quotient and the product of lines 1305-1306 are exact before they are rounded: the
divisor divides the scaled dividend, and the product of the two factors is a multiple of the
unit. -/
theorem division_exact (randomValue : Nat) :
    Float32.ofNat (2 ^ 64 - 1) ∣ Float32.ofNat randomValue * floatUnit ∧
    floatUnit ∣
      Float32.div (Float32.ofNat randomValue) (Float32.ofNat (2 ^ 64 - 1)) *
        Float32.ofNat 4000 := by
  constructor
  · rw [ofNat_max]
    have h : 2 ^ 64 ∣ Float32.ofNat randomValue :=
      roundToFloat_dvd 64 _ (Dvd.intro_left randomValue rfl)
    obtain ⟨c, hc⟩ := h
    rw [hc]
    exact ⟨c, by unfold floatUnit; ring⟩
  · rw [ofNat_4000]
    exact Dvd.dvd.mul_left (Dvd.intro_left 4000 rfl) _

/-- The delay for every output of the engine lies between 1000 and 5000, both included. -/
theorem numOfMsToWait_bounds (randomValue : Nat) (h : randomValue < 2 ^ 64) :
    1000 ≤ numOfMsToWait randomValue ∧ numOfMsToWait randomValue ≤ 5000 := by
  have hnum : Float32.ofNat randomValue ≤ 2 ^ 128 := by
    rw [← ofNat_max]
    exact roundToFloat_mono _ _ (Nat.mul_le_mul_right _ (by omega))
  have hone : roundToFloat (2 ^ 64) = 2 ^ 64 := by decide
  have hquot : Float32.div (Float32.ofNat randomValue) (Float32.ofNat (2 ^ 64 - 1)) ≤
      2 ^ 64 := by
    rw [ofNat_max]
    refine Nat.le_trans (roundToFloat_mono _ (2 ^ 64) ?_) (Nat.le_of_eq hone)
    unfold floatUnit
    omega
  have h4000 : roundToFloat (4000 * 2 ^ 64) = 4000 * 2 ^ 64 := by decide
  have hprod : Float32.mul
      (Float32.div (Float32.ofNat randomValue) (Float32.ofNat (2 ^ 64 - 1)))
      (Float32.ofNat 4000) ≤ 4000 * 2 ^ 64 := by
    rw [ofNat_4000]
    refine Nat.le_trans (roundToFloat_mono _ (4000 * 2 ^ 64) ?_) (Nat.le_of_eq h4000)
    unfold floatUnit
    omega
  have h1000 : roundToFloat (1000 * 2 ^ 64) = 1000 * 2 ^ 64 := by decide
  have h5000 : roundToFloat (5000 * 2 ^ 64) = 5000 * 2 ^ 64 := by decide
  unfold numOfMsToWait
  generalize Float32.mul _ _ = product at hprod
  have hlow : 1000 * 2 ^ 64 ≤ Float32.add (Float32.ofNat 1000) product := by
    rw [ofNat_1000]
    exact Nat.le_trans (Nat.le_of_eq h1000.symm) (roundToFloat_mono _ _ (by omega))
  have hhigh : Float32.add (Float32.ofNat 1000) product ≤ 5000 * 2 ^ 64 := by
    rw [ofNat_1000]
    exact Nat.le_trans (roundToFloat_mono _ (5000 * 2 ^ 64) (by omega)) (Nat.le_of_eq h5000)
  unfold Float32.toInt32 floatUnit
  omega

set_option maxRecDepth 10000 in
theorem numOfMsToWait_max : numOfMsToWait (2 ^ 64 - 1) = 5000 := by decide

set_option maxRecDepth 10000 in
theorem numOfMsToWait_zero : numOfMsToWait 0 = 1000 := by decide

/-- C22, counterexample: for the largest output of the engine, `2 ^ 64 - 1`, the quotient is
1 and the delay is 5000 ms, which is not below 5000. -/
theorem numOfMsToWait_max_counterexample :
    2 ^ 64 - 1 < 2 ^ 64 ∧ numOfMsToWait (2 ^ 64 - 1) = 5000 ∧
      ¬ (1000 ≤ numOfMsToWait (2 ^ 64 - 1) ∧ numOfMsToWait (2 ^ 64 - 1) < 5000) := by
  rw [numOfMsToWait_max]
  decide

/-- C22, amended: for every output of the random engine the delay `numOfMsToWait` lies in the
closed interval from 1000 to 5000 milliseconds; both ends are reached, 1000 for the output 0
and 5000 for the output `2 ^ 64 - 1`. -/
theorem numOfMsToWait_closed_interval (randomValue : Nat) (h : randomValue < 2 ^ 64) :
    (1000 ≤ numOfMsToWait randomValue ∧ numOfMsToWait randomValue ≤ 5000) ∧
    numOfMsToWait 0 = 1000 ∧ numOfMsToWait (2 ^ 64 - 1) = 5000 :=
  ⟨numOfMsToWait_bounds randomValue h, numOfMsToWait_zero, numOfMsToWait_max⟩

/-- Witness for C22 (amended): the output `2 ^ 63` gives a delay between 1000 and 5000 ms. -/
theorem numOfMsToWait_closed_interval_witness :
    2 ^ 63 < 2 ^ 64 ∧ 1000 ≤ numOfMsToWait (2 ^ 63) ∧ numOfMsToWait (2 ^ 63) ≤ 5000 :=
  ⟨by decide, (numOfMsToWait_closed_interval (2 ^ 63) (by decide)).1⟩

/-! ## C28: the admission flag on the ways out of `connect` -/

/-- A call of `connect` that finds the admission flag false does not return. -/
theorem connect_blocked (env : ConnectEnvironment) (fuel : Nat) (packageNew : ConnectionPackage)
    (agent : BaseSocketAgent) (h : agent.isItSafeToConnect = false) :
    BaseSocketAgent.connect env fuel packageNew agent = none := by
  unfold BaseSocketAgent.connect
  rw [if_pos h]

theorem finishConnect_gate (env : ConnectEnvironment) (fuel : Nat) (s : WebSocketSSLShard)
    (after : BaseSocketAgent) (h : BaseSocketAgent.finishConnect env fuel s = some after) :
    after.isItSafeToConnect = true := by
  unfold BaseSocketAgent.finishConnect at h
  split at h
  · exact absurd h (by simp)
  · cases h
    rfl
  · cases h
    rfl

/-- The ways out of `connect` that do store `true`: a call for a shard other than -1 whose
stopwatch has not run out at line 1486 returns with the admission flag true. -/
theorem connect_restores_gate (env : ConnectEnvironment) (fuel : Nat)
    (packageNew : ConnectionPackage) (agent after : BaseSocketAgent)
    (hshard : packageNew.currentShard ≠ -1) (hstart : env.hasTimePassedAtStart = false)
    (h : BaseSocketAgent.connect env fuel packageNew agent = some after) :
    after.isItSafeToConnect = true := by
  unfold BaseSocketAgent.connect at h
  by_cases hflag : agent.isItSafeToConnect = false
  · rw [if_pos hflag] at h
    exact absurd h (by simp)
  · rw [if_neg hflag, if_pos hshard] at h
    simp only [hstart, Bool.false_eq_true, if_false] at h
    split at h
    · exact absurd h (by simp)
    · cases h
      rfl
    · exact finishConnect_gate env fuel _ after h

/-- The first polling loop ends once its stopwatch has run out: with a pass below the fuel at
which `hasTimePassed` holds, the loop is not still polling. -/
theorem awaitHello_ends (env : ConnectEnvironment) :
    ∀ (fuel pass : Nat) (s : WebSocketSSLShard),
      (∃ k, k < fuel ∧ env.hasTimePassed 1 (pass + k) = true) →
      BaseSocketAgent.awaitHello env fuel pass s ≠ .polling := by
  intro fuel
  induction fuel with
  | zero =>
    rintro pass s ⟨k, hk, _⟩
    omega
  | succ fuel ih =>
    rintro pass s ⟨k, hk, hpassed⟩
    unfold BaseSocketAgent.awaitHello
    by_cases hquit : s.doWeQuit = some true
    · rw [if_pos hquit]
      simp
    · rw [if_neg hquit]
      by_cases hstate : s.currentState ≠ .Collecting_Hello
      · rw [if_pos hstate]
        simp
      · rw [if_neg hstate]
        simp only []
        by_cases herror : (env.processIO 1 pass s).1 ≠ .No_Error
        · rw [if_pos herror]
          simp
        · rw [if_neg herror]
          by_cases htime : env.hasTimePassed 1 pass = true
          · rw [if_pos htime]
            simp
          · rw [if_neg htime]
            apply ih
            cases k with
            | zero => exact absurd hpassed htime
            | succ k => exact ⟨k, by omega, by rw [← hpassed]; congr 1; omega⟩

/-- The second polling loop ends once its stopwatch has run out. -/
theorem awaitAuthenticated_ends (env : ConnectEnvironment) :
    ∀ (fuel pass : Nat) (s : WebSocketSSLShard),
      (∃ k, k < fuel ∧ env.hasTimePassed 2 (pass + k) = true) →
      BaseSocketAgent.awaitAuthenticated env fuel pass s ≠ .polling := by
  intro fuel
  induction fuel with
  | zero =>
    rintro pass s ⟨k, hk, _⟩
    omega
  | succ fuel ih =>
    rintro pass s ⟨k, hk, hpassed⟩
    unfold BaseSocketAgent.awaitAuthenticated
    by_cases hquit : s.doWeQuit = some true
    · rw [if_pos hquit]
      simp
    · rw [if_neg hquit]
      by_cases hstate : s.currentState = .Authenticated
      · rw [if_pos hstate]
        simp
      · rw [if_neg hstate]
        by_cases htime : env.hasTimePassed 2 pass = true
        · rw [if_pos htime]
          simp
        · rw [if_neg htime]
          simp only []
          by_cases herror : (env.processIO 2 pass s).1 ≠ .No_Error
          · rw [if_pos herror]
            simp
          · rw [if_neg herror]
            apply ih
            cases k with
            | zero => exact absurd hpassed htime
            | succ k => exact ⟨k, by omega, by rw [← hpassed]; congr 1; omega⟩

/-- A call of `connect` that finds the admission flag true returns when both stopwatches run
out within the fuel. -/
theorem connect_returns (env : ConnectEnvironment) (fuel : Nat)
    (packageNew : ConnectionPackage) (agent : BaseSocketAgent)
    (hflag : agent.isItSafeToConnect = true)
    (hfirst : ∃ k, k < fuel ∧ env.hasTimePassed 1 k = true)
    (hsecond : ∃ k, k < fuel ∧ env.hasTimePassed 2 k = true) :
    BaseSocketAgent.connect env fuel packageNew agent ≠ none := by
  have h1 : ∀ s, BaseSocketAgent.awaitHello env fuel 0 s ≠ .polling := by
    intro s
    apply awaitHello_ends
    obtain ⟨k, hk, hp⟩ := hfirst
    exact ⟨k, hk, by rw [Nat.zero_add]; exact hp⟩
  have h2 : ∀ s, BaseSocketAgent.awaitAuthenticated env fuel 0 s ≠ .polling := by
    intro s
    apply awaitAuthenticated_ends
    obtain ⟨k, hk, hp⟩ := hsecond
    exact ⟨k, hk, by rw [Nat.zero_add]; exact hp⟩
  have hfinish : ∀ s, BaseSocketAgent.finishConnect env fuel s ≠ none := by
    intro s
    unfold BaseSocketAgent.finishConnect
    split
    · rename_i heq
      exact absurd heq (h2 _)
    · simp
    · simp
  unfold BaseSocketAgent.connect
  rw [if_neg (by rw [hflag]; exact Bool.noConfusion)]
  by_cases hshard : packageNew.currentShard ≠ -1
  · rw [if_pos hshard]
    by_cases hstart : env.hasTimePassedAtStart = true
    · rw [if_pos hstart]
      simp
    · rw [if_neg hstart]
      split
      · rename_i heq
        exact absurd heq (h1 _)
      · simp
      · exact hfinish _
  · rw [if_neg hshard]
    simp

/-- C28: a call of `connect` with a package whose `currentShard` is -1, made while the
admission flag is true, returns with the flag false and the shard untouched, whatever the
environment, the other fields of the package and the shard; so does a call for shard 0 whose
stopwatch has run out at line 1486; and every later call, finding the flag false, does not
return. The timeout of the first polling loop, by contrast, returns with the flag true. -/
theorem connect_leaves_gate_closed :
    (∀ (env : ConnectEnvironment) (fuel tries : Nat) (resuming : Bool)
        (shard : WebSocketSSLShard),
      BaseSocketAgent.connect env fuel
          { currentReconnectTries := tries, areWeResuming := resuming, currentShard := -1 }
          { isItSafeToConnect := true, shard := shard } =
        some { isItSafeToConnect := false, shard := shard }) ∧
    (∀ (env : ConnectEnvironment) (fuel : Nat) (packageNew : ConnectionPackage)
        (shard : WebSocketSSLShard),
      BaseSocketAgent.connect env fuel packageNew
          { isItSafeToConnect := false, shard := shard } = none) ∧
    BaseSocketAgent.connect { slowEnvironment with hasTimePassedAtStart := true } 5
        { currentReconnectTries := 0, areWeResuming := false, currentShard := 0 }
        { isItSafeToConnect := true, shard := sampleShard } =
      some { isItSafeToConnect := false,
             shard := { sampleShard with
               socket := SOCKET_ERROR, ssl := false, currentState := .Disconnected,
               currentReconnectTries := 1,
               connections := some
                 { currentReconnectTries := 1, areWeResuming := false, currentShard := 0 } } } ∧
    (BaseSocketAgent.connect slowEnvironment 5
        { currentReconnectTries := 0, areWeResuming := false, currentShard := 0 }
        { isItSafeToConnect := true, shard := sampleShard }).map
      (fun after => after.isItSafeToConnect) = some true := by
  refine ⟨?_, ?_, by decide, by decide⟩
  · intro env fuel tries resuming shard
    rfl
  · intro env fuel packageNew shard
    exact connect_blocked env fuel packageNew _ rfl

end DiscordCoreInternal
